import Mathlib

/-!
# telegram-gatekeeper: verification state machine and moderation overrides

A shallow embedding of the Go sources

* `database/models.go`, `database/mongo.go` (the `users` collection and its updates),
* `handlers/message.go` (message, callback and moderation handlers),
* `handlers/captcha.go` (challenge generation and delivery),
* `config/config.go` (loading of the challenge pools),

followed by theorems about the embedded handlers.

Modelling conventions.

* The `users` collection is a list of documents; `FindOne` returns the first document
  whose `telegram_id` matches and `UpdateOne` rewrites that document only.
* Persistence and transport calls succeed; a lookup fails only when no document
  matches.  What a handler sends is recorded as a list of `Output` values.
* `time.Now()` is a parameter `now` of each handler run (nanoseconds, as in
  `time.Duration`); the zero `time.Time` is `0`.
* `math/rand` is a list of draws: `rand.Intn n` consumes the next draw `d` and
  yields `d % n`.  A generator that runs out of draws yields `none`.
* Go `int` and `int64` values are `Int`; `strconv.ParseInt` enforces the 64-bit
  range on what it reads.  The attempt counter is not bounded in the model.
* A Go string is its sequence of Unicode code points; `unicode.SimpleFold` is the
  table of case-folding orbits of Unicode 15.0.0, the version of the Go 1.21 library.
* A handler run is a function on the collection. `setupPolling` starts one goroutine
  per update; the one interleaving of two handlers that is considered, `readThenRun`,
  is built from the two halves of `handleMessage`.
-/

namespace Gatekeeper

/-! ## Go library functions used by the handlers -/

/-- Go `strings.Split(s, sep)` for a one-character separator, on character lists. -/
def splitOnChar (sep : Char) : List Char → List (List Char)
  | [] => [[]]
  | c :: cs =>
    match splitOnChar sep cs with
    | [] => [[]]
    | p :: ps => if c = sep then [] :: p :: ps else (c :: p) :: ps

/-- Go `strings.Split(s, "_")`. -/
def Split (s : String) (sep : Char) : List String :=
  (splitOnChar sep s.data).map String.mk

/-- Go `strings.HasPrefix(s, p)`. -/
def HasPrefix (s p : String) : Bool :=
  p.data.isPrefixOf s.data

/-- Value of a decimal digit character, `none` for any other character. -/
def digitVal (c : Char) : Option Nat :=
  if 48 ≤ c.toNat ∧ c.toNat ≤ 57 then some (c.toNat - 48) else none

/-- Reads a run of decimal digits, most significant first, onto an accumulator. -/
def parseDigits : List Char → Nat → Option Nat
  | [], acc => some acc
  | c :: cs, acc =>
    match digitVal c with
    | none => none
    | some d => parseDigits cs (acc * 10 + d)

/-- A non-empty run of decimal digits. -/
def parseUint (cs : List Char) : Option Nat :=
  match cs with
  | [] => none
  | _ :: _ => parseDigits cs 0

/-- Go `strconv.ParseInt(s, 10, 64)`: an optional sign, at least one decimal digit,
and a value inside the signed 64-bit range; `none` stands for a non-nil error. -/
def ParseInt (s : String) : Option Int :=
  match s.data with
  | [] => none
  | c :: cs =>
    if c = '-' then
      match parseUint cs with
      | none => none
      | some n => if n ≤ 2 ^ 63 then some (-(n : Int)) else none
    else if c = '+' then
      match parseUint cs with
      | none => none
      | some n => if n < 2 ^ 63 then some (n : Int) else none
    else
      match parseUint (c :: cs) with
      | none => none
      | some n => if n < 2 ^ 63 then some (n : Int) else none

/-- Go `strconv.Atoi(s)` on a 64-bit platform: the same language as `ParseInt(s, 10, 64)`. -/
def Atoi (s : String) : Option Int :=
  ParseInt s

/-- Go `fmt.Sprintf("%d", n)`. -/
def fmtInt (n : Int) : String :=
  toString n

/-- Go `unicode.IsSpace`: the code points with the White_Space property. -/
def IsSpace (c : Char) : Bool :=
  let n := c.toNat
  (9 ≤ n && n ≤ 13) || n = 32 || n = 0x85 || n = 0xA0 || n = 0x1680 ||
  (0x2000 ≤ n && n ≤ 0x200A) || n = 0x2028 || n = 0x2029 || n = 0x202F ||
  n = 0x205F || n = 0x3000

/-- Go `strings.TrimSpace(s)`: drops leading and trailing white space. -/
def TrimSpace (s : String) : String :=
  String.mk ((s.data.dropWhile IsSpace).reverse.dropWhile IsSpace).reverse

/-- How a range of the fold table moves a code point to the next member of its orbit. -/
inductive FoldStep where
  | up (d : Nat)
  | down (d : Nat)
  | pair
  deriving DecidableEq, Repr

/-- A run `lo .. hi` of code points that fold in the same way. -/
structure FoldRange where
  lo : Nat
  hi : Nat
  step : FoldStep
  deriving DecidableEq, Repr

/-- A range whose code points fold upwards by `d`. -/
abbrev rangeUp (lo hi d : Nat) : FoldRange := ⟨lo, hi, FoldStep.up d⟩

/-- A range whose code points fold downwards by `d`. -/
abbrev rangeDown (lo hi d : Nat) : FoldRange := ⟨lo, hi, FoldStep.down d⟩

/-- A range of adjacent pairs: the code points at even offsets fold to their successor and
those at odd offsets to their predecessor. -/
abbrev rangePair (lo hi : Nat) : FoldRange := ⟨lo, hi, FoldStep.pair⟩

/-- Fold ranges of Basic Latin, Latin-1 and Latin Extended-A. -/
def foldRangesLatin : List FoldRange :=
  [rangeUp 0x41 0x4A 32, rangeUp 0x4B 0x4B 32, rangeUp 0x4C 0x52 32, rangeUp 0x53 0x53 32,
   rangeUp 0x54 0x5A 32, rangeDown 0x61 0x6A 32, rangeUp 0x6B 0x6B 8383, rangeDown 0x6C 0x72 32,
   rangeUp 0x73 0x73 268, rangeDown 0x74 0x7A 32, rangeUp 0xB5 0xB5 743, rangeUp 0xC0 0xC4 32,
   rangeUp 0xC5 0xC5 32, rangeUp 0xC6 0xD6 32, rangeUp 0xD8 0xDE 32, rangeUp 0xDF 0xDF 7615,
   rangeDown 0xE0 0xE4 32, rangeUp 0xE5 0xE5 8262, rangeDown 0xE6 0xF6 32,
   rangeDown 0xF8 0xFE 32, rangeUp 0xFF 0xFF 121, rangePair 0x100 0x12F, rangePair 0x132 0x137,
   rangePair 0x139 0x148, rangePair 0x14A 0x177, rangeDown 0x178 0x178 121,
   rangePair 0x179 0x17E, rangeDown 0x17F 0x17F 300]

/-- Fold ranges of Latin Extended-B. -/
def foldRangesLatinB : List FoldRange :=
  [rangeUp 0x180 0x180 195, rangeUp 0x181 0x181 210, rangePair 0x182 0x185,
   rangeUp 0x186 0x186 206, rangePair 0x187 0x188, rangeUp 0x189 0x18A 205,
   rangePair 0x18B 0x18C, rangeUp 0x18E 0x18E 79, rangeUp 0x18F 0x18F 202,
   rangeUp 0x190 0x190 203, rangePair 0x191 0x192, rangeUp 0x193 0x193 205,
   rangeUp 0x194 0x194 207, rangeUp 0x195 0x195 97, rangeUp 0x196 0x196 211,
   rangeUp 0x197 0x197 209, rangePair 0x198 0x199, rangeUp 0x19A 0x19A 163,
   rangeUp 0x19C 0x19C 211, rangeUp 0x19D 0x19D 213, rangeUp 0x19E 0x19E 130,
   rangeUp 0x19F 0x19F 214, rangePair 0x1A0 0x1A5, rangeUp 0x1A6 0x1A6 218,
   rangePair 0x1A7 0x1A8, rangeUp 0x1A9 0x1A9 218, rangePair 0x1AC 0x1AD,
   rangeUp 0x1AE 0x1AE 218, rangePair 0x1AF 0x1B0, rangeUp 0x1B1 0x1B2 217,
   rangePair 0x1B3 0x1B6, rangeUp 0x1B7 0x1B7 219, rangePair 0x1B8 0x1B9, rangePair 0x1BC 0x1BD,
   rangeUp 0x1BF 0x1BF 56, rangeUp 0x1C4 0x1C4 1, rangeUp 0x1C5 0x1C5 1, rangeDown 0x1C6 0x1C6 2,
   rangeUp 0x1C7 0x1C7 1, rangeUp 0x1C8 0x1C8 1, rangeDown 0x1C9 0x1C9 2, rangeUp 0x1CA 0x1CA 1,
   rangeUp 0x1CB 0x1CB 1, rangeDown 0x1CC 0x1CC 2, rangePair 0x1CD 0x1DC,
   rangeDown 0x1DD 0x1DD 79, rangePair 0x1DE 0x1EF, rangeUp 0x1F1 0x1F1 1, rangeUp 0x1F2 0x1F2 1,
   rangeDown 0x1F3 0x1F3 2, rangePair 0x1F4 0x1F5, rangeDown 0x1F6 0x1F6 97,
   rangeDown 0x1F7 0x1F7 56, rangePair 0x1F8 0x21F, rangeDown 0x220 0x220 130,
   rangePair 0x222 0x233, rangeUp 0x23A 0x23A 10795, rangePair 0x23B 0x23C,
   rangeDown 0x23D 0x23D 163, rangeUp 0x23E 0x23E 10792, rangeUp 0x23F 0x240 10815,
   rangePair 0x241 0x242, rangeDown 0x243 0x243 195, rangeUp 0x244 0x244 69,
   rangeUp 0x245 0x245 71, rangePair 0x246 0x24F]

/-- Fold ranges of the IPA extensions and the combining marks. -/
def foldRangesPhonetic : List FoldRange :=
  [rangeUp 0x250 0x250 10783, rangeUp 0x251 0x251 10780, rangeUp 0x252 0x252 10782,
   rangeDown 0x253 0x253 210, rangeDown 0x254 0x254 206, rangeDown 0x256 0x257 205,
   rangeDown 0x259 0x259 202, rangeDown 0x25B 0x25B 203, rangeUp 0x25C 0x25C 42319,
   rangeDown 0x260 0x260 205, rangeUp 0x261 0x261 42315, rangeDown 0x263 0x263 207,
   rangeUp 0x265 0x265 42280, rangeUp 0x266 0x266 42308, rangeDown 0x268 0x268 209,
   rangeDown 0x269 0x269 211, rangeUp 0x26A 0x26A 42308, rangeUp 0x26B 0x26B 10743,
   rangeUp 0x26C 0x26C 42305, rangeDown 0x26F 0x26F 211, rangeUp 0x271 0x271 10749,
   rangeDown 0x272 0x272 213, rangeDown 0x275 0x275 214, rangeUp 0x27D 0x27D 10727,
   rangeDown 0x280 0x280 218, rangeUp 0x282 0x282 42307, rangeDown 0x283 0x283 218,
   rangeUp 0x287 0x287 42282, rangeDown 0x288 0x288 218, rangeDown 0x289 0x289 69,
   rangeDown 0x28A 0x28B 217, rangeDown 0x28C 0x28C 71, rangeDown 0x292 0x292 219,
   rangeUp 0x29D 0x29D 42261, rangeUp 0x29E 0x29E 42258, rangeUp 0x345 0x345 84]

/-- Fold ranges of Greek and Coptic. -/
def foldRangesGreek : List FoldRange :=
  [rangePair 0x370 0x373, rangePair 0x376 0x377, rangeUp 0x37B 0x37D 130,
   rangeUp 0x37F 0x37F 116, rangeUp 0x386 0x386 38, rangeUp 0x388 0x38A 37,
   rangeUp 0x38C 0x38C 64, rangeUp 0x38E 0x38F 63, rangeUp 0x391 0x391 32,
   rangeUp 0x392 0x392 32, rangeUp 0x393 0x394 32, rangeUp 0x395 0x395 32,
   rangeUp 0x396 0x397 32, rangeUp 0x398 0x398 32, rangeUp 0x399 0x399 32,
   rangeUp 0x39A 0x39A 32, rangeUp 0x39B 0x39B 32, rangeUp 0x39C 0x39C 32,
   rangeUp 0x39D 0x39F 32, rangeUp 0x3A0 0x3A0 32, rangeUp 0x3A1 0x3A1 32,
   rangeUp 0x3A3 0x3A3 31, rangeUp 0x3A4 0x3A5 32, rangeUp 0x3A6 0x3A6 32,
   rangeUp 0x3A7 0x3A8 32, rangeUp 0x3A9 0x3A9 32, rangeUp 0x3AA 0x3AB 32,
   rangeDown 0x3AC 0x3AC 38, rangeDown 0x3AD 0x3AF 37, rangeDown 0x3B1 0x3B1 32,
   rangeUp 0x3B2 0x3B2 30, rangeDown 0x3B3 0x3B4 32, rangeUp 0x3B5 0x3B5 64,
   rangeDown 0x3B6 0x3B7 32, rangeUp 0x3B8 0x3B8 25, rangeUp 0x3B9 0x3B9 7173,
   rangeUp 0x3BA 0x3BA 54, rangeDown 0x3BB 0x3BB 32, rangeDown 0x3BC 0x3BC 775,
   rangeDown 0x3BD 0x3BF 32, rangeUp 0x3C0 0x3C0 22, rangeUp 0x3C1 0x3C1 48,
   rangeUp 0x3C2 0x3C2 1, rangeDown 0x3C3 0x3C3 32, rangeDown 0x3C4 0x3C5 32,
   rangeUp 0x3C6 0x3C6 15, rangeDown 0x3C7 0x3C8 32, rangeUp 0x3C9 0x3C9 7517,
   rangeDown 0x3CA 0x3CB 32, rangeDown 0x3CC 0x3CC 64, rangeDown 0x3CD 0x3CE 63,
   rangeUp 0x3CF 0x3CF 8, rangeDown 0x3D0 0x3D0 62, rangeUp 0x3D1 0x3D1 35,
   rangeDown 0x3D5 0x3D5 47, rangeDown 0x3D6 0x3D6 54, rangeDown 0x3D7 0x3D7 8,
   rangePair 0x3D8 0x3EF, rangeDown 0x3F0 0x3F0 86, rangeDown 0x3F1 0x3F1 80,
   rangeUp 0x3F2 0x3F2 7, rangeDown 0x3F3 0x3F3 116, rangeDown 0x3F4 0x3F4 92,
   rangeDown 0x3F5 0x3F5 96, rangePair 0x3F7 0x3F8, rangeDown 0x3F9 0x3F9 7,
   rangePair 0x3FA 0x3FB, rangeDown 0x3FD 0x3FF 130]

/-- Fold ranges of Cyrillic. -/
def foldRangesCyrillic : List FoldRange :=
  [rangeUp 0x400 0x40F 80, rangeUp 0x410 0x411 32, rangeUp 0x412 0x412 32,
   rangeUp 0x413 0x413 32, rangeUp 0x414 0x414 32, rangeUp 0x415 0x41D 32,
   rangeUp 0x41E 0x41E 32, rangeUp 0x41F 0x420 32, rangeUp 0x421 0x421 32,
   rangeUp 0x422 0x422 32, rangeUp 0x423 0x429 32, rangeUp 0x42A 0x42A 32,
   rangeUp 0x42B 0x42F 32, rangeDown 0x430 0x431 32, rangeUp 0x432 0x432 6222,
   rangeDown 0x433 0x433 32, rangeUp 0x434 0x434 6221, rangeDown 0x435 0x43D 32,
   rangeUp 0x43E 0x43E 6212, rangeDown 0x43F 0x440 32, rangeUp 0x441 0x441 6210,
   rangeUp 0x442 0x442 6210, rangeDown 0x443 0x449 32, rangeUp 0x44A 0x44A 6204,
   rangeDown 0x44B 0x44F 32, rangeDown 0x450 0x45F 80, rangePair 0x460 0x461,
   rangeUp 0x462 0x462 1, rangeUp 0x463 0x463 6180, rangePair 0x464 0x481, rangePair 0x48A 0x4BF,
   rangeUp 0x4C0 0x4C0 15, rangePair 0x4C1 0x4CE, rangeDown 0x4CF 0x4CF 15,
   rangePair 0x4D0 0x52F]

/-- Fold ranges of Armenian, Georgian, Cherokee and the Cyrillic and Georgian extensions. -/
def foldRangesArmenian : List FoldRange :=
  [rangeUp 0x531 0x556 48, rangeDown 0x561 0x586 48, rangeUp 0x10A0 0x10C5 7264,
   rangeUp 0x10C7 0x10C7 7264, rangeUp 0x10CD 0x10CD 7264, rangeUp 0x10D0 0x10FA 3008,
   rangeUp 0x10FD 0x10FF 3008, rangeUp 0x13A0 0x13EF 38864, rangeUp 0x13F0 0x13F5 8,
   rangeDown 0x13F8 0x13FD 8, rangeDown 0x1C80 0x1C80 6254, rangeDown 0x1C81 0x1C81 6253,
   rangeDown 0x1C82 0x1C82 6244, rangeDown 0x1C83 0x1C83 6242, rangeUp 0x1C84 0x1C84 1,
   rangeDown 0x1C85 0x1C85 6243, rangeDown 0x1C86 0x1C86 6236, rangeDown 0x1C87 0x1C87 6181,
   rangeUp 0x1C88 0x1C88 35266, rangeDown 0x1C90 0x1CBA 3008, rangeDown 0x1CBD 0x1CBF 3008,
   rangeUp 0x1D79 0x1D79 35332, rangeUp 0x1D7D 0x1D7D 3814, rangeUp 0x1D8E 0x1D8E 35384]

/-- Fold ranges of Latin Extended Additional. -/
def foldRangesLatinAdditional : List FoldRange :=
  [rangePair 0x1E00 0x1E5F, rangeUp 0x1E60 0x1E60 1, rangeUp 0x1E61 0x1E61 58,
   rangePair 0x1E62 0x1E95, rangeDown 0x1E9B 0x1E9B 59, rangeDown 0x1E9E 0x1E9E 7615,
   rangePair 0x1EA0 0x1EFF]

/-- Fold ranges of Greek Extended. -/
def foldRangesGreekExtended : List FoldRange :=
  [rangeUp 0x1F00 0x1F07 8, rangeDown 0x1F08 0x1F0F 8, rangeUp 0x1F10 0x1F15 8,
   rangeDown 0x1F18 0x1F1D 8, rangeUp 0x1F20 0x1F27 8, rangeDown 0x1F28 0x1F2F 8,
   rangeUp 0x1F30 0x1F37 8, rangeDown 0x1F38 0x1F3F 8, rangeUp 0x1F40 0x1F45 8,
   rangeDown 0x1F48 0x1F4D 8, rangeUp 0x1F51 0x1F51 8, rangeUp 0x1F53 0x1F53 8,
   rangeUp 0x1F55 0x1F55 8, rangeUp 0x1F57 0x1F57 8, rangeDown 0x1F59 0x1F59 8,
   rangeDown 0x1F5B 0x1F5B 8, rangeDown 0x1F5D 0x1F5D 8, rangeDown 0x1F5F 0x1F5F 8,
   rangeUp 0x1F60 0x1F67 8, rangeDown 0x1F68 0x1F6F 8, rangeUp 0x1F70 0x1F71 74,
   rangeUp 0x1F72 0x1F75 86, rangeUp 0x1F76 0x1F77 100, rangeUp 0x1F78 0x1F79 128,
   rangeUp 0x1F7A 0x1F7B 112, rangeUp 0x1F7C 0x1F7D 126, rangeUp 0x1F80 0x1F87 8,
   rangeDown 0x1F88 0x1F8F 8, rangeUp 0x1F90 0x1F97 8, rangeDown 0x1F98 0x1F9F 8,
   rangeUp 0x1FA0 0x1FA7 8, rangeDown 0x1FA8 0x1FAF 8, rangeUp 0x1FB0 0x1FB1 8,
   rangeUp 0x1FB3 0x1FB3 9, rangeDown 0x1FB8 0x1FB9 8, rangeDown 0x1FBA 0x1FBB 74,
   rangeDown 0x1FBC 0x1FBC 9, rangeDown 0x1FBE 0x1FBE 7289, rangeUp 0x1FC3 0x1FC3 9,
   rangeDown 0x1FC8 0x1FCB 86, rangeDown 0x1FCC 0x1FCC 9, rangeUp 0x1FD0 0x1FD1 8,
   rangeDown 0x1FD8 0x1FD9 8, rangeDown 0x1FDA 0x1FDB 100, rangeUp 0x1FE0 0x1FE1 8,
   rangeUp 0x1FE5 0x1FE5 7, rangeDown 0x1FE8 0x1FE9 8, rangeDown 0x1FEA 0x1FEB 112,
   rangeDown 0x1FEC 0x1FEC 7, rangeUp 0x1FF3 0x1FF3 9, rangeDown 0x1FF8 0x1FF9 128,
   rangeDown 0x1FFA 0x1FFB 126, rangeDown 0x1FFC 0x1FFC 9]

/-- Fold ranges of the letterlike symbols, number forms and enclosed letters. -/
def foldRangesSymbols : List FoldRange :=
  [rangeDown 0x2126 0x2126 7549, rangeDown 0x212A 0x212A 8415, rangeDown 0x212B 0x212B 8294,
   rangeUp 0x2132 0x2132 28, rangeDown 0x214E 0x214E 28, rangeUp 0x2160 0x216F 16,
   rangeDown 0x2170 0x217F 16, rangePair 0x2183 0x2184, rangeUp 0x24B6 0x24CF 26,
   rangeDown 0x24D0 0x24E9 26]

/-- Fold ranges of Glagolitic, Latin Extended-C, Coptic and the Georgian supplement. -/
def foldRangesGlagolitic : List FoldRange :=
  [rangeUp 0x2C00 0x2C2F 48, rangeDown 0x2C30 0x2C5F 48, rangePair 0x2C60 0x2C61,
   rangeDown 0x2C62 0x2C62 10743, rangeDown 0x2C63 0x2C63 3814, rangeDown 0x2C64 0x2C64 10727,
   rangeDown 0x2C65 0x2C65 10795, rangeDown 0x2C66 0x2C66 10792, rangePair 0x2C67 0x2C6C,
   rangeDown 0x2C6D 0x2C6D 10780, rangeDown 0x2C6E 0x2C6E 10749, rangeDown 0x2C6F 0x2C6F 10783,
   rangeDown 0x2C70 0x2C70 10782, rangePair 0x2C72 0x2C73, rangePair 0x2C75 0x2C76,
   rangeDown 0x2C7E 0x2C7F 10815, rangePair 0x2C80 0x2CE3, rangePair 0x2CEB 0x2CEE,
   rangePair 0x2CF2 0x2CF3, rangeDown 0x2D00 0x2D25 7264, rangeDown 0x2D27 0x2D27 7264,
   rangeDown 0x2D2D 0x2D2D 7264]

/-- Fold ranges of Cyrillic Extended-B, Latin Extended-D, the Cherokee supplement and the
fullwidth forms. -/
def foldRangesExtended : List FoldRange :=
  [rangePair 0xA640 0xA649, rangeUp 0xA64A 0xA64A 1, rangeDown 0xA64B 0xA64B 35267,
   rangePair 0xA64C 0xA66D, rangePair 0xA680 0xA69B, rangePair 0xA722 0xA72F,
   rangePair 0xA732 0xA76F, rangePair 0xA779 0xA77C, rangeDown 0xA77D 0xA77D 35332,
   rangePair 0xA77E 0xA787, rangePair 0xA78B 0xA78C, rangeDown 0xA78D 0xA78D 42280,
   rangePair 0xA790 0xA793, rangeUp 0xA794 0xA794 48, rangePair 0xA796 0xA7A9,
   rangeDown 0xA7AA 0xA7AA 42308, rangeDown 0xA7AB 0xA7AB 42319, rangeDown 0xA7AC 0xA7AC 42315,
   rangeDown 0xA7AD 0xA7AD 42305, rangeDown 0xA7AE 0xA7AE 42308, rangeDown 0xA7B0 0xA7B0 42258,
   rangeDown 0xA7B1 0xA7B1 42282, rangeDown 0xA7B2 0xA7B2 42261, rangeUp 0xA7B3 0xA7B3 928,
   rangePair 0xA7B4 0xA7C3, rangeDown 0xA7C4 0xA7C4 48, rangeDown 0xA7C5 0xA7C5 42307,
   rangeDown 0xA7C6 0xA7C6 35384, rangePair 0xA7C7 0xA7CA, rangePair 0xA7D0 0xA7D1,
   rangePair 0xA7D6 0xA7D9, rangePair 0xA7F5 0xA7F6, rangeDown 0xAB53 0xAB53 928,
   rangeDown 0xAB70 0xABBF 38864, rangeUp 0xFF21 0xFF3A 32, rangeDown 0xFF41 0xFF5A 32]

/-- Fold ranges of the supplementary planes. -/
def foldRangesSupplementary : List FoldRange :=
  [rangeUp 0x10400 0x10427 40, rangeDown 0x10428 0x1044F 40, rangeUp 0x104B0 0x104D3 40,
   rangeDown 0x104D8 0x104FB 40, rangeUp 0x10570 0x1057A 39, rangeUp 0x1057C 0x1058A 39,
   rangeUp 0x1058C 0x10592 39, rangeUp 0x10594 0x10595 39, rangeDown 0x10597 0x105A1 39,
   rangeDown 0x105A3 0x105B1 39, rangeDown 0x105B3 0x105B9 39, rangeDown 0x105BB 0x105BC 39,
   rangeUp 0x10C80 0x10CB2 64, rangeDown 0x10CC0 0x10CF2 64, rangeUp 0x118A0 0x118BF 32,
   rangeDown 0x118C0 0x118DF 32, rangeUp 0x16E40 0x16E5F 32, rangeDown 0x16E60 0x16E7F 32,
   rangeUp 0x1E900 0x1E921 34, rangeDown 0x1E922 0x1E943 34]

/-- The table of `unicode.SimpleFold`, in increasing order of code points. -/
def foldRanges : List FoldRange :=
  foldRangesLatin ++
  foldRangesLatinB ++
  foldRangesPhonetic ++
  foldRangesGreek ++
  foldRangesCyrillic ++
  foldRangesArmenian ++
  foldRangesLatinAdditional ++
  foldRangesGreekExtended ++
  foldRangesSymbols ++
  foldRangesGlagolitic ++
  foldRangesExtended ++
  foldRangesSupplementary

/-- The code point a range sends `n` to. -/
def applyFold (r : FoldRange) (n : Nat) : Nat :=
  match r.step with
  | .up d => n + d
  | .down d => n - d
  | .pair => if (n - r.lo) % 2 = 0 then n + 1 else n - 1

/-- The range of a sorted table that holds `n`, if there is one. -/
def findRange (n : Nat) : List FoldRange → Option FoldRange
  | [] => none
  | r :: rs => if n ≤ r.hi then (if r.lo ≤ n then some r else none) else findRange n rs

/-- Go `unicode.SimpleFold` on code points: the next member of the orbit of `n` under
Unicode simple case folding, that is the least member above `n`, or the least member of
all when `n` is the greatest; a code point outside every orbit is left as it is. The
orbits are those of `CaseFolding.txt` (statuses C and S) of Unicode 15.0.0, the version of
the tables `asciiFold`, `caseOrbit` and `CaseRanges` in which Go 1.21 keeps the same map. -/
def simpleFoldNat (n : Nat) : Nat :=
  match findRange n foldRanges with
  | some r => applyFold r n
  | none => n

/-- Go `unicode.SimpleFold`. -/
def SimpleFold (c : Char) : Char :=
  Char.ofNat (simpleFoldNat c.toNat)

/-- The loop `for r != sr && r < tr` of Go `strings.EqualFold`, which replaces `r` by
`unicode.SimpleFold(r)`, run at most `fuel` times. -/
def foldLoop : Nat → Char → Char → Char → Char
  | 0, _, _, r => r
  | fuel + 1, sr, tr, r =>
    if r ≠ sr ∧ r.toNat < tr.toNat then foldLoop fuel sr tr (SimpleFold r) else r

/-- One round of Go `strings.EqualFold` on a pair of runes. The inner loop is given three
rounds: an orbit has at most four members, and further rounds change nothing
(`foldLoop_fuel`). -/
def foldEqRune (a b : Char) : Bool :=
  if a = b then true
  else
    let sr := if b.toNat < a.toNat then b else a
    let tr := if b.toNat < a.toNat then a else b
    if tr.toNat < 128 then
      65 ≤ sr.toNat && sr.toNat ≤ 90 && tr.toNat = sr.toNat + 32
    else
      foldLoop 3 sr tr (SimpleFold sr) = tr

/-- Rune-by-rune comparison of Go `strings.EqualFold`. -/
def equalFoldChars : List Char → List Char → Bool
  | [], [] => true
  | a :: as, b :: bs => foldEqRune a b && equalFoldChars as bs
  | _, _ => false

/-- Go `strings.EqualFold(s, t)`. -/
def EqualFold (s t : String) : Bool :=
  equalFoldChars s.data t.data

/-- The characters that `removeMarkdown` deletes. -/
def markdownChars : List Char :=
  ['*', '_', '\x60', '[', ']', '(', ')', '~', '>', '#', '+', '-', '=', '|',
   '\x7b', '\x7d', '.', '!', '\\']

/-- Handler `removeMarkdown`: deletes every Markdown control character. -/
def removeMarkdown (text : String) : String :=
  String.mk (text.data.filter fun c => !markdownChars.contains c)

/-- One call of `rand.Intn(n)`: consumes a draw. -/
def Intn (n : Nat) : List Nat → Option (Nat × List Nat)
  | [] => none
  | d :: rest => some (d % n, rest)

/-! ## Data model (`database/models.go`) -/

/-- Captcha model. `Type_` is the field `Type`: "math", "text" or "button". -/
structure Captcha where
  Type_ : String
  Question : String
  Answer : String
  Options : List String
  CreatedAt : Int
  ExpiresAt : Int
  deriving DecidableEq, Repr

/-- User model (the Mongo object id and the never-written language code are left out). -/
structure User where
  TelegramID : Int
  Username : String
  FirstName : String
  LastName : String
  IsBot : Bool
  IsVerified : Bool
  IsBlocked : Bool
  VerifiedAt : Option Int
  CreatedAt : Int
  UpdatedAt : Int
  VerificationAttempts : Int
  LastAttemptAt : Int
  CaptchaData : Option Captcha
  deriving DecidableEq, Repr

/-- The `users` collection. -/
abbrev Users := List User

/-! ## Persistence (`database/mongo.go`) -/

/-- Mongo `FindOne` with filter `telegram_id = id`. -/
def FindOne (users : Users) (id : Int) : Option User :=
  users.find? fun u => u.TelegramID = id

/-- Mongo `UpdateOne` with filter `telegram_id = id`: rewrites the first match. -/
def UpdateOne (id : Int) (f : User → User) : Users → Users
  | [] => []
  | u :: rest => if u.TelegramID = id then f u :: rest else u :: UpdateOne id f rest

/-- Mongo `InsertOne`. -/
def InsertOne (users : Users) (u : User) : Users :=
  users ++ [u]

/-- Store method `GetOrCreateUser`: returns the document as read (before the profile
update) or the freshly inserted one, together with the collection afterwards. -/
def GetOrCreateUser (users : Users) (now : Int) (telegramID : Int)
    (username firstName lastName : String) (isBot : Bool) : User × Users :=
  match FindOne users telegramID with
  | some user =>
    let setUsername := username ≠ user.Username ∧ username ≠ ""
    let setFirst := firstName ≠ user.FirstName
    let setLast := lastName ≠ user.LastName
    if setUsername ∨ setFirst ∨ setLast then
      (user, UpdateOne telegramID (fun u =>
        { u with
          Username := if setUsername then username else u.Username
          FirstName := if setFirst then firstName else u.FirstName
          LastName := if setLast then lastName else u.LastName
          UpdatedAt := now }) users)
    else (user, users)
  | none =>
    let newUser : User :=
      { TelegramID := telegramID, Username := username, FirstName := firstName,
        LastName := lastName, IsBot := isBot, IsVerified := false, IsBlocked := false,
        VerifiedAt := none, CreatedAt := now, UpdatedAt := now,
        VerificationAttempts := 0, LastAttemptAt := 0, CaptchaData := none }
    (newUser, InsertOne users newUser)

/-- Store method `UpdateUserVerification`. -/
def UpdateUserVerification (users : Users) (now : Int) (telegramID : Int)
    (isVerified : Bool) : Users :=
  UpdateOne telegramID (fun u =>
    { u with
      IsVerified := isVerified
      UpdatedAt := now
      VerifiedAt := if isVerified then some now else u.VerifiedAt }) users

/-- Store method `IncrementAttempts`. -/
def IncrementAttempts (users : Users) (now : Int) (telegramID : Int) : Users :=
  UpdateOne telegramID (fun u =>
    { u with
      VerificationAttempts := u.VerificationAttempts + 1
      LastAttemptAt := now
      UpdatedAt := now }) users

/-- Store method `SaveCaptcha`. -/
def SaveCaptcha (users : Users) (now : Int) (telegramID : Int) (captcha : Captcha) : Users :=
  UpdateOne telegramID (fun u => { u with CaptchaData := some captcha, UpdatedAt := now }) users

/-- Store method `GetUserByTelegramID`; `none` stands for the not-found error. -/
def GetUserByTelegramID (users : Users) (telegramID : Int) : Option User :=
  FindOne users telegramID

/-- Handler method `blockUser` (it updates the collection directly). -/
def blockUser (users : Users) (now : Int) (telegramID : Int) : Users :=
  UpdateOne telegramID (fun u =>
    { u with IsBlocked := true, IsVerified := false, UpdatedAt := now }) users

/-! ## Configuration (`config/config.go`) and transport values -/

/-- Trivia pair of the configuration. -/
structure TextQuestion where
  Question : String
  Answer : String
  deriving DecidableEq, Repr

/-- Challenge pools of the configuration. -/
structure CaptchaConfig where
  TextQuestions : List TextQuestion
  Colors : List String
  ButtonText : String
  MathOperators : List String
  deriving DecidableEq, Repr

/-- The part of `config.Config` the handlers read. -/
structure Config where
  AdminID : Int
  Captcha : CaptchaConfig
  deriving DecidableEq, Repr

/-- Handler state. The handler is taken with its `config` field set (a handler built by
`NewBotHandler` alone has a nil `config`, which `generateCaptcha` would dereference). -/
structure BotHandler where
  adminID : Int
  config : Config
  deriving DecidableEq, Repr

/-- Telegram sender profile (`tgbotapi.User`). -/
structure TgUser where
  ID : Int
  UserName : String
  FirstName : String
  LastName : String
  IsBot : Bool
  deriving DecidableEq, Repr

/-- Telegram chat reference. -/
structure Chat where
  ID : Int
  deriving DecidableEq, Repr

/-- Telegram message. `IsCommand` and `Command` hold what the library methods
`message.IsCommand()` and `message.Command()` return. -/
structure Message where
  From : TgUser
  Chat : Chat
  MessageID : Int
  Text : String
  IsCommand : Bool
  Command : String
  deriving DecidableEq, Repr

/-- Telegram callback query (a button tap); `Message` is the message carrying the button. -/
structure CallbackQuery where
  ID : String
  From : TgUser
  Message : Message
  Data : String
  deriving DecidableEq, Repr

/-- Telegram update: at most one of the two parts is present. -/
structure Update where
  Message : Option Message
  CallbackQuery : Option CallbackQuery
  deriving DecidableEq, Repr

/-- What a handler emits. Banner and HTML bodies are abbreviated to their heading;
`panic` is a Go run-time panic, which ends the process. -/
inductive Output where
  | sendMessage (chatID : Int) (text : String)
  | sendMessageHTML (chatID : Int) (text : String)
  | answerCallback (callbackID : String) (text : String)
  | editMessageText (chatID : Int) (messageID : Int) (text : String)
  | removeButtons (chatID : Int) (messageID : Int)
  | notifyAdmin (adminID : Int) (telegramID : Int) (success : Bool) (reason : String)
  | forward (adminID : Int) (fromChatID : Int) (messageID : Int)
  | adminInfo (adminID : Int) (telegramID : Int) (buttons : List (String × String))
  | captchaPrompt (chatID : Int) (captcha : Captcha) (buttons : List (String × String))
  | panic (what : String)
  deriving DecidableEq, Repr

/-- Result of running a handler: the collection afterwards and what was emitted. -/
structure Run where
  db : Users
  out : List Output
  deriving DecidableEq, Repr

/-! ## Challenge generation (`handlers/captcha.go`) -/

/-- Challenge lifetime: `2 * time.Minute` in nanoseconds. -/
def twoMinutes : Int := 120000000000

/-- The arithmetic fallback: `a, b := rand.Intn(10)+1, rand.Intn(10)+1` and `a + b`. -/
def additionCaptcha (now : Int) (rnd : List Nat) : Option Captcha :=
  match Intn 10 rnd with
  | none => none
  | some (a0, r1) =>
    match Intn 10 r1 with
    | none => none
    | some (b0, _) =>
      let a : Int := a0 + 1
      let b : Int := b0 + 1
      some { Type_ := "math", Question := fmtInt a ++ " + " ++ fmtInt b,
             Answer := fmtInt (a + b), Options := [],
             CreatedAt := now, ExpiresAt := now + twoMinutes }

/-- The `switch op` of the math branch: question and answer for operands `a`, `b`. -/
def mathQuestion (op : String) (a b : Int) : String × String :=
  if op = "+" then (fmtInt a ++ " + " ++ fmtInt b, fmtInt (a + b))
  else if op = "-" then (fmtInt (a + b) ++ " - " ++ fmtInt b, fmtInt a)
  else if op = "×" then (fmtInt a ++ " × " ++ fmtInt b, fmtInt (a * b))
  else if op = "÷" then (fmtInt (a * b) ++ " ÷ " ++ fmtInt b, fmtInt a)
  else (fmtInt a ++ " + " ++ fmtInt b, fmtInt (a + b))

/-- The loop `for len(options) < 4`: draws a colour, appends it unless already present.
It returns `none` when the draws end while fewer than four options are collected. -/
def collectOptions (colors : List String) :
    List String → List Nat → Option (List String × List Nat)
  | options, [] => if options.length < 4 then none else some (options, [])
  | options, d :: rest =>
    if options.length < 4 then
      let color := colors.getD (d % colors.length) ""
      if options.contains color then collectOptions colors options rest
      else collectOptions colors (options ++ [color]) rest
    else some (options, d :: rest)

/-- The swap closure passed to `rand.Shuffle`. -/
def swapAt (l : List String) (i j : Nat) : List String :=
  (l.set i (l.getD j "")).set j (l.getD i "")

/-- Go `rand.Shuffle` from index `i` down to `1`: draws `j` in `[0, i]` and swaps. -/
def shuffleFrom : Nat → List String → List Nat → Option (List String × List Nat)
  | 0, l, rnd => some (l, rnd)
  | i + 1, l, rnd =>
    match Intn (i + 2) rnd with
    | none => none
    | some (j, rest) => shuffleFrom i (swapAt l (i + 1) j) rest

/-- Go `rand.Shuffle(len(options), swap)`. -/
def Shuffle (l : List String) (rnd : List Nat) : Option (List String × List Nat) :=
  shuffleFrom (l.length - 1) l rnd

/-- Handler method `generateCaptcha`; `none` when the draws do not suffice. -/
def generateCaptcha (cfg : CaptchaConfig) (now : Int) (rnd : List Nat) : Option Captcha :=
  let captchaTypes := ["math", "text", "button"]
  match Intn captchaTypes.length rnd with
  | none => none
  | some (t, r0) =>
    let captchaType := captchaTypes.getD t ""
    if captchaType = "math" then
      if cfg.MathOperators.length = 0 then additionCaptcha now r0
      else
        match Intn 10 r0 with
        | none => none
        | some (a0, r1) =>
          match Intn 10 r1 with
          | none => none
          | some (b0, r2) =>
            match Intn cfg.MathOperators.length r2 with
            | none => none
            | some (k, _) =>
              let qa := mathQuestion (cfg.MathOperators.getD k "") (a0 + 1) (b0 + 1)
              some { Type_ := "math", Question := qa.1, Answer := qa.2, Options := [],
                     CreatedAt := now, ExpiresAt := now + twoMinutes }
    else if captchaType = "text" then
      if cfg.TextQuestions.length = 0 then additionCaptcha now r0
      else
        match Intn cfg.TextQuestions.length r0 with
        | none => none
        | some (k, _) =>
          let q := cfg.TextQuestions.getD k { Question := "", Answer := "" }
          some { Type_ := "text", Question := q.Question, Answer := q.Answer, Options := [],
                 CreatedAt := now, ExpiresAt := now + twoMinutes }
    else if captchaType = "button" then
      if cfg.Colors.length < 4 then additionCaptcha now r0
      else
        match Intn cfg.Colors.length r0 with
        | none => none
        | some (k, r1) =>
          let correct := cfg.Colors.getD k ""
          match collectOptions cfg.Colors [correct] r1 with
          | none => none
          | some (options, r2) =>
            match Shuffle options r2 with
            | none => none
            | some (shuffled, _) =>
              let buttonText := if cfg.ButtonText = "" then "Select color:" else cfg.ButtonText
              some { Type_ := "button", Question := buttonText ++ " " ++ correct,
                     Answer := correct, Options := shuffled,
                     CreatedAt := now, ExpiresAt := now + twoMinutes }
    else
      some { Type_ := "math", Question := "2 + 2", Answer := "4", Options := [],
             CreatedAt := now, ExpiresAt := now + twoMinutes }

/-- The inline keyboard of a choice challenge: one button per option, with callback
data `captcha_<id>_<i>`. -/
def captchaButtons (telegramID : Int) (options : List String) : List (String × String) :=
  options.enum.map fun p =>
    (p.2, "captcha_" ++ fmtInt telegramID ++ "_" ++ fmtInt (p.1 : Int))

/-- Handler method `sendNewCaptcha`: generates a challenge, saves it on the user and sends
the prompt. When generation does not return, nothing is saved and nothing is sent. -/
def sendNewCaptcha (h : BotHandler) (now : Int) (rnd : List Nat) (db : Users)
    (chatID : Int) (user : User) : Run :=
  match generateCaptcha h.config.Captcha now rnd with
  | none => { db := db, out := [] }
  | some captcha =>
    { db := SaveCaptcha db now user.TelegramID captcha
      out := [Output.captchaPrompt chatID captcha
        (if captcha.Type_ = "button" then captchaButtons user.TelegramID captcha.Options
         else [])] }

/-! ## Handlers (`handlers/message.go`) -/

/-- Handler method `sendConfirmationToUser`. -/
def sendConfirmationToUser (chatID : Int) : Output :=
  Output.sendMessage chatID
    "✅ Your message has been sent to the administrator. Wait for a response."

/-- Handler method `notifyAdmin` (the status line is carried by `success`). -/
def notifyAdmin (h : BotHandler) (user : User) (success : Bool) (reason : String) : Output :=
  Output.notifyAdmin h.adminID user.TelegramID success reason

/-- Handler method `handleBotUser`. -/
def handleBotUser (h : BotHandler) (db : Users) (chatID : Int) (user : User) : Run :=
  { db := db
    out := [Output.sendMessage chatID "❌ Bots cannot be verified.",
            notifyAdmin h user false "Bot attempt"] }

/-- Handler method `sendBlockedMessage`. -/
def sendBlockedMessage (db : Users) (chatID : Int) : Run :=
  { db := db, out := [Output.sendMessage chatID "⛔ Your access is blocked."] }

/-- Handler method `forwardToAdminHTML`: forwards the original message, then sends the
sender banner with the accept / reject / block buttons. -/
def forwardToAdminHTML (h : BotHandler) (message : Message) (user : User) : List Output :=
  [Output.forward h.adminID message.Chat.ID message.MessageID,
   Output.adminInfo h.adminID user.TelegramID
     [("✅ Accept", "accept_" ++ fmtInt user.TelegramID),
      ("❌ Reject", "reject_" ++ fmtInt user.TelegramID),
      ("⛔ Block", "block_" ++ fmtInt user.TelegramID)]]

/-- Handler method `checkCaptchaAnswer`. Reading `user.CaptchaData.Answer` on a user
without a challenge is a nil dereference. -/
def checkCaptchaAnswer (h : BotHandler) (now : Int) (rnd : List Nat) (db : Users)
    (chatID : Int) (answer : String) (user : User) : Run :=
  let db1 := IncrementAttempts db now user.TelegramID
  match user.CaptchaData with
  | none => { db := db1, out := [Output.panic "nil pointer dereference"] }
  | some captcha =>
    if EqualFold (TrimSpace answer) captcha.Answer then
      { db := UpdateUserVerification db1 now user.TelegramID true
        out := [Output.sendMessage chatID
                  "✅ Verification passed!\n\nNow your messages will be forwarded to the administrator.",
                notifyAdmin h user true ""] }
    else
      let attempts := user.VerificationAttempts + 1
      if attempts ≥ 3 then
        { db := blockUser db1 now user.TelegramID
          out := [Output.sendMessage chatID
                    "❌ Access blocked\n\nYou have exceeded the maximum number of attempts.",
                  notifyAdmin h user false "Number of attempts exceeded"] }
      else
        let r := sendNewCaptcha h now rnd db1 chatID user
        { db := r.db
          out := Output.sendMessage chatID
                   ("❌ Wrong answer. Attempts left: " ++ fmtInt (3 - attempts) ++ "/3") :: r.out }

/-- Handler method `handleUnverifiedUser`; `time.Now().Before(ExpiresAt)` is
`now < ExpiresAt`. -/
def handleUnverifiedUser (h : BotHandler) (now : Int) (rnd : List Nat) (db : Users)
    (chatID : Int) (messageText : String) (user : User) : Run :=
  match user.CaptchaData with
  | some captcha =>
    if now < captcha.ExpiresAt then checkCaptchaAnswer h now rnd db chatID messageText user
    else sendNewCaptcha h now rnd db chatID user
  | none => sendNewCaptcha h now rnd db chatID user

/-- Handler method `handleStartCommand`. -/
def handleStartCommand (db : Users) (message : Message) (user : User) : Run :=
  if user.IsVerified then
    { db := db, out := [Output.sendMessageHTML message.Chat.ID "✅ You have already been verified."] }
  else
    { db := db, out := [Output.sendMessageHTML message.Chat.ID "👋 Use the /verify command to start checking."] }

/-- Handler method `handleVerifyCommand`. -/
def handleVerifyCommand (h : BotHandler) (now : Int) (rnd : List Nat) (db : Users)
    (message : Message) (user : User) : Run :=
  if user.IsVerified then
    { db := db, out := [Output.sendMessage message.Chat.ID "✅ You have already been verified."] }
  else if user.IsBlocked then
    { db := db, out := [Output.sendMessage message.Chat.ID "⛔ Your access is blocked."] }
  else sendNewCaptcha h now rnd db message.Chat.ID user

/-- Handler method `handleStatusCommand`. -/
def handleStatusCommand (db : Users) (message : Message) (user : User) : Run :=
  let status :=
    if user.IsBlocked then "⛔ Blocked"
    else if user.IsVerified then "✅ Checked"
    else "⏳ Awaiting review"
  { db := db
    out := [Output.sendMessageHTML message.Chat.ID
      ("📊 Status: " ++ status ++ " 🔄 Attempts: " ++ fmtInt user.VerificationAttempts ++ "/3")] }

/-- Handler method `handleCommand`. -/
def handleCommand (h : BotHandler) (now : Int) (rnd : List Nat) (db : Users)
    (message : Message) (user : User) : Run :=
  if message.Command = "start" then handleStartCommand db message user
  else if message.Command = "verify" then handleVerifyCommand h now rnd db message user
  else if message.Command = "status" then handleStatusCommand db message user
  else if message.Command = "help" then
    { db := db, out := [Output.sendMessageHTML message.Chat.ID "🆘 Available commands"] }
  else
    { db := db
      out := [Output.sendMessage message.Chat.ID
        "❌ Unknown team. Use /help for a list of commands."] }

/-- Handler method `handleMessage`. -/
def handleMessage (h : BotHandler) (now : Int) (rnd : List Nat) (db : Users)
    (message : Message) : Run :=
  let user := message.From
  let chatID := message.Chat.ID
  let got := GetOrCreateUser db now user.ID user.UserName user.FirstName user.LastName user.IsBot
  let dbUser := got.1
  if user.IsBot then handleBotUser h got.2 chatID dbUser
  else if dbUser.IsBlocked then sendBlockedMessage got.2 chatID
  else if message.IsCommand then handleCommand h now rnd got.2 message dbUser
  else if !dbUser.IsVerified then handleUnverifiedUser h now rnd got.2 chatID message.Text dbUser
  else
    { db := got.2
      out := forwardToAdminHTML h message dbUser ++ [sendConfirmationToUser message.Chat.ID] }

/-- Go slice indexing `options[i]` after the guard `i < len(options)`: a negative index
is a run-time panic, rendered as `none`. -/
def indexOption (options : List String) (i : Int) : Option String :=
  if i < 0 then none else options[i.toNat]?

/-- Handler method `handleCaptchaCallback`; `time.Now().After(ExpiresAt)` is
`ExpiresAt < now`. -/
def handleCaptchaCallback (h : BotHandler) (now : Int) (rnd : List Nat) (db : Users)
    (callback : CallbackQuery) : Run :=
  match Split callback.Data '_' with
  | [_, idPart, indexPart] =>
    match ParseInt idPart with
    | none => { db := db, out := [Output.answerCallback callback.ID "Error ID"] }
    | some telegramID =>
      match Atoi indexPart with
      | none => { db := db, out := [Output.answerCallback callback.ID "Index error"] }
      | some optionIndex =>
        match GetUserByTelegramID db telegramID with
        | none => { db := db, out := [Output.answerCallback callback.ID "Error receiving data"] }
        | some user =>
          match user.CaptchaData with
          | none => { db := db, out := [Output.answerCallback callback.ID "Captcha is outdated"] }
          | some captcha =>
            if captcha.ExpiresAt < now then
              let r := sendNewCaptcha h now rnd db callback.Message.Chat.ID user
              { db := r.db
                out := Output.answerCallback callback.ID "Captcha time has expired" :: r.out }
            else if optionIndex < captcha.Options.length then
              match indexOption captcha.Options optionIndex with
              | none => { db := db, out := [Output.panic "index out of range"] }
              | some selectedAnswer =>
                if selectedAnswer = captcha.Answer then
                  { db := UpdateUserVerification db now user.TelegramID true
                    out := [Output.editMessageText callback.Message.Chat.ID
                              callback.Message.MessageID
                              "✅ Verification passed!\n\nNow your messages will be forwarded to the administrator.",
                            Output.removeButtons callback.Message.Chat.ID
                              callback.Message.MessageID,
                            Output.answerCallback callback.ID "✅ Right! Verification passed.",
                            notifyAdmin h user true ""] }
                else
                  let db1 := IncrementAttempts db now user.TelegramID
                  match GetUserByTelegramID db1 telegramID with
                  | none => { db := db1, out := [Output.panic "nil pointer dereference"] }
                  | some user1 =>
                    if user1.VerificationAttempts ≥ 3 then
                      { db := blockUser db1 now user1.TelegramID
                        out := [Output.editMessageText callback.Message.Chat.ID
                                  callback.Message.MessageID
                                  "❌ Access blocked\n\nYou have exceeded the maximum number of attempts.",
                                Output.answerCallback callback.ID "❌ Number of attempts exceeded",
                                notifyAdmin h user1 false "Number of attempts exceeded"] }
                    else
                      let r := sendNewCaptcha h now rnd db1 callback.Message.Chat.ID user1
                      { db := r.db
                        out := Output.answerCallback callback.ID
                                 ("❌ Wrong. Attempts left: " ++
                                   fmtInt (3 - user1.VerificationAttempts) ++ "/3") :: r.out }
            else { db := db, out := [] }
  | _ => { db := db, out := [Output.answerCallback callback.ID "Data error"] }

/-- The tail shared by the three moderation handlers: edit the prompt, strip its
buttons, acknowledge the tap and notify the user when the lookup found one. -/
def moderationOutputs (callback : CallbackQuery) (user : Option User)
    (stamp ack notice : String) : List Output :=
  [Output.editMessageText callback.Message.Chat.ID callback.Message.MessageID
     (removeMarkdown callback.Message.Text ++ stamp),
   Output.removeButtons callback.Message.Chat.ID callback.Message.MessageID,
   Output.answerCallback callback.ID ack] ++
  (match user with
   | some u => [Output.sendMessage u.TelegramID notice]
   | none => [])

/-- Handler method `handleAcceptUser`. -/
def handleAcceptUser (now : Int) (db : Users) (callback : CallbackQuery) : Run :=
  match Split callback.Data '_' with
  | [_, idPart] =>
    match ParseInt idPart with
    | none => { db := db, out := [Output.answerCallback callback.ID "Error ID"] }
    | some telegramID =>
      let db1 := UpdateUserVerification db now telegramID true
      { db := db1
        out := moderationOutputs callback (GetUserByTelegramID db1 telegramID)
          "\n\n✅ Accepted by administrator" "✅ User accepted"
          "✅ The administrator has accepted your request. You can now send messages." }
  | _ => { db := db, out := [Output.answerCallback callback.ID "Data error"] }

/-- Handler method `handleRejectUser`. -/
def handleRejectUser (db : Users) (callback : CallbackQuery) : Run :=
  match Split callback.Data '_' with
  | [_, idPart] =>
    match ParseInt idPart with
    | none => { db := db, out := [Output.answerCallback callback.ID "Error ID"] }
    | some telegramID =>
      { db := db
        out := moderationOutputs callback (GetUserByTelegramID db telegramID)
          "\n\n❌ Rejected by administrator" "❌ User rejected"
          "❌ The administrator has rejected your communication request." }
  | _ => { db := db, out := [Output.answerCallback callback.ID "Data error"] }

/-- Handler method `handleBlockUser`. -/
def handleBlockUser (now : Int) (db : Users) (callback : CallbackQuery) : Run :=
  match Split callback.Data '_' with
  | [_, idPart] =>
    match ParseInt idPart with
    | none => { db := db, out := [Output.answerCallback callback.ID "Error ID"] }
    | some telegramID =>
      let db1 := blockUser db now telegramID
      { db := db1
        out := moderationOutputs callback (GetUserByTelegramID db1 telegramID)
          "\n\n⛔ Blocked by administrator" "⛔ User is blocked"
          "⛔ The administrator has blocked your access." }
  | _ => { db := db, out := [Output.answerCallback callback.ID "Data error"] }

/-- Handler method `handleCallback`: dispatch on the prefix of the callback data. -/
def handleCallback (h : BotHandler) (now : Int) (rnd : List Nat) (db : Users)
    (callback : CallbackQuery) : Run :=
  if HasPrefix callback.Data "captcha_" then handleCaptchaCallback h now rnd db callback
  else if HasPrefix callback.Data "accept_" then handleAcceptUser now db callback
  else if HasPrefix callback.Data "reject_" then handleRejectUser db callback
  else if HasPrefix callback.Data "block_" then handleBlockUser now db callback
  else { db := db, out := [Output.answerCallback callback.ID "Unknown command"] }

/-- Handler method `HandleUpdate`. -/
def HandleUpdate (h : BotHandler) (now : Int) (rnd : List Nat) (db : Users)
    (update : Update) : Run :=
  match update.Message with
  | some message => handleMessage h now rnd db message
  | none =>
    match update.CallbackQuery with
    | some callback => handleCallback h now rnd db callback
    | none => { db := db, out := [] }

/-! ## Runs of the bot -/

/-- One processed update: the clock reading and the random draws of the handler run,
and the update itself. -/
structure Event where
  now : Int
  rnd : List Nat
  update : Update
  deriving DecidableEq, Repr

/-- The collection after processing a sequence of updates one after another. -/
def runEvents (h : BotHandler) : Users → List Event → Users
  | db, [] => db
  | db, e :: es => runEvents h (HandleUpdate h e.now e.rnd db e.update).db es

/-- The active challenge stored for an identity, if any. -/
def challengeOf (db : Users) (id : Int) : Option Captcha :=
  (FindOne db id).bind fun u => u.CaptchaData

/-- Trust state `Unverified`: neither flag is set. -/
def Unverified (u : User) : Prop :=
  u.IsVerified = false ∧ u.IsBlocked = false

instance (u : User) : Decidable (Unverified u) := by
  unfold Unverified; infer_instance

/-- The invariant of the data model: a document with an active challenge is Unverified. -/
def ChallengeOnlyWhenUnverified (db : Users) : Prop :=
  ∀ u ∈ db, u.CaptchaData.isSome → Unverified u

instance (db : Users) : Decidable (ChallengeOnlyWhenUnverified db) := by
  unfold ChallengeOnlyWhenUnverified; infer_instance

/-- A sample handler: operator 1, all three pools filled. -/
def sampleHandler : BotHandler :=
  { adminID := 1
    config :=
      { AdminID := 1
        Captcha :=
          { TextQuestions := [{ Question := "Capital of France?", Answer := "Paris" }]
            Colors := ["red", "green", "blue", "black", "white"]
            ButtonText := ""
            MathOperators := ["+", "-", "×", "÷"] } } }

/-- A sample human sender with identity 7. -/
def sampleSender : TgUser :=
  { ID := 7, UserName := "u", FirstName := "F", LastName := "L", IsBot := false }

/-- A plain text message from the sample sender. -/
def sampleText (text : String) : Message :=
  { From := sampleSender, Chat := { ID := 7 }, MessageID := 1, Text := text,
    IsCommand := false, Command := "" }

/-- A button tap carrying the given callback data. -/
def sampleTap (data : String) : CallbackQuery :=
  { ID := "q", From := sampleSender, Message := sampleText "prompt", Data := data }

/-! ## Vocabulary of the statements -/

/-- The retry notice with `k` attempts left, as text reply or as callback answer. -/
def isRetryNotice (k : Int) : Output → Bool
  | Output.sendMessage _ t => t = "❌ Wrong answer. Attempts left: " ++ fmtInt k ++ "/3"
  | Output.answerCallback _ t => t = "❌ Wrong. Attempts left: " ++ fmtInt k ++ "/3"
  | _ => false

/-- A challenge prompt sent to the user. -/
def isCaptchaPrompt : Output → Bool
  | Output.captchaPrompt _ _ _ => true
  | _ => false

/-- Content relayed to the operator: the forwarded message or the sender banner. -/
def isForward : Output → Bool
  | Output.forward _ _ _ => true
  | Output.adminInfo _ _ _ => true
  | _ => false

/-- A text message from `id` that is scored against `c` at time `now` and is wrong. -/
def WrongText (id : Int) (c : Captcha) (now : Int) (m : Message) : Prop :=
  m.From.ID = id ∧ m.From.IsBot = false ∧ m.IsCommand = false ∧
  EqualFold (TrimSpace m.Text) c.Answer = false ∧ now < c.ExpiresAt

/-- A tap on option `i` of the challenge `c` of `id`, scored at time `now`, that is wrong. -/
def WrongTap (id : Int) (c : Captcha) (now : Int) (cb : CallbackQuery) : Prop :=
  ∃ i : Nat, i < c.Options.length ∧ (i : Int) < 2 ^ 63 ∧
    cb.Data = "captcha_" ++ fmtInt id ++ "_" ++ fmtInt (i : Int) ∧
    c.Options[i]? ≠ some c.Answer ∧ now < c.ExpiresAt

/-- An update that is a wrong answer to the challenge `c` of `id`, typed or tapped. -/
def WrongAnswer (id : Int) (c : Captcha) (e : Event) : Prop :=
  match e.update.Message with
  | some m => WrongText id c e.now m
  | none =>
    match e.update.CallbackQuery with
    | some cb => WrongTap id c e.now cb
    | none => False

/-- Identities are 64-bit integers. -/
def IsInt64 (n : Int) : Prop :=
  -(2 : Int) ^ 63 ≤ n ∧ n < (2 : Int) ^ 63

instance (n : Int) : Decidable (IsInt64 n) := by
  unfold IsInt64; infer_instance

/-- An update that submits an answer for `id`: any text message that is neither from an
automated agent nor a command, or a tap `captcha_<id>_<n>` on any index `n`. -/
def AnswerSubmission (id : Int) (e : Event) : Prop :=
  match e.update.Message with
  | some m => m.From.ID = id ∧ m.From.IsBot = false ∧ m.IsCommand = false
  | none =>
    match e.update.CallbackQuery with
    | some cb => ∃ n : Int, IsInt64 n ∧
        cb.Data = "captcha_" ++ fmtInt id ++ "_" ++ fmtInt n
    | none => False

/-- The attempts recorded for an identity (zero when it has no document). -/
def attemptsOf (db : Users) (id : Int) : Int :=
  match FindOne db id with
  | some u => u.VerificationAttempts
  | none => 0

/-- The notice sent to a blocked sender. -/
def blockedNotice (chatID : Int) : Output :=
  Output.sendMessage chatID "⛔ Your access is blocked."

/-! ## Sample data for the concrete runs -/

/-- A math challenge issued at time `now`: `9 - 5`, answer `4`. -/
def sampleMath (now : Int) : Captcha :=
  { Type_ := "math", Question := "9 - 5", Answer := "4", Options := [],
    CreatedAt := now, ExpiresAt := now + twoMinutes }

/-- A choice challenge issued at time `now`: the correct option `red` is last. -/
def sampleChoice (now : Int) : Captcha :=
  { Type_ := "button", Question := "Select color: red", Answer := "red",
    Options := ["blue", "black", "green", "red"],
    CreatedAt := now, ExpiresAt := now + twoMinutes }

/-- Draws that make `generateCaptcha` return `sampleMath`. -/
def drawsMath : List Nat := [0, 3, 4, 1]

/-- Draws that make `generateCaptcha` return `sampleChoice`. -/
def drawsChoice : List Nat := [2, 0, 0, 1, 1, 2, 3, 0, 1, 0]

/-- The document of the sample sender with the given trust fields. -/
def sampleUser (verified blocked : Bool) (attempts : Int) (captcha : Option Captcha) : User :=
  { TelegramID := 7, Username := "u", FirstName := "F", LastName := "L", IsBot := false,
    IsVerified := verified, IsBlocked := blocked, VerifiedAt := none, CreatedAt := 0,
    UpdatedAt := 0, VerificationAttempts := attempts, LastAttemptAt := 0,
    CaptchaData := captcha }

/-- A text message of the sample sender as an event. -/
def textEvent (now : Int) (rnd : List Nat) (text : String) : Event :=
  { now := now, rnd := rnd, update := { Message := some (sampleText text), CallbackQuery := none } }

/-- A button tap as an event. -/
def tapEvent (now : Int) (rnd : List Nat) (data : String) : Event :=
  { now := now, rnd := rnd, update := { Message := none, CallbackQuery := some (sampleTap data) } }

/-! ## Auxiliary definitions for the proofs -/

/-- The profile refresh that `GetOrCreateUser` applies to a document it found. -/
def refreshProfile (now : Int) (username firstName lastName : String) (u : User) : User :=
  if (username ≠ u.Username ∧ username ≠ "") ∨ firstName ≠ u.FirstName ∨ lastName ≠ u.LastName then
    { u with
      Username := if username ≠ u.Username ∧ username ≠ "" then username else u.Username
      FirstName := if firstName ≠ u.FirstName then firstName else u.FirstName
      LastName := if lastName ≠ u.LastName then lastName else u.LastName
      UpdatedAt := now }
  else u

/-- The document `GetOrCreateUser` inserts for an identity it has not seen. -/
def freshUser (now id : Int) (username firstName lastName : String) (isBot : Bool) : User :=
  { TelegramID := id, Username := username, FirstName := firstName,
    LastName := lastName, IsBot := isBot, IsVerified := false, IsBlocked := false,
    VerifiedAt := none, CreatedAt := now, UpdatedAt := now,
    VerificationAttempts := 0, LastAttemptAt := 0, CaptchaData := none }

/-- The stored challenges are the same before and after. -/
def SameChallenges (db db' : Users) : Prop :=
  ∀ j, challengeOf db' j = challengeOf db j

/-- A step of the store in which no challenge is dropped, and a document that gains one is Unverified. -/
def ChallengeStep (db db' : Users) : Prop :=
  ∀ id, ((challengeOf db id).isSome → (challengeOf db' id).isSome) ∧
    (challengeOf db id = none → ∀ u', FindOne db' id = some u' →
      u'.CaptchaData.isSome → Unverified u')

/-- The effect of one wrong answer: what it does to a document that had `n` attempts and
challenge `c`: the counter goes to `n + 1`; below three the user stays Unverified,
is told how many attempts are left and receives the generated challenge; at three
the user is blocked and nothing is issued. -/
def WrongOutcome (h : BotHandler) (e : Event) (id : Int) (n : Int) (c : Captcha)
    (r : Run) : Prop :=
  ∃ u', FindOne r.db id = some u' ∧ u'.VerificationAttempts = n + 1 ∧
    (n + 1 ≥ 3 → u'.IsBlocked = true ∧ u'.IsVerified = false ∧ u'.CaptchaData = some c ∧
      r.out.any isCaptchaPrompt = false) ∧
    (¬ n + 1 ≥ 3 → Unverified u' ∧ r.out.any (isRetryNotice (3 - (n + 1))) = true ∧
      ∀ cNew, generateCaptcha h.config.Captcha e.now e.rnd = some cNew →
        u'.CaptchaData = some cNew ∧ r.out.any isCaptchaPrompt = true)

/-! ## Configuration loading (`config/config.go`) -/

/-- Function `splitCommaSeparated`: split on commas, trim each part, drop empty parts. -/
def splitCommaSeparated (s : String) : List String :=
  ((Split s ',').map TrimSpace).filter fun part => part ≠ ""

/-- Specification side: an arithmetic question `left op right` as it is displayed. -/
structure MathExpr where
  left : Int
  op : String
  right : Int
  deriving DecidableEq, Repr

/-- Specification side: the text of a displayed question. -/
def MathExpr.render (e : MathExpr) : String :=
  fmtInt e.left ++ (" " ++ e.op ++ " ") ++ fmtInt e.right

/-- Specification side: the exact integer value of a displayed question; a division has
a value only when it is exact. -/
def MathExpr.value (e : MathExpr) : Option Int :=
  if e.op = "+" then some (e.left + e.right)
  else if e.op = "-" then some (e.left - e.right)
  else if e.op = "×" then some (e.left * e.right)
  else if e.op = "÷" then
    if e.right ≠ 0 ∧ e.left % e.right = 0 then some (e.left / e.right) else none
  else none

/-- Specification side: the question displayed for operator `op` and operands `a`, `b`:
subtraction as `(a+b) - b`, division as `(a*b) ÷ b`, any operator outside the four as
the addition `a + b`. -/
def displayedExpr (op : String) (a b : Int) : MathExpr :=
  if op = "-" then { left := a + b, op := "-", right := b }
  else if op = "×" then { left := a, op := "×", right := b }
  else if op = "÷" then { left := a * b, op := "÷", right := b }
  else { left := a, op := "+", right := b }

/-- The operand that `rand.Intn(10)+1` yields from a draw. -/
def operandOf (d : Nat) : Int :=
  ((d % 10 : Nat) : Int) + 1

/-- The letters that case folding identifies with `c`: the walk of `SimpleFold` from `c`. -/
def caseOrbit (c : Char) : List Char :=
  [c, SimpleFold c, SimpleFold (SimpleFold c), SimpleFold (SimpleFold (SimpleFold c))]

/-- The characters `a` and `b` are the same letter up to case. -/
def SameLetter (a b : Char) : Prop :=
  b ∈ caseOrbit a

instance (a b : Char) : Decidable (SameLetter a b) := by
  unfold SameLetter; infer_instance

/-- The strings `s` and `t` are equal ignoring letter case: they have the same length and
their characters are, place by place, the same letter up to case. -/
def EqualIgnoringCase (s t : String) : Prop :=
  List.Forall₂ SameLetter s.data t.data

/-! ## More sample data -/

/-- A configuration whose choice pool has four entries, all equal, as
`splitCommaSeparated "red,red,red,red"` yields. -/
def duplicateColors : CaptchaConfig :=
  { TextQuestions := [], Colors := splitCommaSeparated "red,red,red,red", ButtonText := "",
    MathOperators := [] }

/-- A configuration with every pool empty. -/
def emptyPools : CaptchaConfig :=
  { TextQuestions := [], Colors := [], ButtonText := "", MathOperators := [] }

/-- A message from an automated agent with identity 9. -/
def botMessage : Message :=
  { From := { ID := 9, UserName := "robot", FirstName := "R", LastName := "", IsBot := true },
    Chat := { ID := 9 }, MessageID := 1, Text := "hello", IsCommand := false, Command := "" }

/-- The sample handler with the choice pool `red,red,red,red` and no other pool. -/
def duplicateHandler : BotHandler :=
  { adminID := 1, config := { AdminID := 1, Captcha := duplicateColors } }

/-- An addition challenge issued at time `now`: `7 + 3`, answer `10`. -/
def sampleAddition (now : Int) : Captcha :=
  { Type_ := "math", Question := "7 + 3", Answer := "10", Options := [],
    CreatedAt := now, ExpiresAt := now + twoMinutes }


/-! ## Auxiliary definitions for the proofs on challenge generation -/

/-- The `case "math"` branch of `generateCaptcha`. -/
def mathBranch (cfg : CaptchaConfig) (now : Int) (r0 : List Nat) : Option Captcha :=
  if cfg.MathOperators.length = 0 then additionCaptcha now r0
  else
    match Intn 10 r0 with
    | none => none
    | some (a0, r1) =>
      match Intn 10 r1 with
      | none => none
      | some (b0, r2) =>
        match Intn cfg.MathOperators.length r2 with
        | none => none
        | some (k, _) =>
          let qa := mathQuestion (cfg.MathOperators.getD k "") (a0 + 1) (b0 + 1)
          some { Type_ := "math", Question := qa.1, Answer := qa.2, Options := [],
                 CreatedAt := now, ExpiresAt := now + twoMinutes }

/-- The `case "text"` branch of `generateCaptcha`. -/
def textBranch (cfg : CaptchaConfig) (now : Int) (r0 : List Nat) : Option Captcha :=
  if cfg.TextQuestions.length = 0 then additionCaptcha now r0
  else
    match Intn cfg.TextQuestions.length r0 with
    | none => none
    | some (k, _) =>
      let q := cfg.TextQuestions.getD k { Question := "", Answer := "" }
      some { Type_ := "text", Question := q.Question, Answer := q.Answer, Options := [],
             CreatedAt := now, ExpiresAt := now + twoMinutes }

/-- The `case "button"` branch of `generateCaptcha`. -/
def buttonBranch (cfg : CaptchaConfig) (now : Int) (r0 : List Nat) : Option Captcha :=
  if cfg.Colors.length < 4 then additionCaptcha now r0
  else
    match Intn cfg.Colors.length r0 with
    | none => none
    | some (k, r1) =>
      let correct := cfg.Colors.getD k ""
      match collectOptions cfg.Colors [correct] r1 with
      | none => none
      | some (options, r2) =>
        match Shuffle options r2 with
        | none => none
        | some (shuffled, _) =>
          let buttonText := if cfg.ButtonText = "" then "Select color:" else cfg.ButtonText
          some { Type_ := "button", Question := buttonText ++ " " ++ correct,
                 Answer := correct, Options := shuffled,
                 CreatedAt := now, ExpiresAt := now + twoMinutes }

/-! ## Auxiliary definitions for the proofs on case folding -/

/-- The ranges of a table are in increasing order and do not overlap. -/
def sortedFrom (lb : Nat) : List FoldRange → Bool
  | [] => true
  | r :: rs => decide (lb ≤ r.lo) && decide (r.lo ≤ r.hi) && sortedFrom (r.hi + 1) rs

/-- The walk of `SimpleFold` from a code point: the code point and its next three folds. -/
def orbitNat (n : Nat) : List Nat :=
  [n, simpleFoldNat n, simpleFoldNat (simpleFoldNat n),
    simpleFoldNat (simpleFoldNat (simpleFoldNat n))]

/-- What Go documents of `SimpleFold` at `n`: the walk comes back to `n` within four steps,
and `SimpleFold n` is the least member of the orbit above `n`, or the least member of the
orbit when `n` is its greatest. -/
def GoodPoint (n : Nat) : Prop :=
  n ∈ orbitNat (simpleFoldNat n) ∧
  ∀ m ∈ orbitNat n,
    (n < simpleFoldNat n → ¬ (n < m ∧ m < simpleFoldNat n)) ∧
    (simpleFoldNat n ≤ n → simpleFoldNat n ≤ m ∧ m ≤ n)

/-- The test of `GoodPoint` on the walk `n, a, b, c, d`. -/
def goodWalk (n a b c d : Nat) : Bool :=
  (n == a || n == b || n == c || n == d) &&
  [n, a, b, c].all fun m =>
    (!(decide (n < a)) || !(decide (n < m) && decide (m < a))) &&
    (!(decide (a ≤ n)) || (decide (a ≤ m) && decide (m ≤ n)))

/-- The test of `GoodPoint`. -/
def goodPoint (n : Nat) : Bool :=
  goodWalk n (simpleFoldNat n) (simpleFoldNat (simpleFoldNat n))
    (simpleFoldNat (simpleFoldNat (simpleFoldNat n)))
    (simpleFoldNat (simpleFoldNat (simpleFoldNat (simpleFoldNat n))))

/-- A range of the table is consistent: a range of pairs has even length, a range that
folds by `d` has the opposite range `d` away, and a code point of a longer orbit passes
the test of `GoodPoint`. -/
def rangeOk (r : FoldRange) : Bool :=
  match r.step with
  | .pair => (r.hi - r.lo) % 2 == 1
  | .up d =>
    decide (0 < d) &&
    ((match findRange (r.lo + d) foldRanges with
      | some p => p.lo == r.lo + d && p.hi == r.hi + d && p.step == .down d
      | none => false) ||
     (r.lo == r.hi && goodPoint r.lo))
  | .down d =>
    decide (0 < d) && decide (d ≤ r.lo) &&
    ((match findRange (r.lo - d) foldRanges with
      | some p => p.lo == r.lo - d && p.hi == r.hi - d && p.step == .up d
      | none => false) ||
     (r.lo == r.hi && goodPoint r.lo))

/-- A range and its image hold no surrogate and nothing above U+10FFFF. -/
def rangeValid (r : FoldRange) : Bool :=
  (decide (r.hi < 0xD800) || (decide (0xE000 ≤ r.lo) && decide (r.hi < 0x110000))) &&
  match r.step with
  | .pair => true
  | .up d =>
    decide (r.hi + d < 0xD800) || (decide (0xE000 ≤ r.lo + d) && decide (r.hi + d < 0x110000))
  | .down d =>
    decide (r.hi - d < 0xD800) || (decide (0xE000 ≤ r.lo - d) && decide (r.hi - d < 0x110000))

/-- The body of `handleCaptchaCallback` after its three parsing steps, for the parsed
identity `telegramID` and option index `optionIndex`. -/
def captchaTapBody (h : BotHandler) (now : Int) (rnd : List Nat) (db : Users)
    (callback : CallbackQuery) (telegramID optionIndex : Int) : Run :=
  match GetUserByTelegramID db telegramID with
  | none => { db := db, out := [Output.answerCallback callback.ID "Error receiving data"] }
  | some user =>
    match user.CaptchaData with
    | none => { db := db, out := [Output.answerCallback callback.ID "Captcha is outdated"] }
    | some captcha =>
      if captcha.ExpiresAt < now then
        let r := sendNewCaptcha h now rnd db callback.Message.Chat.ID user
        { db := r.db
          out := Output.answerCallback callback.ID "Captcha time has expired" :: r.out }
      else if optionIndex < captcha.Options.length then
        match indexOption captcha.Options optionIndex with
        | none => { db := db, out := [Output.panic "index out of range"] }
        | some selectedAnswer =>
          if selectedAnswer = captcha.Answer then
            { db := UpdateUserVerification db now user.TelegramID true
              out := [Output.editMessageText callback.Message.Chat.ID
                        callback.Message.MessageID
                        "✅ Verification passed!\n\nNow your messages will be forwarded to the administrator.",
                      Output.removeButtons callback.Message.Chat.ID
                        callback.Message.MessageID,
                      Output.answerCallback callback.ID "✅ Right! Verification passed.",
                      notifyAdmin h user true ""] }
          else
            let db1 := IncrementAttempts db now user.TelegramID
            match GetUserByTelegramID db1 telegramID with
            | none => { db := db1, out := [Output.panic "nil pointer dereference"] }
            | some user1 =>
              if user1.VerificationAttempts ≥ 3 then
                { db := blockUser db1 now user1.TelegramID
                  out := [Output.editMessageText callback.Message.Chat.ID
                            callback.Message.MessageID
                            "❌ Access blocked\n\nYou have exceeded the maximum number of attempts.",
                          Output.answerCallback callback.ID "❌ Number of attempts exceeded",
                          notifyAdmin h user1 false "Number of attempts exceeded"] }
              else
                let r := sendNewCaptcha h now rnd db1 callback.Message.Chat.ID user1
                { db := r.db
                  out := Output.answerCallback callback.ID
                           ("❌ Wrong. Attempts left: " ++
                             fmtInt (3 - user1.VerificationAttempts) ++ "/3") :: r.out }
      else { db := db, out := [] }

/-- A second sender: a human with identity 8, who is neither the operator (identity 1)
nor identity 7. -/
def otherSender : TgUser :=
  { ID := 8, UserName := "v", FirstName := "G", LastName := "M", IsBot := false }

/-! ## Two handlers at the same time -/

/-- The body of `handleMessage` after its call of `GetOrCreateUser`: `dbUser` is the
document that call returned and `db` the collection the handler goes on to work with. -/
def messageAfterRead (h : BotHandler) (now : Int) (rnd : List Nat) (db : Users)
    (message : Message) (dbUser : User) : Run :=
  if message.From.IsBot then handleBotUser h db message.Chat.ID dbUser
  else if dbUser.IsBlocked then sendBlockedMessage db message.Chat.ID
  else if message.IsCommand then handleCommand h now rnd db message dbUser
  else if !dbUser.IsVerified then
    handleUnverifiedUser h now rnd db message.Chat.ID message.Text dbUser
  else
    { db := db
      out := forwardToAdminHTML h message dbUser ++ [sendConfirmationToUser message.Chat.ID] }

/-- Two handler goroutines started by `setupPolling` for the messages `m1` and `m2`, in the
schedule where both have made their call of `GetOrCreateUser` before either goes on: the
first then runs to its end, the second after it, each with the document it has read. -/
def readThenRun (h : BotHandler) (now : Int) (rnd1 rnd2 : List Nat) (db : Users)
    (m1 m2 : Message) : Run × Run :=
  let got1 := GetOrCreateUser db now m1.From.ID m1.From.UserName m1.From.FirstName
    m1.From.LastName m1.From.IsBot
  let got2 := GetOrCreateUser got1.2 now m2.From.ID m2.From.UserName m2.From.FirstName
    m2.From.LastName m2.From.IsBot
  let run1 := messageAfterRead h now rnd1 got2.2 m1 got1.1
  let run2 := messageAfterRead h now rnd2 run1.db m2 got2.1
  (run1, run2)

/-! # Theorems -/

/-! ## Decimal rendering and parsing -/

theorem digitVal_digitChar (d : Nat) (h : d < 10) : digitVal (Nat.digitChar d) = some d := by
  interval_cases d <;> rfl

theorem toDigitsCore_eq (n : Nat) : ∀ (f : Nat) (acc : List Char), n < f →
    Nat.toDigitsCore 10 f n acc = Nat.toDigits 10 n ++ acc := by
  induction n using Nat.strong_induction_on with
  | _ n ih =>
    intro f acc hf
    obtain ⟨f, rfl⟩ : ∃ g, f = g + 1 := ⟨f - 1, by omega⟩
    unfold Nat.toDigits
    simp only [Nat.toDigitsCore]
    by_cases h0 : n / 10 = 0
    · simp [h0]
    · have hlt : n / 10 < n := by omega
      simp only [h0, if_false]
      rw [ih (n / 10) hlt f _ (by omega), ih (n / 10) hlt n _ hlt]
      simp

theorem toDigits_small (n : Nat) (h : n < 10) : Nat.toDigits 10 n = [Nat.digitChar n] := by
  unfold Nat.toDigits
  simp only [Nat.toDigitsCore]
  have h0 : n / 10 = 0 := by omega
  have h1 : n % 10 = n := by omega
  simp [h0, h1]

theorem toDigits_step (n : Nat) (h : 10 ≤ n) :
    Nat.toDigits 10 n = Nat.toDigits 10 (n / 10) ++ [Nat.digitChar (n % 10)] := by
  have h0 : n / 10 ≠ 0 := by omega
  conv_lhs => unfold Nat.toDigits
  simp only [Nat.toDigitsCore, h0, if_false]
  exact toDigitsCore_eq (n / 10) n _ (by omega)

theorem parseDigits_append (xs ys : List Char) : ∀ a : Nat,
    parseDigits (xs ++ ys) a = (parseDigits xs a).bind (parseDigits ys) := by
  induction xs with
  | nil => intro a; simp [parseDigits]
  | cons c cs ih =>
    intro a
    simp only [List.cons_append, parseDigits]
    cases digitVal c with
    | none => simp
    | some d => simpa using ih (a * 10 + d)

theorem parseDigits_toDigits (n : Nat) : parseDigits (Nat.toDigits 10 n) 0 = some n := by
  induction n using Nat.strong_induction_on with
  | _ n ih =>
    by_cases h : n < 10
    · rw [toDigits_small n h]
      simp [parseDigits, digitVal_digitChar n h]
    · rw [toDigits_step n (by omega), parseDigits_append, ih (n / 10) (by omega)]
      simp only [Option.some_bind, parseDigits, digitVal_digitChar (n % 10) (by omega)]
      congr 1
      omega

theorem digit_of_mem_toDigits (n : Nat) : ∀ c ∈ Nat.toDigits 10 n, (digitVal c).isSome := by
  induction n using Nat.strong_induction_on with
  | _ n ih =>
    intro c hc
    by_cases h : n < 10
    · rw [toDigits_small n h] at hc
      simp only [List.mem_singleton] at hc
      simp [hc, digitVal_digitChar n h]
    · rw [toDigits_step n (by omega)] at hc
      rcases List.mem_append.mp hc with hc | hc
      · exact ih (n / 10) (by omega) c hc
      · simp only [List.mem_singleton] at hc
        simp [hc, digitVal_digitChar (n % 10) (by omega)]

theorem toDigits_ne_nil (n : Nat) : Nat.toDigits 10 n ≠ [] := by
  by_cases h : n < 10
  · rw [toDigits_small n h]; simp
  · rw [toDigits_step n (by omega)]; simp

theorem parseUint_toDigits (n : Nat) : parseUint (Nat.toDigits 10 n) = some n := by
  have h := parseDigits_toDigits n
  have hne := toDigits_ne_nil n
  unfold parseUint
  split
  · next heq => exact absurd heq hne
  · exact h

theorem fmtInt_ofNat (m : Nat) : (fmtInt (Int.ofNat m)).data = Nat.toDigits 10 m := rfl

theorem fmtInt_negSucc (m : Nat) :
    (fmtInt (Int.negSucc m)).data = '-' :: Nat.toDigits 10 (m + 1) := rfl

/-- Parsing the decimal rendering of a 64-bit integer gives the integer back. -/
theorem ParseInt_fmtInt (n : Int) (hlo : -(2 : Int) ^ 63 ≤ n) (hhi : n < (2 : Int) ^ 63) :
    ParseInt (fmtInt n) = some n := by
  cases n with
  | ofNat m =>
    have hm : m < 2 ^ 63 := by
      have : (m : Int) < (2 : Int) ^ 63 := hhi
      exact_mod_cast this
    unfold ParseInt
    rw [fmtInt_ofNat]
    have hne := toDigits_ne_nil m
    have hd := digit_of_mem_toDigits m
    have hp := parseUint_toDigits m
    cases hl : Nat.toDigits 10 m with
    | nil => exact absurd hl hne
    | cons c cs =>
      rw [hl] at hd hp
      have hc : (digitVal c).isSome := hd c (List.mem_cons_self _ _)
      have h1 : c ≠ '-' := by rintro rfl; revert hc; decide
      have h2 : c ≠ '+' := by rintro rfl; revert hc; decide
      have hm2 : m < 9223372036854775808 := by norm_num at hm; exact hm
      simp [h1, h2, hp, hm2]
  | negSucc m =>
    have hm : m + 1 ≤ 2 ^ 63 := by
      have : -(2 : Int) ^ 63 ≤ Int.negSucc m := hlo
      rw [Int.negSucc_eq] at this
      have h3 : ((m : Int) + 1) ≤ (2 : Int) ^ 63 := by linarith
      exact_mod_cast h3
    unfold ParseInt
    rw [fmtInt_negSucc]
    have hm2 : m ≤ 9223372036854775807 := by norm_num at hm; omega
    simp [parseUint_toDigits, hm2, Int.negSucc_eq]

/-! ## Callback data: splitting and dispatch -/

theorem splitOnChar_ne_nil (sep : Char) (xs : List Char) : splitOnChar sep xs ≠ [] := by
  cases xs with
  | nil => simp [splitOnChar]
  | cons c cs =>
    simp only [splitOnChar]
    split
    · simp
    · split <;> simp

theorem splitOnChar_no_sep (sep : Char) (xs : List Char) (h : sep ∉ xs) :
    splitOnChar sep xs = [xs] := by
  induction xs with
  | nil => rfl
  | cons c cs ih =>
    have hc : c ≠ sep := fun e => h (by simp [e])
    have hcs : sep ∉ cs := fun e => h (List.mem_cons_of_mem _ e)
    simp [splitOnChar, ih hcs, hc]

theorem splitOnChar_append (sep : Char) (xs ys : List Char) (h : sep ∉ xs) :
    splitOnChar sep (xs ++ sep :: ys) = xs :: splitOnChar sep ys := by
  induction xs with
  | nil =>
    simp only [List.nil_append, splitOnChar]
    cases hs : splitOnChar sep ys with
    | nil => exact absurd hs (splitOnChar_ne_nil sep ys)
    | cons p ps => simp
  | cons c cs ih =>
    have hc : c ≠ sep := fun e => h (by simp [e])
    have hcs : sep ∉ cs := fun e => h (List.mem_cons_of_mem _ e)
    simp [splitOnChar, ih hcs, hc]

theorem underscore_not_mem_fmtInt (n : Int) : '_' ∉ (fmtInt n).data := by
  have key : ∀ m : Nat, '_' ∉ Nat.toDigits 10 m := by
    intro m hmem
    have := digit_of_mem_toDigits m '_' hmem
    revert this
    decide
  cases n with
  | ofNat m => rw [fmtInt_ofNat]; exact key m
  | negSucc m =>
    rw [fmtInt_negSucc]
    intro hmem
    rcases List.mem_cons.mp hmem with h | h
    · revert h; decide
    · exact key _ h

theorem Split_tag_id (tag : String) (n : Int) (htag : '_' ∉ tag.data) :
    Split (tag ++ "_" ++ fmtInt n) '_' = [tag, fmtInt n] := by
  unfold Split
  have hd : (tag ++ "_" ++ fmtInt n).data = tag.data ++ '_' :: (fmtInt n).data := by
    simp [String.data_append]
  rw [hd, splitOnChar_append _ _ _ htag, splitOnChar_no_sep _ _ (underscore_not_mem_fmtInt n)]
  rfl

theorem Split_accept (n : Int) : Split ("accept_" ++ fmtInt n) '_' = ["accept", fmtInt n] :=
  Split_tag_id "accept" n (by decide)

theorem Split_block (n : Int) : Split ("block_" ++ fmtInt n) '_' = ["block", fmtInt n] :=
  Split_tag_id "block" n (by decide)

theorem Split_captcha (n i : Int) :
    Split ("captcha_" ++ fmtInt n ++ "_" ++ fmtInt i) '_' = ["captcha", fmtInt n, fmtInt i] := by
  unfold Split
  have hd : ("captcha_" ++ fmtInt n ++ "_" ++ fmtInt i).data =
      "captcha".data ++ '_' :: ((fmtInt n).data ++ '_' :: (fmtInt i).data) := by
    simp [String.data_append]
  rw [hd, splitOnChar_append _ _ _ (by decide),
    splitOnChar_append _ _ _ (underscore_not_mem_fmtInt n),
    splitOnChar_no_sep _ _ (underscore_not_mem_fmtInt i)]
  rfl

theorem HasPrefix_append (p s : String) : HasPrefix (p ++ s) p = true := by
  simp [HasPrefix, String.data_append]

theorem HasPrefix_accept (s : String) : HasPrefix ("accept_" ++ s) "captcha_" = false := by
  simp [HasPrefix, String.data_append, List.isPrefixOf]

theorem HasPrefix_reject (s : String) :
    HasPrefix ("reject_" ++ s) "captcha_" = false ∧ HasPrefix ("reject_" ++ s) "accept_" = false := by
  constructor <;> simp [HasPrefix, String.data_append, List.isPrefixOf]

theorem HasPrefix_block (s : String) :
    HasPrefix ("block_" ++ s) "captcha_" = false ∧ HasPrefix ("block_" ++ s) "accept_" = false ∧
    HasPrefix ("block_" ++ s) "reject_" = false := by
  refine ⟨?_, ?_, ?_⟩ <;> simp [HasPrefix, String.data_append, List.isPrefixOf]

/-! ## The collection: lookups after updates -/

theorem FindOne_UpdateOne (id j : Int) (f : User → User)
    (hf : ∀ u, (f u).TelegramID = u.TelegramID) (db : Users) :
    FindOne (UpdateOne id f db) j = if j = id then (FindOne db id).map f else FindOne db j := by
  induction db with
  | nil => simp [UpdateOne, FindOne]
  | cons u rest ih =>
    unfold FindOne at ih ⊢
    by_cases hu : u.TelegramID = id
    · by_cases hj : j = id
      · subst hj
        simp [UpdateOne, hu, hf, List.find?_cons]
      · have hne : ¬ id = j := fun e => hj e.symm
        simp [UpdateOne, hu, hf, hj, hne, List.find?_cons]
    · by_cases huj : u.TelegramID = j
      · have hj : ¬ j = id := fun e => hu (huj.trans e)
        simp [UpdateOne, hu, huj, hj, List.find?_cons]
      · simp only [UpdateOne, hu, if_false, List.find?_cons, huj, decide_False]
        exact ih

theorem FindOne_InsertOne (db : Users) (u : User) (j : Int) :
    FindOne (InsertOne db u) j =
      match FindOne db j with
      | some v => some v
      | none => if u.TelegramID = j then some u else none := by
  unfold FindOne InsertOne
  rw [List.find?_append]
  cases h : List.find? (fun u => decide (u.TelegramID = j)) db with
  | some v => simp
  | none =>
    by_cases hu : u.TelegramID = j <;> simp [List.find?_cons, hu]

theorem FindOne_TelegramID (db : Users) (id : Int) (u : User) (h : FindOne db id = some u) :
    u.TelegramID = id := by
  unfold FindOne at h
  simpa using List.find?_some h

theorem UpdateOne_fix (id : Int) (f : User → User) (db : Users)
    (h : ∀ u, FindOne db id = some u → f u = u) : UpdateOne id f db = db := by
  induction db with
  | nil => rfl
  | cons u rest ih =>
    by_cases hu : u.TelegramID = id
    · have := h u (by simp [FindOne, List.find?_cons, hu])
      simp [UpdateOne, hu, this]
    · have h2 : ∀ v, FindOne rest id = some v → f v = v := by
        intro v hv
        apply h
        simpa [FindOne, List.find?_cons, hu] using hv
      simp [UpdateOne, hu, ih h2]

theorem FindOne_IncrementAttempts (db : Users) (now id j : Int) :
    FindOne (IncrementAttempts db now id) j =
      if j = id then (FindOne db id).map (fun u =>
        { u with VerificationAttempts := u.VerificationAttempts + 1
                 LastAttemptAt := now, UpdatedAt := now })
      else FindOne db j := by
  unfold IncrementAttempts
  rw [FindOne_UpdateOne]
  intro u; rfl

theorem FindOne_UpdateUserVerification (db : Users) (now id j : Int) (v : Bool) :
    FindOne (UpdateUserVerification db now id v) j =
      if j = id then (FindOne db id).map (fun u =>
        { u with IsVerified := v, UpdatedAt := now
                 VerifiedAt := if v then some now else u.VerifiedAt })
      else FindOne db j := by
  unfold UpdateUserVerification
  rw [FindOne_UpdateOne]
  intro u; rfl

theorem FindOne_SaveCaptcha (db : Users) (now id j : Int) (c : Captcha) :
    FindOne (SaveCaptcha db now id c) j =
      if j = id then (FindOne db id).map (fun u =>
        { u with CaptchaData := some c, UpdatedAt := now })
      else FindOne db j := by
  unfold SaveCaptcha
  rw [FindOne_UpdateOne]
  intro u; rfl

theorem FindOne_blockUser (db : Users) (now id j : Int) :
    FindOne (blockUser db now id) j =
      if j = id then (FindOne db id).map (fun u =>
        { u with IsBlocked := true, IsVerified := false, UpdatedAt := now })
      else FindOne db j := by
  unfold blockUser
  rw [FindOne_UpdateOne]
  intro u; rfl

theorem refreshProfile_trust (now : Int) (a b c : String) (u : User) :
    (refreshProfile now a b c u).TelegramID = u.TelegramID ∧
    (refreshProfile now a b c u).IsVerified = u.IsVerified ∧
    (refreshProfile now a b c u).IsBlocked = u.IsBlocked ∧
    (refreshProfile now a b c u).VerificationAttempts = u.VerificationAttempts ∧
    (refreshProfile now a b c u).CaptchaData = u.CaptchaData ∧
    (refreshProfile now a b c u).VerifiedAt = u.VerifiedAt := by
  unfold refreshProfile
  split <;> simp

theorem GetOrCreateUser_found (db : Users) (now id : Int) (a b c : String) (bot : Bool)
    (u : User) (h : FindOne db id = some u) :
    (GetOrCreateUser db now id a b c bot).1 = u ∧
    ∀ j, FindOne (GetOrCreateUser db now id a b c bot).2 j =
      if j = id then some (refreshProfile now a b c u) else FindOne db j := by
  unfold GetOrCreateUser
  simp only [h]
  split
  · next hc =>
    refine ⟨rfl, fun j => ?_⟩
    show FindOne (UpdateOne id _ db) j = _
    rw [FindOne_UpdateOne, h]
    · simp [refreshProfile, hc]
    · intro v; rfl
  · next hc =>
    refine ⟨rfl, fun j => ?_⟩
    by_cases hj : j = id
    · subst hj; simp [refreshProfile, hc, h]
    · simp [hj]

theorem GetOrCreateUser_new (db : Users) (now id : Int) (a b c : String) (bot : Bool)
    (h : FindOne db id = none) :
    (GetOrCreateUser db now id a b c bot).1 = freshUser now id a b c bot ∧
    ∀ j, FindOne (GetOrCreateUser db now id a b c bot).2 j =
      if j = id then some (freshUser now id a b c bot) else FindOne db j := by
  unfold GetOrCreateUser
  simp only [h]
  refine ⟨rfl, fun j => ?_⟩
  rw [FindOne_InsertOne]
  by_cases hj : j = id
  · subst hj; simp [h, freshUser]
  · have hne : ¬ id = j := fun e => hj e.symm
    cases hf : FindOne db j <;> simp [hj, hne]

theorem GetOrCreateUser_spec (db : Users) (now id : Int) (a b c : String) (bot : Bool) :
    ∃ u1 : User,
      (∀ j, FindOne (GetOrCreateUser db now id a b c bot).2 j =
        if j = id then some u1 else FindOne db j) ∧
      u1.TelegramID = id ∧ (GetOrCreateUser db now id a b c bot).1.TelegramID = id ∧
      u1.IsVerified = (GetOrCreateUser db now id a b c bot).1.IsVerified ∧
      u1.IsBlocked = (GetOrCreateUser db now id a b c bot).1.IsBlocked ∧
      u1.VerificationAttempts = (GetOrCreateUser db now id a b c bot).1.VerificationAttempts ∧
      u1.CaptchaData = (GetOrCreateUser db now id a b c bot).1.CaptchaData ∧
      u1.VerifiedAt = (GetOrCreateUser db now id a b c bot).1.VerifiedAt ∧
      (match FindOne db id with
       | some u => (GetOrCreateUser db now id a b c bot).1 = u
       | none => (GetOrCreateUser db now id a b c bot).1 = freshUser now id a b c bot) := by
  cases hf : FindOne db id with
  | some u =>
    obtain ⟨h1, h2⟩ := GetOrCreateUser_found db now id a b c bot u hf
    obtain ⟨t1, t2, t3, t4, t5, t6⟩ := refreshProfile_trust now a b c u
    have hid := FindOne_TelegramID db id u hf
    exact ⟨refreshProfile now a b c u, h2, by rw [t1, hid], by rw [h1, hid], by rw [h1, t2],
      by rw [h1, t3], by rw [h1, t4], by rw [h1, t5], by rw [h1, t6], h1⟩
  | none =>
    obtain ⟨h1, h2⟩ := GetOrCreateUser_new db now id a b c bot hf
    exact ⟨freshUser now id a b c bot, h2, rfl, by rw [h1]; rfl, by rw [h1], by rw [h1],
      by rw [h1], by rw [h1], by rw [h1], h1⟩

theorem FindOne_sendNewCaptcha (h : BotHandler) (now : Int) (rnd : List Nat) (db : Users)
    (chatID : Int) (user : User) (j : Int) :
    FindOne (sendNewCaptcha h now rnd db chatID user).db j =
      match generateCaptcha h.config.Captcha now rnd with
      | none => FindOne db j
      | some c =>
        if j = user.TelegramID then
          (FindOne db user.TelegramID).map (fun u => { u with CaptchaData := some c, UpdatedAt := now })
        else FindOne db j := by
  unfold sendNewCaptcha
  cases generateCaptcha h.config.Captcha now rnd with
  | none => rfl
  | some c => simp only [FindOne_SaveCaptcha]

/-- The body of `handleMessage` after the user lookup. -/
theorem handleMessage_cases (h : BotHandler) (now : Int) (rnd : List Nat) (db : Users)
    (m : Message) :
    ∃ (dbUser : User) (db1 : Users),
      GetOrCreateUser db now m.From.ID m.From.UserName m.From.FirstName m.From.LastName
        m.From.IsBot = (dbUser, db1) ∧
      handleMessage h now rnd db m =
        (if m.From.IsBot then handleBotUser h db1 m.Chat.ID dbUser
         else if dbUser.IsBlocked then sendBlockedMessage db1 m.Chat.ID
         else if m.IsCommand then handleCommand h now rnd db1 m dbUser
         else if !dbUser.IsVerified then handleUnverifiedUser h now rnd db1 m.Chat.ID m.Text dbUser
         else { db := db1
                out := forwardToAdminHTML h m dbUser ++ [sendConfirmationToUser m.Chat.ID] }) :=
  ⟨_, _, rfl, rfl⟩

/-- The body of `handleMessage` when the sender already has a document `u`. -/
theorem handleMessage_found (h : BotHandler) (now : Int) (rnd : List Nat) (db : Users)
    (m : Message) (u : User) (hfind : FindOne db m.From.ID = some u) :
    ∃ db1 : Users,
      (∀ j, FindOne db1 j =
        if j = m.From.ID then
          some (refreshProfile now m.From.UserName m.From.FirstName m.From.LastName u)
        else FindOne db j) ∧
      handleMessage h now rnd db m =
        (if m.From.IsBot then handleBotUser h db1 m.Chat.ID u
         else if u.IsBlocked then sendBlockedMessage db1 m.Chat.ID
         else if m.IsCommand then handleCommand h now rnd db1 m u
         else if !u.IsVerified then handleUnverifiedUser h now rnd db1 m.Chat.ID m.Text u
         else { db := db1
                out := forwardToAdminHTML h m u ++ [sendConfirmationToUser m.Chat.ID] }) := by
  obtain ⟨dbUser, db1, hgot, hrun⟩ := handleMessage_cases h now rnd db m
  obtain ⟨h1, h2⟩ := GetOrCreateUser_found db now m.From.ID m.From.UserName m.From.FirstName
    m.From.LastName m.From.IsBot u hfind
  rw [hgot] at h1 h2
  simp only at h1 h2
  subst h1
  exact ⟨db1, h2, hrun⟩

/-! ## Challenges and trust state across a step -/

theorem SameChallenges.refl (db : Users) : SameChallenges db db := fun _ => rfl

theorem SameChallenges.trans {a b c : Users} (h1 : SameChallenges a b)
    (h2 : SameChallenges b c) : SameChallenges a c := fun j => (h2 j).trans (h1 j)

theorem SameChallenges.step {db db' : Users} (h : SameChallenges db db') :
    ChallengeStep db db' := by
  intro id
  constructor
  · intro hs; rw [h id]; exact hs
  · intro hn u' hu' hs
    have := h id
    rw [hn] at this
    simp [challengeOf, hu'] at this
    simp [this] at hs

theorem SameChallenges_IncrementAttempts (db : Users) (now id : Int) :
    SameChallenges db (IncrementAttempts db now id) := by
  intro j
  unfold challengeOf
  rw [FindOne_IncrementAttempts]
  by_cases hj : j = id
  · subst hj; cases FindOne db j <;> simp
  · simp [hj]

theorem SameChallenges_UpdateUserVerification (db : Users) (now id : Int) (v : Bool) :
    SameChallenges db (UpdateUserVerification db now id v) := by
  intro j
  unfold challengeOf
  rw [FindOne_UpdateUserVerification]
  by_cases hj : j = id
  · subst hj; cases FindOne db j <;> simp
  · simp [hj]

theorem SameChallenges_blockUser (db : Users) (now id : Int) :
    SameChallenges db (blockUser db now id) := by
  intro j
  unfold challengeOf
  rw [FindOne_blockUser]
  by_cases hj : j = id
  · subst hj; cases FindOne db j <;> simp
  · simp [hj]

theorem SameChallenges_GetOrCreateUser (db : Users) (now id : Int) (a b c : String)
    (bot : Bool) : SameChallenges db (GetOrCreateUser db now id a b c bot).2 := by
  obtain ⟨u1, hfind, _, _, _, _, _, hcap, _, hm⟩ := GetOrCreateUser_spec db now id a b c bot
  intro j
  unfold challengeOf
  rw [hfind j]
  by_cases hj : j = id
  · subst hj
    cases hf : FindOne db j with
    | some u => rw [hf] at hm; simp at hm; simp [hcap, hm]
    | none => rw [hf] at hm; simp at hm; simp [hcap, hm, freshUser]
  · simp [hj]

theorem ChallengeStep_sendNewCaptcha (h : BotHandler) (now : Int) (rnd : List Nat)
    (db db1 : Users) (chatID : Int) (user : User) (hsame : SameChallenges db db1)
    (hok : (challengeOf db user.TelegramID).isSome ∨
      ∀ u1, FindOne db1 user.TelegramID = some u1 → Unverified u1) :
    ChallengeStep db (sendNewCaptcha h now rnd db1 chatID user).db := by
  intro id
  have hfs := FindOne_sendNewCaptcha h now rnd db1 chatID user id
  cases hg : generateCaptcha h.config.Captcha now rnd with
  | none =>
    rw [hg] at hfs
    simp only at hfs
    have hc : challengeOf (sendNewCaptcha h now rnd db1 chatID user).db id = challengeOf db id := by
      unfold challengeOf; rw [hfs]; exact hsame id
    refine ⟨fun hs => by rw [hc]; exact hs, fun hn u' hu' hs => ?_⟩
    have : challengeOf (sendNewCaptcha h now rnd db1 chatID user).db id = u'.CaptchaData := by
      simp [challengeOf, hu']
    rw [hc, hn] at this
    simp [← this] at hs
  | some c =>
    rw [hg] at hfs
    simp only at hfs
    by_cases hid : id = user.TelegramID
    · subst hid
      simp only [if_true] at hfs
      constructor
      · intro hs
        have h1 : (challengeOf db1 user.TelegramID).isSome := by rw [hsame]; exact hs
        unfold challengeOf at h1 ⊢
        rw [hfs]
        cases hf : FindOne db1 user.TelegramID with
        | none => simp [hf] at h1
        | some u1 => simp
      · intro hn u' hu' _
        rcases hok with hok | hok
        · simp [hn] at hok
        · rw [hfs] at hu'
          cases hf : FindOne db1 user.TelegramID with
          | none => simp [hf] at hu'
          | some u1 =>
            simp [hf] at hu'
            have := hok u1 hf
            subst hu'
            exact this
    · simp only [hid, if_false] at hfs
      have hc : challengeOf (sendNewCaptcha h now rnd db1 chatID user).db id = challengeOf db id := by
        unfold challengeOf; rw [hfs]; exact hsame id
      refine ⟨fun hs => by rw [hc]; exact hs, fun hn u' hu' hs => ?_⟩
      have : challengeOf (sendNewCaptcha h now rnd db1 chatID user).db id = u'.CaptchaData := by
        simp [challengeOf, hu']
      rw [hc, hn] at this
      simp [← this] at hs

theorem ChallengeStep_checkCaptchaAnswer (h : BotHandler) (now : Int) (rnd : List Nat)
    (db db1 : Users) (chatID : Int) (answer : String) (user : User)
    (hsame : SameChallenges db db1)
    (hok : ∀ u1, FindOne db1 user.TelegramID = some u1 → Unverified u1) :
    ChallengeStep db (checkCaptchaAnswer h now rnd db1 chatID answer user).db := by
  have hinc := hsame.trans (SameChallenges_IncrementAttempts db1 now user.TelegramID)
  unfold checkCaptchaAnswer
  simp only
  split
  · exact hinc.step
  · split
    · exact (hinc.trans (SameChallenges_UpdateUserVerification _ _ _ _)).step
    · split
      · exact (hinc.trans (SameChallenges_blockUser _ _ _)).step
      · apply ChallengeStep_sendNewCaptcha _ _ _ _ _ _ _ hinc
        right
        intro u1 hu1
        rw [FindOne_IncrementAttempts] at hu1
        simp only [if_true] at hu1
        cases hf : FindOne db1 user.TelegramID with
        | none => simp [hf] at hu1
        | some u0 =>
          simp [hf] at hu1
          have := hok u0 hf
          subst hu1
          exact this

theorem ChallengeStep_handleUnverifiedUser (h : BotHandler) (now : Int) (rnd : List Nat)
    (db db1 : Users) (chatID : Int) (text : String) (user : User)
    (hsame : SameChallenges db db1)
    (hok : ∀ u1, FindOne db1 user.TelegramID = some u1 → Unverified u1) :
    ChallengeStep db (handleUnverifiedUser h now rnd db1 chatID text user).db := by
  unfold handleUnverifiedUser
  split
  · split
    · exact ChallengeStep_checkCaptchaAnswer h now rnd db db1 chatID text user hsame hok
    · exact ChallengeStep_sendNewCaptcha _ _ _ _ _ _ _ hsame (Or.inr hok)
  · exact ChallengeStep_sendNewCaptcha _ _ _ _ _ _ _ hsame (Or.inr hok)

theorem ChallengeStep_handleCommand (h : BotHandler) (now : Int) (rnd : List Nat)
    (db db1 : Users) (message : Message) (user : User)
    (hsame : SameChallenges db db1)
    (hok : user.IsVerified = false → user.IsBlocked = false →
      ∀ u1, FindOne db1 user.TelegramID = some u1 → Unverified u1) :
    ChallengeStep db (handleCommand h now rnd db1 message user).db := by
  unfold handleCommand handleStartCommand handleVerifyCommand handleStatusCommand
  split
  · split <;> exact hsame.step
  · split
    · split
      · exact hsame.step
      · split
        · exact hsame.step
        · next hv hb =>
          exact ChallengeStep_sendNewCaptcha _ _ _ _ _ _ _ hsame
            (Or.inr (hok (by simpa using hv) (by simpa using hb)))
    · split
      · exact hsame.step
      · split <;> exact hsame.step

theorem ChallengeStep_handleMessage (h : BotHandler) (now : Int) (rnd : List Nat)
    (db : Users) (message : Message) :
    ChallengeStep db (handleMessage h now rnd db message).db := by
  obtain ⟨u1, hfind, hid1, hid0, hv, hb, _, _, _, _⟩ :=
    GetOrCreateUser_spec db now message.From.ID message.From.UserName message.From.FirstName
      message.From.LastName message.From.IsBot
  have hsame := SameChallenges_GetOrCreateUser db now message.From.ID message.From.UserName
    message.From.FirstName message.From.LastName message.From.IsBot
  have hok : ∀ (hv0 : (GetOrCreateUser db now message.From.ID message.From.UserName
      message.From.FirstName message.From.LastName message.From.IsBot).1.IsVerified = false)
      (hb0 : (GetOrCreateUser db now message.From.ID message.From.UserName
      message.From.FirstName message.From.LastName message.From.IsBot).1.IsBlocked = false),
      ∀ u, FindOne (GetOrCreateUser db now message.From.ID message.From.UserName
        message.From.FirstName message.From.LastName message.From.IsBot).2
        (GetOrCreateUser db now message.From.ID message.From.UserName
        message.From.FirstName message.From.LastName message.From.IsBot).1.TelegramID = some u →
        Unverified u := by
    intro hv0 hb0 u hu
    rw [hid0, hfind] at hu
    simp at hu
    subst hu
    exact ⟨hv.trans hv0, hb.trans hb0⟩
  unfold handleMessage
  simp only
  split
  · exact hsame.step
  · split
    · exact hsame.step
    · next hnb =>
      split
      · exact ChallengeStep_handleCommand h now rnd db _ message _ hsame hok
      · split
        · next hnv =>
          exact ChallengeStep_handleUnverifiedUser h now rnd db _ _ _ _ hsame
            (hok (by simpa using hnv) (by simpa using hnb))
        · exact hsame.step

theorem ChallengeStep_handleCaptchaCallback (h : BotHandler) (now : Int) (rnd : List Nat)
    (db : Users) (callback : CallbackQuery) :
    ChallengeStep db (handleCaptchaCallback h now rnd db callback).db := by
  have hrefl := SameChallenges.refl db
  unfold handleCaptchaCallback
  split
  · split
    · exact hrefl.step
    · split
      · exact hrefl.step
      · split
        · exact hrefl.step
        · next user hu =>
          have hid := FindOne_TelegramID db _ user hu
          split
          · exact hrefl.step
          · next captcha hc =>
            have hsome : (challengeOf db user.TelegramID).isSome := by
              rw [hid]
              simp [challengeOf, GetUserByTelegramID] at hu ⊢
              simp [hu, hc]
            split
            · exact ChallengeStep_sendNewCaptcha _ _ _ _ _ _ _ hrefl (Or.inl hsome)
            · split
              · split
                · exact hrefl.step
                · split
                  · exact (SameChallenges_UpdateUserVerification _ _ _ _).step
                  · have hinc := SameChallenges_IncrementAttempts db now user.TelegramID
                    simp only
                    split
                    · exact hinc.step
                    · next user1 hu1 =>
                      have hid1 := FindOne_TelegramID _ _ user1 hu1
                      split
                      · exact (hinc.trans (SameChallenges_blockUser _ _ _)).step
                      · apply ChallengeStep_sendNewCaptcha _ _ _ _ _ _ _ hinc
                        left
                        rw [hid1, ← hid]
                        exact hsome
              · exact hrefl.step
  · exact hrefl.step

theorem ChallengeStep_handleCallback (h : BotHandler) (now : Int) (rnd : List Nat)
    (db : Users) (callback : CallbackQuery) :
    ChallengeStep db (handleCallback h now rnd db callback).db := by
  unfold handleCallback
  split
  · exact ChallengeStep_handleCaptchaCallback h now rnd db callback
  · split
    · unfold handleAcceptUser
      split
      · split
        · exact (SameChallenges.refl db).step
        · exact (SameChallenges_UpdateUserVerification _ _ _ _).step
      · exact (SameChallenges.refl db).step
    · split
      · unfold handleRejectUser
        split
        · split <;> exact (SameChallenges.refl db).step
        · exact (SameChallenges.refl db).step
      · split
        · unfold handleBlockUser
          split
          · split
            · exact (SameChallenges.refl db).step
            · exact (SameChallenges_blockUser _ _ _).step
          · exact (SameChallenges.refl db).step
        · exact (SameChallenges.refl db).step

theorem ChallengeStep_HandleUpdate (h : BotHandler) (now : Int) (rnd : List Nat)
    (db : Users) (update : Update) :
    ChallengeStep db (HandleUpdate h now rnd db update).db := by
  unfold HandleUpdate
  split
  · exact ChallengeStep_handleMessage h now rnd db _
  · split
    · exact ChallengeStep_handleCallback h now rnd db _
    · exact (SameChallenges.refl db).step

/-! ## The effect of one wrong answer -/

theorem wrong_text_outcome (h : BotHandler) (now : Int) (rnd : List Nat) (db : Users)
    (m : Message) (u : User) (c : Captcha)
    (hfind : FindOne db m.From.ID = some u) (hunv : Unverified u)
    (hc : u.CaptchaData = some c) (hw : WrongText m.From.ID c now m) :
    WrongOutcome h ⟨now, rnd, ⟨some m, none⟩⟩ m.From.ID u.VerificationAttempts c
      (handleMessage h now rnd db m) := by
  obtain ⟨_, hbot, hcmd, hwrong, hexp⟩ := hw
  obtain ⟨db1, hg2, hrun⟩ := handleMessage_found h now rnd db m u hfind
  obtain ⟨t1, t2, t3, t4, t5, t6⟩ := refreshProfile_trust now m.From.UserName m.From.FirstName
    m.From.LastName u
  have hid := FindOne_TelegramID db _ u hfind
  unfold WrongOutcome
  rw [hrun]
  simp only [hbot, hcmd, hunv.1, hunv.2, handleUnverifiedUser, hc, hexp, if_true,
    checkCaptchaAnswer, hwrong, Bool.false_eq_true, if_false, Bool.not_false, hid]
  by_cases hge : u.VerificationAttempts + 1 ≥ 3
  · simp only [hge, if_true, FindOne_blockUser, FindOne_IncrementAttempts, hg2]
    simp [t4, t5, hc, hge, isCaptchaPrompt, notifyAdmin]
  · simp only [hge, if_false, FindOne_sendNewCaptcha]
    cases hgen : generateCaptcha h.config.Captcha now rnd with
    | none =>
      simp only [hid, if_true, FindOne_IncrementAttempts, hg2]
      simp [t2, t3, t4, hge, Unverified, hunv.1, hunv.2, isRetryNotice]
    | some cNew =>
      simp only [hid, if_true, FindOne_IncrementAttempts, hg2]
      simp [t2, t3, t4, hge, Unverified, hunv.1, hunv.2, isRetryNotice, sendNewCaptcha, hgen,
        isCaptchaPrompt]

theorem HasPrefix_captcha (a b : String) :
    HasPrefix ("captcha_" ++ a ++ "_" ++ b) "captcha_" = true := by
  simp [HasPrefix, String.data_append]

theorem indexOption_natCast (options : List String) (i : Nat) :
    indexOption options (i : Int) = options[i]? := by
  simp [indexOption]

theorem wrong_tap_outcome (h : BotHandler) (now : Int) (rnd : List Nat) (db : Users)
    (cb : CallbackQuery) (id : Int) (u : User) (c : Captcha) (hid64 : IsInt64 id)
    (hfind : FindOne db id = some u) (hunv : Unverified u)
    (hc : u.CaptchaData = some c) (hw : WrongTap id c now cb) :
    WrongOutcome h ⟨now, rnd, ⟨none, some cb⟩⟩ id u.VerificationAttempts c
      (handleCallback h now rnd db cb) := by
  obtain ⟨i, hlen, hi63, hdata, hopt, hexp⟩ := hw
  have hid := FindOne_TelegramID db _ u hfind
  have hpi : ParseInt (fmtInt (i : Int)) = some (i : Int) :=
    ParseInt_fmtInt _ (by have : (0 : Int) ≤ i := Int.natCast_nonneg i; linarith) hi63
  have hnexp : ¬ c.ExpiresAt < now := by omega
  have hlen' : (i : Int) < (c.Options.length : Int) := by exact_mod_cast hlen
  obtain ⟨opt, hoptv⟩ : ∃ opt, c.Options[i]? = some opt :=
    ⟨c.Options[i], List.getElem?_eq_getElem hlen⟩
  have hne : opt ≠ c.Answer := by
    intro e; apply hopt; rw [hoptv, e]
  unfold WrongOutcome handleCallback
  rw [hdata, HasPrefix_captcha]
  simp only [if_true]
  unfold handleCaptchaCallback
  simp only [hdata, Split_captcha, ParseInt_fmtInt id hid64.1 hid64.2, Atoi, hpi,
    GetUserByTelegramID, hfind, hc, hnexp, if_false, hlen', if_true, indexOption_natCast,
    hoptv, hne, FindOne_IncrementAttempts, hid, Option.map_some']
  by_cases hge : u.VerificationAttempts + 1 ≥ 3
  · simp only [hge, if_true, FindOne_blockUser, FindOne_IncrementAttempts, hfind]
    simp [hc, hge, isCaptchaPrompt, notifyAdmin]
  · simp only [hge, if_false, FindOne_sendNewCaptcha]
    cases hgen : generateCaptcha h.config.Captcha now rnd with
    | none =>
      simp only [hid, if_true, FindOne_IncrementAttempts, hfind]
      simp [hge, Unverified, hunv.1, hunv.2, isRetryNotice]
    | some cNew =>
      simp only [hid, if_true, FindOne_IncrementAttempts, hfind]
      simp [hge, Unverified, hunv.1, hunv.2, isRetryNotice, sendNewCaptcha, hgen,
        isCaptchaPrompt]

theorem wrong_answer_outcome (h : BotHandler) (db : Users) (e : Event) (id : Int)
    (u : User) (c : Captcha) (hid64 : IsInt64 id)
    (hfind : FindOne db id = some u) (hunv : Unverified u)
    (hc : u.CaptchaData = some c) (hw : WrongAnswer id c e) :
    WrongOutcome h e id u.VerificationAttempts c (HandleUpdate h e.now e.rnd db e.update) := by
  obtain ⟨now, rnd, ⟨msg, cbq⟩⟩ := e
  unfold WrongAnswer at hw
  cases msg with
  | some m =>
    simp only at hw
    have hm : m.From.ID = id := hw.1
    subst hm
    have := wrong_text_outcome h now rnd db m u c hfind hunv hc hw
    simpa [WrongOutcome, HandleUpdate] using this
  | none =>
    cases cbq with
    | none => simp at hw
    | some cb =>
      simp only at hw
      have := wrong_tap_outcome h now rnd db cb id u c hid64 hfind hunv hc hw
      simpa [WrongOutcome, HandleUpdate] using this

/-! ## C1 to C7: invariant, attempt sequence and moderation overrides -/

/-- C1 (as stated, refuted): after a first message and a correct typed answer the
document of identity 7 is Verified and still carries its challenge, so the invariant
"an active challenge implies Unverified" fails in a reachable state. -/
theorem C1_counterexample :
    ¬ ChallengeOnlyWhenUnverified
        (runEvents sampleHandler [] [textEvent 0 drawsMath "hi", textEvent 5 [] " 4 "]) := by
  decide

/-- C1 (amended): for every store and every update, handling the update never removes a
stored challenge, and a document that had no challenge before the update and has one
after it is Unverified. -/
theorem C1_challenge_attached_only_when_unverified (h : BotHandler) (now : Int)
    (rnd : List Nat) (db : Users) (update : Update) (id : Int) :
    ((challengeOf db id).isSome →
      (challengeOf (HandleUpdate h now rnd db update).db id).isSome) ∧
    (challengeOf db id = none →
      ∀ u', FindOne (HandleUpdate h now rnd db update).db id = some u' →
        u'.CaptchaData.isSome → Unverified u') :=
  ChallengeStep_HandleUpdate h now rnd db update id

/-- C1 (amended), instance: the first message of identity 7 attaches a challenge to a
fresh document, which is Unverified. -/
theorem C1_challenge_attached_only_when_unverified_witness :
    challengeOf [] 7 = none ∧
    FindOne (HandleUpdate sampleHandler 0 drawsMath [] (textEvent 0 drawsMath "hi").update).db 7 =
      some (sampleUser false false 0 (some (sampleMath 0))) ∧
    Unverified (sampleUser false false 0 (some (sampleMath 0))) :=
  ⟨rfl, by decide,
   (C1_challenge_attached_only_when_unverified sampleHandler 0 drawsMath []
      (textEvent 0 drawsMath "hi").update 7).2 rfl _ (by decide) (by decide)⟩

/-- C2: from a fresh Unverified document with an unexpired challenge, three wrong
answers in a row (each typed or tapped, each scored against the challenge then active,
a new challenge being generated after the first two) give: a retry notice with 2
attempts left and the new challenge, then a retry notice with 1 attempt left and the
new challenge, then a Blocked document and no further challenge prompt. -/
theorem C2_three_wrong_answers (h : BotHandler) (id : Int) (db0 : Users) (u0 : User)
    (c0 c1 c2 : Captcha) (e1 e2 e3 : Event) (hid : IsInt64 id)
    (hfind : FindOne db0 id = some u0) (hunv : Unverified u0)
    (hatt : u0.VerificationAttempts = 0) (hc0 : u0.CaptchaData = some c0)
    (hw1 : WrongAnswer id c0 e1)
    (hg1 : generateCaptcha h.config.Captcha e1.now e1.rnd = some c1)
    (hw2 : WrongAnswer id c1 e2)
    (hg2 : generateCaptcha h.config.Captcha e2.now e2.rnd = some c2)
    (hw3 : WrongAnswer id c2 e3) :
    ((HandleUpdate h e1.now e1.rnd db0 e1.update).out.any (isRetryNotice 2) = true ∧
     (HandleUpdate h e1.now e1.rnd db0 e1.update).out.any isCaptchaPrompt = true ∧
     challengeOf (runEvents h db0 [e1]) id = some c1) ∧
    ((HandleUpdate h e2.now e2.rnd (runEvents h db0 [e1]) e2.update).out.any
        (isRetryNotice 1) = true ∧
     (HandleUpdate h e2.now e2.rnd (runEvents h db0 [e1]) e2.update).out.any
        isCaptchaPrompt = true ∧
     challengeOf (runEvents h db0 [e1, e2]) id = some c2) ∧
    ((HandleUpdate h e3.now e3.rnd (runEvents h db0 [e1, e2]) e3.update).out.any
        isCaptchaPrompt = false ∧
     ∃ u3, FindOne (runEvents h db0 [e1, e2, e3]) id = some u3 ∧
       u3.IsBlocked = true ∧ u3.IsVerified = false ∧ u3.VerificationAttempts = 3 ∧
       u3.CaptchaData = some c2) := by
  simp only [runEvents]
  obtain ⟨u1, hf1, ha1, -, hlt1⟩ := wrong_answer_outcome h db0 e1 id u0 c0 hid hfind hunv hc0 hw1
  rw [hatt] at ha1 hlt1
  obtain ⟨hunv1, hn1, hnew1⟩ := hlt1 (by norm_num)
  obtain ⟨hc1, hp1⟩ := hnew1 c1 hg1
  obtain ⟨u2, hf2, ha2, -, hlt2⟩ := wrong_answer_outcome h _ e2 id u1 c1 hid hf1 hunv1 hc1 hw2
  rw [ha1] at ha2 hlt2
  obtain ⟨hunv2, hn2, hnew2⟩ := hlt2 (by norm_num)
  obtain ⟨hc2, hp2⟩ := hnew2 c2 hg2
  obtain ⟨u3, hf3, ha3, hge3, -⟩ := wrong_answer_outcome h _ e3 id u2 c2 hid hf2 hunv2 hc2 hw3
  rw [ha2] at ha3 hge3
  obtain ⟨hb3, hv3, hc3, hp3⟩ := hge3 (by norm_num)
  refine ⟨⟨?_, hp1, ?_⟩, ⟨?_, hp2, ?_⟩, hp3, u3, hf3, hb3, hv3, ?_, hc3⟩
  · simpa using hn1
  · simp [challengeOf, hf1, hc1]
  · simpa using hn2
  · simp [challengeOf, hf2, hc2]
  · rw [ha3]; norm_num

/-- C2, instance: a wrong typed answer, a wrong tap and another wrong typed answer. -/
theorem C2_three_wrong_answers_witness :
    (HandleUpdate sampleHandler 3 [] (runEvents sampleHandler
        [sampleUser false false 0 (some (sampleMath 0))]
        [textEvent 1 drawsChoice "5", tapEvent 2 drawsMath "captcha_7_0"])
        (textEvent 3 [] "nope").update).out.any isCaptchaPrompt = false ∧
    ∃ u3, FindOne (runEvents sampleHandler [sampleUser false false 0 (some (sampleMath 0))]
        [textEvent 1 drawsChoice "5", tapEvent 2 drawsMath "captcha_7_0",
         textEvent 3 [] "nope"]) 7 = some u3 ∧
      u3.IsBlocked = true ∧ u3.IsVerified = false ∧ u3.VerificationAttempts = 3 ∧
      u3.CaptchaData = some (sampleMath 2) :=
  (C2_three_wrong_answers sampleHandler 7 [sampleUser false false 0 (some (sampleMath 0))]
    (sampleUser false false 0 (some (sampleMath 0))) (sampleMath 0) (sampleChoice 1)
    (sampleMath 2) (textEvent 1 drawsChoice "5") (tapEvent 2 drawsMath "captcha_7_0")
    (textEvent 3 [] "nope") (by decide) (by decide) (by decide) rfl rfl
    ⟨rfl, rfl, rfl, by decide, by decide⟩ (by decide)
    ⟨0, by decide, by decide, by decide, by decide, by decide⟩ (by decide)
    ⟨rfl, rfl, rfl, by decide, by decide⟩).2.2

/-- C4 (as stated, refuted): operator Accept on an Unverified document with two attempts
and a pending challenge makes it Verified but the challenge is still stored. -/
theorem C4_counterexample :
    FindOne (handleAcceptUser 5 [sampleUser false false 2 (some (sampleMath 0))]
        (sampleTap "accept_7")).db 7 =
      some { sampleUser true false 2 (some (sampleMath 0)) with
             VerifiedAt := some 5, UpdatedAt := 5 } := by
  decide

/-- C4 (amended): operator Accept with data `accept_<id>` on an Unverified document,
whatever its attempt counter and whether or not a challenge is pending, leaves it
Verified (not Blocked) with verified-at stamped; the attempt counter and the stored
challenge are left as they were. -/
theorem C4_accept_verifies_keeps_challenge (now : Int) (db : Users) (cb : CallbackQuery)
    (id : Int) (u : User) (hid : IsInt64 id) (hfind : FindOne db id = some u)
    (hunv : Unverified u) (hdata : cb.Data = "accept_" ++ fmtInt id) :
    ∃ u', FindOne (handleAcceptUser now db cb).db id = some u' ∧
      u'.IsVerified = true ∧ u'.IsBlocked = false ∧ u'.VerifiedAt = some now ∧
      u'.VerificationAttempts = u.VerificationAttempts ∧
      u'.CaptchaData = u.CaptchaData := by
  unfold handleAcceptUser
  simp only [hdata, Split_accept, ParseInt_fmtInt id hid.1 hid.2,
    FindOne_UpdateUserVerification, if_true, hfind]
  simp [hunv.2]

/-- C4 (amended), instance: identity 7 with two attempts and a pending challenge. -/
theorem C4_accept_verifies_keeps_challenge_witness :
    ∃ u', FindOne (handleAcceptUser 5 [sampleUser false false 2 (some (sampleMath 0))]
        (sampleTap "accept_7")).db 7 = some u' ∧
      u'.IsVerified = true ∧ u'.IsBlocked = false ∧ u'.VerifiedAt = some 5 ∧
      u'.VerificationAttempts = 2 ∧ u'.CaptchaData = some (sampleMath 0) :=
  C4_accept_verifies_keeps_challenge 5 [sampleUser false false 2 (some (sampleMath 0))]
    (sampleTap "accept_7") 7 (sampleUser false false 2 (some (sampleMath 0)))
    (by decide) (by decide) (by decide) (by decide)

/-- A blocked, human sender gets the blocked notice and nothing else; the
trust fields and the challenge of the document are untouched. -/
theorem blocked_message_rejected (h : BotHandler) (now : Int) (rnd : List Nat) (db : Users)
    (m : Message) (u : User) (hfind : FindOne db m.From.ID = some u)
    (hblocked : u.IsBlocked = true) (hbot : m.From.IsBot = false) :
    (handleMessage h now rnd db m).out = [blockedNotice m.Chat.ID] ∧
    ∃ u', FindOne (handleMessage h now rnd db m).db m.From.ID = some u' ∧
      u'.IsBlocked = true ∧ u'.IsVerified = u.IsVerified ∧
      u'.VerificationAttempts = u.VerificationAttempts ∧ u'.CaptchaData = u.CaptchaData := by
  obtain ⟨db1, hg2, hrun⟩ := handleMessage_found h now rnd db m u hfind
  obtain ⟨t1, t2, t3, t4, t5, t6⟩ := refreshProfile_trust now m.From.UserName
    m.From.FirstName m.From.LastName u
  rw [hrun]
  simp only [hbot, hblocked, Bool.false_eq_true, if_false, if_true, sendBlockedMessage, hg2]
  exact ⟨rfl, _, rfl, t3.trans hblocked, t2, t4, t5⟩

/-- C5: operator Block with data `block_<id>` on a Verified document sets IsBlocked and
clears IsVerified; the next message of that (human) identity is answered with the
blocked notice only, so nothing is forwarded and no challenge is issued or scored, and
the attempt counter and stored challenge stay as they were. -/
theorem C5_block_overrides_verified (h : BotHandler) (now now' : Int) (rnd : List Nat)
    (db : Users) (cb : CallbackQuery) (m : Message) (id : Int) (u : User)
    (hid : IsInt64 id) (hfind : FindOne db id = some u) (_hver : u.IsVerified = true)
    (hdata : cb.Data = "block_" ++ fmtInt id) (hfrom : m.From.ID = id)
    (hbot : m.From.IsBot = false) :
    (∃ u1, FindOne (handleBlockUser now db cb).db id = some u1 ∧
      u1.IsBlocked = true ∧ u1.IsVerified = false) ∧
    (handleMessage h now' rnd (handleBlockUser now db cb).db m).out =
      [blockedNotice m.Chat.ID] ∧
    (handleMessage h now' rnd (handleBlockUser now db cb).db m).out.any isForward = false ∧
    (handleMessage h now' rnd (handleBlockUser now db cb).db m).out.any isCaptchaPrompt = false ∧
    ∃ u2, FindOne (handleMessage h now' rnd (handleBlockUser now db cb).db m).db id = some u2 ∧
      u2.IsBlocked = true ∧ u2.IsVerified = false ∧
      u2.VerificationAttempts = u.VerificationAttempts ∧ u2.CaptchaData = u.CaptchaData := by
  subst hfrom
  have hb : FindOne (handleBlockUser now db cb).db m.From.ID =
      some { u with IsBlocked := true, IsVerified := false, UpdatedAt := now } := by
    unfold handleBlockUser
    simp only [hdata, Split_block, ParseInt_fmtInt _ hid.1 hid.2, FindOne_blockUser, if_true,
      hfind, Option.map_some']
  obtain ⟨hout, u2, hf2, hb2, hv2, ha2, hc2⟩ :=
    blocked_message_rejected h now' rnd _ m _ hb rfl hbot
  refine ⟨⟨_, hb, rfl, rfl⟩, hout, ?_, ?_, u2, hf2, hb2, hv2, ha2, hc2⟩
  · rw [hout]; rfl
  · rw [hout]; rfl

/-- C5, instance: identity 7, Verified, is blocked and then writes again. -/
theorem C5_block_overrides_verified_witness :
    (handleMessage sampleHandler 9 drawsMath
      (handleBlockUser 5 [sampleUser true false 1 (some (sampleMath 0))]
        (sampleTap "block_7")).db (sampleText "hello")).out = [blockedNotice 7] :=
  (C5_block_overrides_verified sampleHandler 5 9 drawsMath
    [sampleUser true false 1 (some (sampleMath 0))] (sampleTap "block_7") (sampleText "hello")
    7 (sampleUser true false 1 (some (sampleMath 0))) (by decide) (by decide) (by decide)
    (by decide) (by decide) (by decide)).2.1

/-- C6: operator Reject leaves the whole collection unchanged, for every store and every
callback data, also when reached through the dispatcher with data `reject_...`. -/
theorem C6_reject_changes_nothing (h : BotHandler) (now : Int) (rnd : List Nat) (db : Users)
    (cb : CallbackQuery) (s : String) :
    (handleRejectUser db cb).db = db ∧
    (handleCallback h now rnd db { cb with Data := "reject_" ++ s }).db = db := by
  have key : ∀ c : CallbackQuery, (handleRejectUser db c).db = db := by
    intro c
    unfold handleRejectUser
    split
    · split <;> rfl
    · rfl
  refine ⟨key cb, ?_⟩
  unfold handleCallback
  simp only [(HasPrefix_reject s).1, (HasPrefix_reject s).2, HasPrefix_append,
    Bool.false_eq_true, if_false, if_true]
  exact key _

/-- C7: operator Accept with data `accept_<id>` on a Blocked document leaves IsBlocked
set, and the next message of that (human) identity is answered with the blocked notice
only and is not forwarded. -/
theorem C7_accept_does_not_unblock (h : BotHandler) (now now' : Int) (rnd : List Nat)
    (db : Users) (cb : CallbackQuery) (m : Message) (id : Int) (u : User)
    (hid : IsInt64 id) (hfind : FindOne db id = some u) (hblocked : u.IsBlocked = true)
    (hdata : cb.Data = "accept_" ++ fmtInt id) (hfrom : m.From.ID = id)
    (hbot : m.From.IsBot = false) :
    (∃ u1, FindOne (handleAcceptUser now db cb).db id = some u1 ∧ u1.IsBlocked = true) ∧
    (handleMessage h now' rnd (handleAcceptUser now db cb).db m).out =
      [blockedNotice m.Chat.ID] ∧
    (handleMessage h now' rnd (handleAcceptUser now db cb).db m).out.any isForward = false := by
  subst hfrom
  have ha : FindOne (handleAcceptUser now db cb).db m.From.ID =
      some { u with IsVerified := true, UpdatedAt := now, VerifiedAt := some now } := by
    unfold handleAcceptUser
    simp only [hdata, Split_accept, ParseInt_fmtInt _ hid.1 hid.2,
      FindOne_UpdateUserVerification, if_true, hfind, Option.map_some']
  obtain ⟨hout, -⟩ := blocked_message_rejected h now' rnd _ m _ ha hblocked hbot
  refine ⟨⟨_, ha, hblocked⟩, hout, ?_⟩
  rw [hout]; rfl

/-- C7, instance: identity 7, Blocked, is accepted by the operator and writes again. -/
theorem C7_accept_does_not_unblock_witness :
    (handleMessage sampleHandler 9 drawsMath
      (handleAcceptUser 5 [sampleUser false true 3 (some (sampleMath 0))]
        (sampleTap "accept_7")).db (sampleText "hello")).out = [blockedNotice 7] :=
  (C7_accept_does_not_unblock sampleHandler 5 9 drawsMath
    [sampleUser false true 3 (some (sampleMath 0))] (sampleTap "accept_7")
    (sampleText "hello") 7 (sampleUser false true 3 (some (sampleMath 0))) (by decide)
    (by decide) (by decide) (by decide) (by decide) (by decide)).2.1

/-! ## C8: admission order -/

theorem sendNewCaptcha_no_forward (h : BotHandler) (now : Int) (rnd : List Nat) (db : Users)
    (chatID : Int) (user : User) :
    (sendNewCaptcha h now rnd db chatID user).out.any isForward = false := by
  unfold sendNewCaptcha
  split <;> simp [isForward]

theorem handleUnverifiedUser_no_forward (h : BotHandler) (now : Int) (rnd : List Nat)
    (db : Users) (chatID : Int) (text : String) (user : User) :
    (handleUnverifiedUser h now rnd db chatID text user).out.any isForward = false := by
  have hs := sendNewCaptcha_no_forward h now rnd
  unfold handleUnverifiedUser checkCaptchaAnswer
  split
  · split
    · simp only
      split
      · simp [isForward]
      · split
        · simp [isForward, notifyAdmin]
        · split
          · simp [isForward, notifyAdmin]
          · simp only [List.any_cons, isForward, Bool.false_or]
            exact hs _ _ _
    · exact hs _ _ _
  · exact hs _ _ _

theorem handleCommand_no_forward (h : BotHandler) (now : Int) (rnd : List Nat)
    (db : Users) (message : Message) (user : User) :
    (handleCommand h now rnd db message user).out.any isForward = false := by
  unfold handleCommand handleStartCommand handleVerifyCommand handleStatusCommand
  split
  · split <;> simp [isForward]
  · split
    · split
      · simp [isForward]
      · split
        · simp [isForward]
        · exact sendNewCaptcha_no_forward _ _ _ _ _ _
    · split
      · simp [isForward]
      · split <;> simp [isForward]

theorem attemptsOf_GetOrCreateUser (db : Users) (now id : Int) (a b c : String) (bot : Bool)
    (j : Int) : attemptsOf (GetOrCreateUser db now id a b c bot).2 j = attemptsOf db j := by
  obtain ⟨u1, hfind, _, _, _, _, hatt, _, _, hm⟩ := GetOrCreateUser_spec db now id a b c bot
  unfold attemptsOf
  rw [hfind j]
  by_cases hj : j = id
  · subst hj
    cases hf : FindOne db j with
    | some u => rw [hf] at hm; simp at hm; simp [hatt, hm]
    | none => rw [hf] at hm; simp at hm; simp [hatt, hm, freshUser]
  · simp [hj]

/-- C8: admission in handleMessage. With `dbUser` the document the lookup returns:
content is forwarded only if the sender is not an automated agent and `dbUser` is not
Blocked and is Verified; for an automated agent or a Blocked document no challenge is
issued and no stored challenge or attempt counter changes; an unverified document is
never forwarded; and a Blocked document gets the blocked notice only, also when its
IsVerified flag is set. -/
theorem C8_admission_order (h : BotHandler) (now : Int) (rnd : List Nat) (db : Users)
    (m : Message) :
    ((handleMessage h now rnd db m).out.any isForward = true →
      m.From.IsBot = false ∧
      (GetOrCreateUser db now m.From.ID m.From.UserName m.From.FirstName m.From.LastName
        m.From.IsBot).1.IsBlocked = false ∧
      (GetOrCreateUser db now m.From.ID m.From.UserName m.From.FirstName m.From.LastName
        m.From.IsBot).1.IsVerified = true) ∧
    (m.From.IsBot = true ∨
      (GetOrCreateUser db now m.From.ID m.From.UserName m.From.FirstName m.From.LastName
        m.From.IsBot).1.IsBlocked = true →
      (handleMessage h now rnd db m).out.any isCaptchaPrompt = false ∧
      ∀ j, challengeOf (handleMessage h now rnd db m).db j = challengeOf db j ∧
        attemptsOf (handleMessage h now rnd db m).db j = attemptsOf db j) ∧
    ((GetOrCreateUser db now m.From.ID m.From.UserName m.From.FirstName m.From.LastName
        m.From.IsBot).1.IsVerified = false →
      (handleMessage h now rnd db m).out.any isForward = false) ∧
    (m.From.IsBot = false →
      (GetOrCreateUser db now m.From.ID m.From.UserName m.From.FirstName m.From.LastName
        m.From.IsBot).1.IsBlocked = true →
      (handleMessage h now rnd db m).out = [blockedNotice m.Chat.ID]) := by
  obtain ⟨dbUser, db1, hgot, hrun⟩ := handleMessage_cases h now rnd db m
  have hsame := SameChallenges_GetOrCreateUser db now m.From.ID m.From.UserName
    m.From.FirstName m.From.LastName m.From.IsBot
  have hatt := attemptsOf_GetOrCreateUser db now m.From.ID m.From.UserName
    m.From.FirstName m.From.LastName m.From.IsBot
  rw [hgot] at hsame hatt
  simp only at hsame hatt
  rw [hgot, hrun]
  simp only
  refine ⟨?_, ?_, ?_, ?_⟩
  · intro hf
    by_cases hbot : m.From.IsBot = true
    · simp [hbot, handleBotUser, isForward, notifyAdmin] at hf
    · by_cases hb : dbUser.IsBlocked = true
      · simp [hbot, hb, sendBlockedMessage, isForward] at hf
      · by_cases hc : m.IsCommand = true
        · simp [hbot, hb, hc, handleCommand_no_forward] at hf
        · by_cases hv : dbUser.IsVerified = true
          · exact ⟨by simpa using hbot, by simpa using hb, hv⟩
          · simp [hbot, hb, hc, hv, handleUnverifiedUser_no_forward] at hf
  · intro hor
    by_cases hbot : m.From.IsBot = true
    · simp only [hbot, if_true, handleBotUser]
      exact ⟨by simp [isCaptchaPrompt, notifyAdmin], fun j => ⟨hsame j, hatt j⟩⟩
    · have hb : dbUser.IsBlocked = true := hor.resolve_left hbot
      simp only [hbot, hb, if_false, if_true, sendBlockedMessage]
      exact ⟨by simp [isCaptchaPrompt], fun j => ⟨hsame j, hatt j⟩⟩
  · intro hv
    by_cases hbot : m.From.IsBot = true
    · simp [hbot, handleBotUser, isForward, notifyAdmin]
    · by_cases hb : dbUser.IsBlocked = true
      · simp [hbot, hb, sendBlockedMessage, isForward]
      · by_cases hc : m.IsCommand = true
        · simp [hbot, hb, hc, handleCommand_no_forward]
        · simp [hbot, hb, hc, hv, handleUnverifiedUser_no_forward]
  · intro hbot hb
    simp [hbot, hb, sendBlockedMessage, blockedNotice]

/-- C8, instance: a document with both IsBlocked and IsVerified set is rejected. -/
theorem C8_admission_order_witness :
    (handleMessage sampleHandler 9 drawsMath [sampleUser true true 0 none]
      (sampleText "hello")).out = [blockedNotice 7] :=
  (C8_admission_order sampleHandler 9 drawsMath [sampleUser true true 0 none]
    (sampleText "hello")).2.2.2 (by decide) (by decide)

/-! ## C9 and C10: what the tap handler scores -/

/-- C9 (code at the failing input): starting from the empty store, identity 7 receives a
choice challenge, taps two wrong options, then the right one and is Verified with two
attempts; one more tap on a wrong option of the retained, unexpired challenge is scored:
the counter goes to three and the Verified document becomes Blocked. -/
theorem C9_stale_tap_is_scored :
    (FindOne (runEvents sampleHandler []
        [textEvent 0 drawsChoice "hi", tapEvent 1 drawsChoice "captcha_7_0",
         tapEvent 2 drawsChoice "captcha_7_0", tapEvent 3 [] "captcha_7_3"]) 7).map
      (fun u => (u.IsVerified, u.IsBlocked, u.VerificationAttempts)) = some (true, false, 2) ∧
    (FindOne (runEvents sampleHandler []
        [textEvent 0 drawsChoice "hi", tapEvent 1 drawsChoice "captcha_7_0",
         tapEvent 2 drawsChoice "captcha_7_0", tapEvent 3 [] "captcha_7_3",
         tapEvent 4 [] "captcha_7_0"]) 7).map
      (fun u => (u.IsVerified, u.IsBlocked, u.VerificationAttempts)) = some (false, true, 3) := by
  decide

/-- The typed path ignores a stale answer: when the sender's document is Verified or
Blocked, or has no challenge, handleMessage leaves its flags and counter unchanged. -/
theorem stale_text_ignored (h : BotHandler) (now : Int) (rnd : List Nat) (db : Users)
    (m : Message) (u : User) (hfind : FindOne db m.From.ID = some u)
    (hstale : ¬ Unverified u ∨ u.CaptchaData = none) :
    ∃ u', FindOne (handleMessage h now rnd db m).db m.From.ID = some u' ∧
      u'.IsVerified = u.IsVerified ∧ u'.IsBlocked = u.IsBlocked ∧
      u'.VerificationAttempts = u.VerificationAttempts := by
  obtain ⟨db1, hg2, hrun⟩ := handleMessage_found h now rnd db m u hfind
  obtain ⟨t1, t2, t3, t4, t5, t6⟩ := refreshProfile_trust now m.From.UserName
    m.From.FirstName m.From.LastName u
  have huid := FindOne_TelegramID db _ u hfind
  have hbase : ∃ u', FindOne db1 m.From.ID = some u' ∧ u'.IsVerified = u.IsVerified ∧
      u'.IsBlocked = u.IsBlocked ∧ u'.VerificationAttempts = u.VerificationAttempts :=
    ⟨_, by rw [hg2]; simp, t2, t3, t4⟩
  have hsend : ∀ chat, ∃ u', FindOne (sendNewCaptcha h now rnd db1 chat u).db m.From.ID =
      some u' ∧ u'.IsVerified = u.IsVerified ∧ u'.IsBlocked = u.IsBlocked ∧
      u'.VerificationAttempts = u.VerificationAttempts := by
    intro chat
    rw [FindOne_sendNewCaptcha]
    cases generateCaptcha h.config.Captcha now rnd with
    | none => exact hbase
    | some c => simp [huid, hg2, t2, t3, t4]
  have hcmd : ∃ u', FindOne (handleCommand h now rnd db1 m u).db m.From.ID = some u' ∧
      u'.IsVerified = u.IsVerified ∧ u'.IsBlocked = u.IsBlocked ∧
      u'.VerificationAttempts = u.VerificationAttempts := by
    unfold handleCommand handleStartCommand handleVerifyCommand handleStatusCommand
    split
    · split <;> exact hbase
    · split
      · split
        · exact hbase
        · split
          · exact hbase
          · exact hsend _
      · split
        · exact hbase
        · split <;> exact hbase
  have hunvP : u.CaptchaData = none →
      ∃ u', FindOne (handleUnverifiedUser h now rnd db1 m.Chat.ID m.Text u).db m.From.ID =
        some u' ∧ u'.IsVerified = u.IsVerified ∧ u'.IsBlocked = u.IsBlocked ∧
        u'.VerificationAttempts = u.VerificationAttempts := by
    intro hnone
    unfold handleUnverifiedUser
    rw [hnone]
    exact hsend _
  rw [hrun]
  split
  · exact hbase
  · split
    · exact hbase
    · next hb =>
      split
      · exact hcmd
      · split
        · next hv =>
          apply hunvP
          rcases hstale with hs | hs
          · exact absurd ⟨by simpa using hv, by simpa using hb⟩ hs
          · exact hs
        · exact hbase

/-- C10 (code at the failing input): an Unverified document with no attempts and an
unexpired choice challenge; the tap on the correct option (index 3) verifies it and the
attempt counter is still 0. -/
theorem C10_correct_tap_not_counted :
    (FindOne (handleCaptchaCallback sampleHandler 1 []
        [sampleUser false false 0 (some (sampleChoice 0))] (sampleTap "captcha_7_3")).db 7).map
      (fun u => (u.IsVerified, u.VerificationAttempts)) = some (true, 0) := by
  decide

/-- The typed path counts every scored answer: checkCaptchaAnswer adds one to the stored
counter whether the answer is right or wrong. -/
theorem checkCaptchaAnswer_counts (h : BotHandler) (now : Int) (rnd : List Nat) (db : Users)
    (chatID : Int) (answer : String) (user stored : User)
    (hfind : FindOne db user.TelegramID = some stored) :
    ∃ u', FindOne (checkCaptchaAnswer h now rnd db chatID answer user).db user.TelegramID =
        some u' ∧ u'.VerificationAttempts = stored.VerificationAttempts + 1 := by
  unfold checkCaptchaAnswer
  simp only
  split
  · simp [FindOne_IncrementAttempts, hfind]
  · split
    · simp [FindOne_UpdateUserVerification, FindOne_IncrementAttempts, hfind]
    · split
      · simp [FindOne_blockUser, FindOne_IncrementAttempts, hfind]
      · simp only [FindOne_sendNewCaptcha]
        cases generateCaptcha h.config.Captcha now rnd <;>
          simp [FindOne_IncrementAttempts, hfind]

/-! ## Challenge generation -/

theorem generateCaptcha_cons (cfg : CaptchaConfig) (now : Int) (d : Nat) (r0 : List Nat) :
    generateCaptcha cfg now (d :: r0) =
      if d % 3 = 0 then mathBranch cfg now r0
      else if d % 3 = 1 then textBranch cfg now r0
      else buttonBranch cfg now r0 := by
  have h3 : d % 3 = 0 ∨ d % 3 = 1 ∨ d % 3 = 2 := by omega
  unfold generateCaptcha
  simp only [Intn, List.length_cons, List.length_nil, Nat.zero_add, Nat.reduceAdd]
  rcases h3 with h | h | h <;> rw [h] <;> rfl

theorem generateCaptcha_nil (cfg : CaptchaConfig) (now : Int) :
    generateCaptcha cfg now [] = none := rfl

theorem additionCaptcha_eq (now : Int) (da db : Nat) (rest : List Nat) :
    additionCaptcha now (da :: db :: rest) =
      some { Type_ := "math",
             Question := fmtInt (operandOf da) ++ " + " ++ fmtInt (operandOf db),
             Answer := fmtInt (operandOf da + operandOf db), Options := [],
             CreatedAt := now, ExpiresAt := now + twoMinutes } := rfl

theorem additionCaptcha_kind (now : Int) (rnd : List Nat) (c : Captcha)
    (h : additionCaptcha now rnd = some c) : c.Type_ = "math" := by
  match rnd, h with
  | da :: db :: rest, h =>
    rw [additionCaptcha_eq] at h
    injection h with h
    rw [← h]

theorem mathBranch_kind (cfg : CaptchaConfig) (now : Int) (rnd : List Nat) (c : Captcha)
    (h : mathBranch cfg now rnd = some c) : c.Type_ = "math" := by
  unfold mathBranch at h
  split at h
  · exact additionCaptcha_kind now rnd c h
  · match rnd, h with
    | da :: db :: dk :: rest, h =>
      simp only [Intn] at h
      injection h with h
      rw [← h]

theorem textBranch_kind (cfg : CaptchaConfig) (now : Int) (rnd : List Nat) (c : Captcha)
    (h : textBranch cfg now rnd = some c) :
    c.Type_ = if cfg.TextQuestions.length = 0 then "math" else "text" := by
  unfold textBranch at h
  split at h
  · next hz => rw [if_pos hz]; exact additionCaptcha_kind now rnd c h
  · next hz =>
    rw [if_neg hz]
    match rnd, h with
    | dk :: rest, h =>
      simp only [Intn] at h
      injection h with h
      rw [← h]

theorem getD_mod_mem (colors : List String) (d : Nat) (h : colors ≠ []) :
    colors.getD (d % colors.length) "" ∈ colors := by
  have hpos : 0 < colors.length := List.length_pos.mpr h
  have hlt : d % colors.length < colors.length := Nat.mod_lt _ hpos
  rw [List.getD_eq_getElem _ _ hlt]
  exact List.getElem_mem _

/-- What the option-collecting loop returns: four pairwise distinct pool entries that
start with the options it was given. -/
theorem collectOptions_spec (colors : List String) (hne : colors ≠ []) :
    ∀ (rnd : List Nat) (options res : List String) (rest : List Nat),
      collectOptions colors options rnd = some (res, rest) →
      options.Nodup → (∀ o ∈ options, o ∈ colors) → options.length ≤ 4 →
      res.Nodup ∧ (∀ o ∈ res, o ∈ colors) ∧ res.length = 4 ∧ options <+: res := by
  intro rnd
  induction rnd with
  | nil =>
    intro options res rest h hnd hmem hlen
    unfold collectOptions at h
    split at h
    · simp at h
    · next hge =>
      simp only [Option.some.injEq, Prod.mk.injEq] at h
      obtain ⟨rfl, -⟩ := h
      exact ⟨hnd, hmem, by omega, List.prefix_refl _⟩
  | cons d rnd ih =>
    intro options res rest h hnd hmem hlen
    unfold collectOptions at h
    split at h
    · next hlt =>
      simp only at h
      split at h
      · exact ih options res rest h hnd hmem hlen
      · next hnot =>
        have hnotmem : colors.getD (d % colors.length) "" ∉ options := by
          intro hm
          apply hnot
          simpa using hm
        have hnd' : (options ++ [colors.getD (d % colors.length) ""]).Nodup := by
          rw [List.nodup_append]
          refine ⟨hnd, List.nodup_singleton _, ?_⟩
          intro a ha hb
          simp only [List.mem_singleton] at hb
          subst hb
          exact hnotmem ha
        have hmem' : ∀ o ∈ options ++ [colors.getD (d % colors.length) ""], o ∈ colors := by
          intro o ho
          rcases List.mem_append.mp ho with ho | ho
          · exact hmem o ho
          · simp only [List.mem_singleton] at ho
            subst ho
            exact getD_mod_mem colors d hne
        obtain ⟨r1, r2, r3, r4⟩ := ih _ res rest h hnd' hmem' (by simp; omega)
        exact ⟨r1, r2, r3, (List.prefix_append _ _).trans r4⟩
    · next hge =>
      simp only [Option.some.injEq, Prod.mk.injEq] at h
      obtain ⟨rfl, -⟩ := h
      exact ⟨hnd, hmem, by omega, List.prefix_refl _⟩

theorem swapAt_length (l : List String) (i j : Nat) : (swapAt l i j).length = l.length := by
  simp [swapAt]

theorem swapAt_perm (l : List String) (i j : Nat) (hi : i < l.length) (hj : j < l.length) :
    (swapAt l i j).Perm l := by
  rw [List.perm_iff_count]
  intro a
  unfold swapAt
  rw [List.getD_eq_getElem _ _ hi, List.getD_eq_getElem _ _ hj]
  have hj' : j < (l.set i l[j]).length := by simpa using hj
  rw [List.count_set _ _ _ _ hj', List.count_set _ _ _ _ hi]
  have hget : (l.set i l[j])[j] = l[j] := by
    rw [List.getElem_set]
    split <;> rfl
  rw [hget]
  have h1 : (if l[i] == a then 1 else 0) ≤ l.count a := by
    split
    · next he =>
      have : a ∈ l := by
        have := List.getElem_mem hi
        simp only [beq_iff_eq] at he
        rw [← he]; exact this
      exact List.count_pos_iff.mpr this
    · omega
  omega

theorem shuffleFrom_perm : ∀ (i : Nat) (l : List String) (rnd : List Nat)
    (res : List String) (rest : List Nat),
    shuffleFrom i l rnd = some (res, rest) → i < l.length → res.Perm l := by
  intro i
  induction i with
  | zero =>
    intro l rnd res rest h _
    simp only [shuffleFrom, Option.some.injEq, Prod.mk.injEq] at h
    rw [← h.1]
  | succ i ih =>
    intro l rnd res rest h hi
    cases rnd with
    | nil => simp [shuffleFrom, Intn] at h
    | cons d rnd =>
      simp only [shuffleFrom, Intn] at h
      have hj : d % (i + 2) < l.length := by
        have : d % (i + 2) < i + 2 := Nat.mod_lt _ (by omega)
        omega
      have hp := ih _ rnd res rest h (by rw [swapAt_length]; omega)
      exact hp.trans (swapAt_perm l (i + 1) _ hi hj)

theorem Shuffle_perm (l : List String) (rnd : List Nat) (res : List String)
    (rest : List Nat) (h : Shuffle l rnd = some (res, rest)) (hl : 0 < l.length) :
    res.Perm l :=
  shuffleFrom_perm _ l rnd res rest h (by omega)

/-- What the `case "button"` branch returns when it answers with a choice challenge. -/
theorem buttonBranch_spec (cfg : CaptchaConfig) (now : Int) (rnd : List Nat) (c : Captcha)
    (h : buttonBranch cfg now rnd = some c) :
    (cfg.Colors.length < 4 ∧ c.Type_ = "math") ∨
    (4 ≤ cfg.Colors.length ∧ c.Type_ = "button" ∧ c.Options.length = 4 ∧ c.Options.Nodup ∧
      (∀ o ∈ c.Options, o ∈ cfg.Colors) ∧ c.Answer ∈ c.Options) := by
  unfold buttonBranch at h
  split at h
  · next hlt => exact Or.inl ⟨hlt, additionCaptcha_kind now rnd c h⟩
  · next hge =>
    right
    have hne : cfg.Colors ≠ [] := by
      intro e; rw [e] at hge; simp at hge
    cases rnd with
    | nil => simp [Intn] at h
    | cons d r1 =>
      simp only [Intn] at h
      split at h
      · simp at h
      · next options r2 hco =>
        obtain ⟨hnd, hmem, hlen, hpre⟩ := collectOptions_spec cfg.Colors hne r1 _ options r2 hco
          (List.nodup_singleton _)
          (by intro o ho; simp only [List.mem_singleton] at ho; subst ho
              exact getD_mod_mem cfg.Colors d hne)
          (by simp)
        split at h
        · simp at h
        · next shuffled r3 hsh =>
          simp only [Option.some.injEq] at h
          have hperm := Shuffle_perm options r2 shuffled r3 hsh (by omega)
          have hcorrect : cfg.Colors.getD (d % cfg.Colors.length) "" ∈ options :=
            hpre.subset (List.mem_singleton_self _)
          subst h
          refine ⟨by omega, rfl, ?_, ?_, ?_, ?_⟩
          · simpa [hlen] using hperm.length_eq
          · exact hperm.nodup_iff.mpr hnd
          · intro o ho
            exact hmem o (hperm.subset ho)
          · exact hperm.symm.subset hcorrect

theorem operandOf_range (d : Nat) : 1 ≤ operandOf d ∧ operandOf d ≤ 10 := by
  unfold operandOf
  have : d % 10 < 10 := Nat.mod_lt _ (by omega)
  omega

/-- The `switch op` against the specification's reading of the question: the question
is the rendering of the displayed expression, whose operands are positive, and the
answer is the decimal rendering of its exact value. -/
theorem mathQuestion_exact (op : String) (a b : Int) (ha : 1 ≤ a) (hb : 1 ≤ b) :
    (mathQuestion op a b).1 = (displayedExpr op a b).render ∧
    0 < (displayedExpr op a b).left ∧ 0 < (displayedExpr op a b).right ∧
    ∃ v, (displayedExpr op a b).value = some v ∧ (mathQuestion op a b).2 = fmtInt v := by
  have e1 : (" " ++ "+" ++ " " : String) = " + " := by decide
  have e2 : (" " ++ "-" ++ " " : String) = " - " := by decide
  have e3 : (" " ++ "×" ++ " " : String) = " × " := by decide
  have e4 : (" " ++ "÷" ++ " " : String) = " ÷ " := by decide
  have hmul : 0 < a * b := by positivity
  by_cases h1 : op = "+"
  · subst h1
    refine ⟨?_, ?_, ?_, a + b, ?_, ?_⟩ <;>
      simp [mathQuestion, displayedExpr, MathExpr.render, MathExpr.value, e1] <;> omega
  · by_cases h2 : op = "-"
    · subst h2
      refine ⟨?_, ?_, ?_, a, ?_, ?_⟩ <;>
        simp [mathQuestion, displayedExpr, MathExpr.render, MathExpr.value, e2] <;> omega
    · by_cases h3 : op = "×"
      · subst h3
        refine ⟨?_, ?_, ?_, a * b, ?_, ?_⟩ <;>
          simp [mathQuestion, displayedExpr, MathExpr.render, MathExpr.value, e3] <;> omega
      · by_cases h4 : op = "÷"
        · subst h4
          have hb0 : b ≠ 0 := by omega
          refine ⟨?_, ?_, ?_, a, ?_, ?_⟩
          · simp [mathQuestion, displayedExpr, MathExpr.render, e4]
          · simpa [displayedExpr] using hmul
          · simp [displayedExpr]; omega
          · simp [displayedExpr, MathExpr.value, hb0, Int.mul_ediv_cancel _ hb0]
          · simp [mathQuestion]
        · refine ⟨?_, ?_, ?_, a + b, ?_, ?_⟩ <;>
            simp [mathQuestion, displayedExpr, MathExpr.render, MathExpr.value, e1, h1, h2, h3,
              h4] <;> omega

/-! ## C11 to C15: the generated challenge -/

/-- C11: every choice-kind challenge that generateCaptcha returns (whatever the pool, so
also for a pool of at least 4 pairwise distinct options) has exactly 4 options, pairwise
distinct, all taken from the pool, exactly one of which is the recorded Answer. -/
theorem C11_choice_challenge_options (cfg : CaptchaConfig) (now : Int) (rnd : List Nat)
    (c : Captcha) (hgen : generateCaptcha cfg now rnd = some c)
    (hkind : c.Type_ = "button") :
    c.Options.length = 4 ∧ c.Options.Nodup ∧ (∀ o ∈ c.Options, o ∈ cfg.Colors) ∧
    c.Options.count c.Answer = 1 := by
  cases rnd with
  | nil => simp [generateCaptcha_nil] at hgen
  | cons d r0 =>
    rw [generateCaptcha_cons] at hgen
    split at hgen
    · have := mathBranch_kind cfg now r0 c hgen
      rw [this] at hkind; exact absurd hkind (by decide)
    · split at hgen
      · have := textBranch_kind cfg now r0 c hgen
        rw [this] at hkind
        split at hkind <;> exact absurd hkind (by decide)
      · rcases buttonBranch_spec cfg now r0 c hgen with ⟨-, hm⟩ | ⟨-, -, hlen, hnd, hmem, hans⟩
        · rw [hm] at hkind; exact absurd hkind (by decide)
        · exact ⟨hlen, hnd, hmem, List.count_eq_one_of_mem hnd hans⟩

/-- C11, instance: the choice challenge drawn from the sample pool of five colours. -/
theorem C11_choice_challenge_options_witness :
    generateCaptcha sampleHandler.config.Captcha 0 drawsChoice = some (sampleChoice 0) ∧
    (sampleChoice 0).Options.length = 4 ∧ (sampleChoice 0).Options.Nodup ∧
    (∀ o ∈ (sampleChoice 0).Options, o ∈ sampleHandler.config.Captcha.Colors) ∧
    (sampleChoice 0).Options.count (sampleChoice 0).Answer = 1 :=
  ⟨by decide,
   C11_choice_challenge_options sampleHandler.config.Captcha 0 drawsChoice (sampleChoice 0)
     (by decide) (by decide)⟩

/-- C12: with a non-empty operator set, when the kind draw selects math, generateCaptcha
returns after three more draws a math challenge built from operands `a`, `b` in 1..10 and
the drawn operator `op` of the set: its Question renders the displayed expression
(`(a+b) - b` for subtraction, `(a*b) ÷ b` for division, `a + b` for any operator outside
the four), both displayed operands are positive, and its Answer is the decimal rendering
of the exact value of that expression (`a` for subtraction and for division). -/
theorem C12_math_answer_is_exact_value (cfg : CaptchaConfig) (now : Int)
    (t da db dk : Nat) (rest : List Nat) (ht : t % 3 = 0) (hops : cfg.MathOperators ≠ []) :
    ∃ c, generateCaptcha cfg now (t :: da :: db :: dk :: rest) = some c ∧
      c.Type_ = "math" ∧
      cfg.MathOperators.getD (dk % cfg.MathOperators.length) "" ∈ cfg.MathOperators ∧
      (1 ≤ operandOf da ∧ operandOf da ≤ 10) ∧ (1 ≤ operandOf db ∧ operandOf db ≤ 10) ∧
      c.Question =
        (displayedExpr (cfg.MathOperators.getD (dk % cfg.MathOperators.length) "")
          (operandOf da) (operandOf db)).render ∧
      0 < (displayedExpr (cfg.MathOperators.getD (dk % cfg.MathOperators.length) "")
          (operandOf da) (operandOf db)).left ∧
      0 < (displayedExpr (cfg.MathOperators.getD (dk % cfg.MathOperators.length) "")
          (operandOf da) (operandOf db)).right ∧
      (∃ v, (displayedExpr (cfg.MathOperators.getD (dk % cfg.MathOperators.length) "")
          (operandOf da) (operandOf db)).value = some v ∧ c.Answer = fmtInt v) ∧
      (cfg.MathOperators.getD (dk % cfg.MathOperators.length) "" = "-" →
        c.Question = fmtInt (operandOf da + operandOf db) ++ " - " ++ fmtInt (operandOf db) ∧
        c.Answer = fmtInt (operandOf da)) ∧
      (cfg.MathOperators.getD (dk % cfg.MathOperators.length) "" = "÷" →
        c.Question = fmtInt (operandOf da * operandOf db) ++ " ÷ " ++ fmtInt (operandOf db) ∧
        c.Answer = fmtInt (operandOf da)) ∧
      (cfg.MathOperators.getD (dk % cfg.MathOperators.length) "" ∉ ["+", "-", "×", "÷"] →
        c.Question = fmtInt (operandOf da) ++ " + " ++ fmtInt (operandOf db) ∧
        c.Answer = fmtInt (operandOf da + operandOf db)) := by
  have hlen : ¬ cfg.MathOperators.length = 0 := by
    intro e; exact hops (List.length_eq_zero.mp e)
  obtain ⟨ha1, ha2⟩ := operandOf_range da
  obtain ⟨hb1, hb2⟩ := operandOf_range db
  obtain ⟨hq, hl, hr, hv⟩ := mathQuestion_exact
    (cfg.MathOperators.getD (dk % cfg.MathOperators.length) "") (operandOf da) (operandOf db)
    ha1 hb1
  refine ⟨{ Type_ := "math"
            Question := (mathQuestion (cfg.MathOperators.getD (dk % cfg.MathOperators.length) "")
              (operandOf da) (operandOf db)).1
            Answer := (mathQuestion (cfg.MathOperators.getD (dk % cfg.MathOperators.length) "")
              (operandOf da) (operandOf db)).2
            Options := [], CreatedAt := now, ExpiresAt := now + twoMinutes },
    ?_, rfl, getD_mod_mem _ dk hops, ⟨ha1, ha2⟩, ⟨hb1, hb2⟩, hq, hl, hr, hv, ?_, ?_, ?_⟩
  · rw [generateCaptcha_cons, if_pos ht]
    unfold mathBranch
    rw [if_neg hlen]
    rfl
  · intro hop
    show (mathQuestion _ _ _).1 = _ ∧ (mathQuestion _ _ _).2 = _
    rw [hop]
    exact ⟨rfl, rfl⟩
  · intro hop
    show (mathQuestion _ _ _).1 = _ ∧ (mathQuestion _ _ _).2 = _
    rw [hop]
    exact ⟨rfl, rfl⟩
  · intro hop
    show (mathQuestion _ _ _).1 = _ ∧ (mathQuestion _ _ _).2 = _
    generalize cfg.MathOperators.getD (dk % cfg.MathOperators.length) "" = op at hop
    simp only [List.mem_cons, List.mem_singleton, List.not_mem_nil, or_false, not_or] at hop
    simp [hop.1, hop.2.1, hop.2.2.1, hop.2.2.2, mathQuestion]

/-- C12, instance: the draws `0, 3, 4, 1` against the four operators give `9 - 5`. -/
theorem C12_math_answer_is_exact_value_witness :
    ∃ c, generateCaptcha sampleHandler.config.Captcha 0 [0, 3, 4, 1] = some c ∧
      c.Question = "9 - 5" ∧ c.Answer = "4" := by
  obtain ⟨c, hc, -, -, -, -, -, -, -, -, hsub, -, -⟩ :=
    C12_math_answer_is_exact_value sampleHandler.config.Captcha 0 0 3 4 1 [] (by decide)
      (by decide)
  obtain ⟨hq, ha⟩ := hsub (by decide)
  refine ⟨c, hc, ?_, ?_⟩
  · rw [hq]; decide
  · rw [ha]; decide

/-- C13: when there are no math operators, no trivia pairs and fewer than 4 choice
options, generateCaptcha returns, for every kind draw and every two operand draws, the
math challenge whose Question is `a + b` with `a`, `b` in 1..10 and whose Answer is the
decimal rendering of `a + b`. -/
theorem C13_empty_pools_give_addition (cfg : CaptchaConfig) (now : Int) (t da db : Nat)
    (rest : List Nat) (hops : cfg.MathOperators = []) (htext : cfg.TextQuestions = [])
    (hcol : cfg.Colors.length < 4) :
    generateCaptcha cfg now (t :: da :: db :: rest) =
      some { Type_ := "math",
             Question := fmtInt (operandOf da) ++ " + " ++ fmtInt (operandOf db),
             Answer := fmtInt (operandOf da + operandOf db), Options := [],
             CreatedAt := now, ExpiresAt := now + twoMinutes } ∧
    (1 ≤ operandOf da ∧ operandOf da ≤ 10) ∧ (1 ≤ operandOf db ∧ operandOf db ≤ 10) := by
  refine ⟨?_, operandOf_range da, operandOf_range db⟩
  rw [generateCaptcha_cons]
  unfold mathBranch textBranch buttonBranch
  simp only [hops, htext, List.length_nil, if_true, hcol]
  split
  · exact additionCaptcha_eq now da db rest
  · split <;> exact additionCaptcha_eq now da db rest

/-- C13, instance: every pool empty, kind draw `2` (choice), operand draws `6` and `2`. -/
theorem C13_empty_pools_give_addition_witness :
    generateCaptcha emptyPools 0 [2, 6, 2] =
      some { Type_ := "math", Question := "7 + 3", Answer := "10", Options := [],
             CreatedAt := 0, ExpiresAt := twoMinutes } :=
  (C13_empty_pools_give_addition emptyPools 0 2 6 2 [] rfl rfl (by decide)).1

theorem collectOptions_duplicates (rnd : List Nat) :
    collectOptions ["red", "red", "red", "red"] ["red"] rnd = none := by
  induction rnd with
  | nil => rfl
  | cons d rnd ih =>
    have h4 : d % 4 = 0 ∨ d % 4 = 1 ∨ d % 4 = 2 ∨ d % 4 = 3 := by omega
    unfold collectOptions
    rcases h4 with h | h | h | h <;> simp [h, ih]

/-- C14 (code at the failing input): with the choice pool `red,red,red,red` that
`splitCommaSeparated` produces, once the kind draw selects the choice kind there is no
sequence of further draws, however long, with which generateCaptcha returns. -/
theorem C14_duplicate_pool_never_returns (now : Int) (rnd : List Nat) :
    duplicateColors.Colors = ["red", "red", "red", "red"] ∧
    generateCaptcha duplicateColors now (2 :: rnd) = none := by
  have hc : duplicateColors.Colors = ["red", "red", "red", "red"] := by decide
  refine ⟨hc, ?_⟩
  rw [generateCaptcha_cons]
  unfold buttonBranch
  rw [hc]
  cases rnd with
  | nil => rfl
  | cons d r1 =>
    have h4 : d % 4 = 0 ∨ d % 4 = 1 ∨ d % 4 = 2 ∨ d % 4 = 3 := by omega
    rcases h4 with h | h | h | h <;> simp [Intn, h, collectOptions_duplicates]

/-- C16 (as stated, refuted): a first message from an automated agent leaves a new
document in a store that was empty. -/
theorem C16_counterexample :
    (handleMessage sampleHandler 0 [] [] botMessage).db =
      [freshUser 0 9 "robot" "R" "" true] := by
  decide

/-- C16 (amended): a message from an automated agent changes the store only through
GetOrCreateUser, which runs before the IsBot test: documents of other identities stay as
they are, the sender's document is created Unverified when missing and otherwise gets its
profile refreshed; no challenge is issued and no stored challenge or attempt counter
changes. -/
theorem C16_bot_message_only_touches_profile (h : BotHandler) (now : Int) (rnd : List Nat)
    (db : Users) (m : Message) (hbot : m.From.IsBot = true) :
    (handleMessage h now rnd db m).db =
      (GetOrCreateUser db now m.From.ID m.From.UserName m.From.FirstName m.From.LastName
        true).2 ∧
    (handleMessage h now rnd db m).out.any isCaptchaPrompt = false ∧
    (∀ j, j ≠ m.From.ID → FindOne (handleMessage h now rnd db m).db j = FindOne db j) ∧
    (∀ u, FindOne db m.From.ID = some u →
      FindOne (handleMessage h now rnd db m).db m.From.ID =
        some (refreshProfile now m.From.UserName m.From.FirstName m.From.LastName u)) ∧
    (FindOne db m.From.ID = none →
      (handleMessage h now rnd db m).db =
        InsertOne db (freshUser now m.From.ID m.From.UserName m.From.FirstName
          m.From.LastName true)) ∧
    (∀ j, challengeOf (handleMessage h now rnd db m).db j = challengeOf db j ∧
      attemptsOf (handleMessage h now rnd db m).db j = attemptsOf db j) := by
  obtain ⟨dbUser, db1, hgot, hrun⟩ := handleMessage_cases h now rnd db m
  have hsame := SameChallenges_GetOrCreateUser db now m.From.ID m.From.UserName
    m.From.FirstName m.From.LastName m.From.IsBot
  have hatt := attemptsOf_GetOrCreateUser db now m.From.ID m.From.UserName
    m.From.FirstName m.From.LastName m.From.IsBot
  have hdb : (handleMessage h now rnd db m).db = db1 := by
    rw [hrun]; simp [hbot, handleBotUser]
  have hout : (handleMessage h now rnd db m).out.any isCaptchaPrompt = false := by
    rw [hrun]; simp [hbot, handleBotUser, isCaptchaPrompt, notifyAdmin]
  rw [hdb]
  rw [hbot] at hgot hsame hatt
  rw [hgot] at hsame hatt ⊢
  simp only at hsame hatt ⊢
  refine ⟨trivial, hout, ?_, ?_, ?_, fun j => ⟨hsame j, hatt j⟩⟩
  · intro j hj
    cases hf : FindOne db m.From.ID with
    | some u =>
      have := (GetOrCreateUser_found db now m.From.ID m.From.UserName m.From.FirstName
        m.From.LastName true u hf).2 j
      rw [hgot] at this
      simpa [hj] using this
    | none =>
      have := (GetOrCreateUser_new db now m.From.ID m.From.UserName m.From.FirstName
        m.From.LastName true hf).2 j
      rw [hgot] at this
      simpa [hj] using this
  · intro u hf
    have := (GetOrCreateUser_found db now m.From.ID m.From.UserName m.From.FirstName
      m.From.LastName true u hf).2 m.From.ID
    rw [hgot] at this
    simpa using this
  · intro hf
    have : (GetOrCreateUser db now m.From.ID m.From.UserName m.From.FirstName
        m.From.LastName true).2 = InsertOne db (freshUser now m.From.ID m.From.UserName
          m.From.FirstName m.From.LastName true) := by
      unfold GetOrCreateUser
      simp only [hf]
      rfl
    rw [hgot] at this
    exact this

/-- C16 (amended), instance: the agent writes to a store holding identity 7 only. -/
theorem C16_bot_message_only_touches_profile_witness :
    FindOne (handleMessage sampleHandler 3 [] [sampleUser true false 1 none] botMessage).db 7 =
      some (sampleUser true false 1 none) ∧
    (handleMessage sampleHandler 3 [] [sampleUser true false 1 none] botMessage).db =
      [sampleUser true false 1 none, freshUser 3 9 "robot" "R" "" true] :=
  ⟨((C16_bot_message_only_touches_profile sampleHandler 3 [] [sampleUser true false 1 none]
      botMessage rfl).2.2.1 7 (by decide)).trans (by decide),
   (C16_bot_message_only_touches_profile sampleHandler 3 [] [sampleUser true false 1 none]
      botMessage rfl).2.2.2.2.1 (by decide)⟩

/-! ## C3: a submission after the challenge expired -/

theorem generateCaptcha_duplicateColors (now : Int) (rnd : List Nat) :
    generateCaptcha duplicateColors now (2 :: rnd) = none := by
  have hc : duplicateColors.Colors = ["red", "red", "red", "red"] := by decide
  rw [generateCaptcha_cons]
  unfold buttonBranch
  rw [hc]
  cases rnd with
  | nil => rfl
  | cons d r1 =>
    have h4 : d % 4 = 0 ∨ d % 4 = 1 ∨ d % 4 = 2 ∨ d % 4 = 3 := by omega
    rcases h4 with h | h | h | h <;> simp [Intn, h, collectOptions_duplicates]

/-- C3 (code, on every input and at the failing one): for an Unverified document whose
challenge expired strictly before now, any submitted answer (typed text handled by
handleUnverifiedUser, or a tap on any index handled by handleCaptchaCallback) leaves the
attempt counter unchanged and the document Unverified. The challenge is replaced, and the
new prompt sent, exactly when generateCaptcha returns; when generateCaptcha does not
return, the expired challenge stays the stored one and no prompt is sent. With the choice
pool `red,red,red,red` and the kind draw `2` generateCaptcha does not return, whatever
draws follow, so there the challenge is not replaced. -/
theorem C3_expired_submission_not_scored (h : BotHandler) (id : Int) (db : Users)
    (u : User) (c : Captcha) (e : Event) (hid : IsInt64 id)
    (hfind : FindOne db id = some u) (hunv : Unverified u) (hc : u.CaptchaData = some c)
    (hsub : AnswerSubmission id e) (hexp : c.ExpiresAt < e.now) :
    ∃ u', FindOne (HandleUpdate h e.now e.rnd db e.update).db id = some u' ∧
      u'.VerificationAttempts = u.VerificationAttempts ∧ Unverified u' ∧
      (∀ cNew, generateCaptcha h.config.Captcha e.now e.rnd = some cNew →
        u'.CaptchaData = some cNew ∧
        (HandleUpdate h e.now e.rnd db e.update).out.any isCaptchaPrompt = true) ∧
      (generateCaptcha h.config.Captcha e.now e.rnd = none →
        u'.CaptchaData = some c ∧
        (HandleUpdate h e.now e.rnd db e.update).out.any isCaptchaPrompt = false) ∧
      (h.config.Captcha = duplicateColors → ∀ rest, e.rnd = 2 :: rest →
        u'.CaptchaData = some c ∧
        (HandleUpdate h e.now e.rnd db e.update).out.any isCaptchaPrompt = false) := by
  obtain ⟨now, rnd, ⟨msg, cbq⟩⟩ := e
  have huid := FindOne_TelegramID db _ u hfind
  simp only at hexp
  have key : ∃ u', FindOne (HandleUpdate h now rnd db ⟨msg, cbq⟩).db id = some u' ∧
      u'.VerificationAttempts = u.VerificationAttempts ∧ Unverified u' ∧
      (∀ cNew, generateCaptcha h.config.Captcha now rnd = some cNew →
        u'.CaptchaData = some cNew ∧
        (HandleUpdate h now rnd db ⟨msg, cbq⟩).out.any isCaptchaPrompt = true) ∧
      (generateCaptcha h.config.Captcha now rnd = none →
        u'.CaptchaData = some c ∧
        (HandleUpdate h now rnd db ⟨msg, cbq⟩).out.any isCaptchaPrompt = false) := by
    unfold AnswerSubmission at hsub
    cases msg with
    | some m =>
      obtain ⟨hm, hbot, hcmd⟩ := hsub
      subst hm
      obtain ⟨db1, hg2, hrun⟩ := handleMessage_found h now rnd db m u hfind
      obtain ⟨t1, t2, t3, t4, t5, t6⟩ := refreshProfile_trust now m.From.UserName
        m.From.FirstName m.From.LastName u
      have hnlt : ¬ now < c.ExpiresAt := by omega
      simp only [HandleUpdate, hrun, hbot, hcmd, hunv.1, hunv.2, handleUnverifiedUser, hc, hnlt,
        Bool.false_eq_true, if_false, Bool.not_false, if_true, FindOne_sendNewCaptcha,
        huid, hg2, sendNewCaptcha]
      cases hgen : generateCaptcha h.config.Captcha now rnd with
      | none =>
        simp [t2, t3, t4, t5, hc, Unverified, hunv.1, hunv.2, isCaptchaPrompt, hg2]
      | some cNew =>
        simp [t2, t3, t4, Unverified, hunv.1, hunv.2, isCaptchaPrompt, FindOne_SaveCaptcha, hg2]
    | none =>
      cases cbq with
      | none => simp at hsub
      | some cb =>
        obtain ⟨n, hn, hdata⟩ := hsub
        simp only [HandleUpdate, handleCallback, hdata, HasPrefix_captcha, if_true,
          handleCaptchaCallback, Split_captcha, ParseInt_fmtInt id hid.1 hid.2, Atoi,
          ParseInt_fmtInt n hn.1 hn.2, GetUserByTelegramID, hfind, hc, hexp,
          FindOne_sendNewCaptcha, huid, sendNewCaptcha]
        cases hgen : generateCaptcha h.config.Captcha now rnd with
        | none =>
          simp [hc, Unverified, hunv.1, hunv.2, isCaptchaPrompt, hfind]
        | some cNew =>
          simp [Unverified, hunv.1, hunv.2, isCaptchaPrompt, FindOne_SaveCaptcha, hfind]
  obtain ⟨u', h1, h2, h3, h4, h5⟩ := key
  refine ⟨u', h1, h2, h3, h4, h5, ?_⟩
  intro hcfg rest hr
  simp only at hr
  apply h5
  rw [hcfg, hr]
  exact generateCaptcha_duplicateColors now rest

/-- C3, at the failing input: the pool is `red,red,red,red`; identity 7 has one attempt and
the challenge `7 + 3`, which this configuration issued at time 0 and which has expired. The
kind draw is `2`. The right answer `10` is not scored, the expired challenge is still the
stored one afterwards and no prompt is sent. -/
theorem C3_expired_submission_not_scored_witness :
    generateCaptcha duplicateHandler.config.Captcha 0 [0, 6, 2] = some (sampleAddition 0) ∧
    ∃ u', FindOne (HandleUpdate duplicateHandler (twoMinutes + 1) [2, 0, 1, 2, 3]
        [sampleUser false false 1 (some (sampleAddition 0))]
        (textEvent (twoMinutes + 1) [2, 0, 1, 2, 3] "10").update).db 7 = some u' ∧
      u'.VerificationAttempts = 1 ∧ Unverified u' ∧
      u'.CaptchaData = some (sampleAddition 0) ∧
      (HandleUpdate duplicateHandler (twoMinutes + 1) [2, 0, 1, 2, 3]
        [sampleUser false false 1 (some (sampleAddition 0))]
        (textEvent (twoMinutes + 1) [2, 0, 1, 2, 3] "10").update).out.any
          isCaptchaPrompt = false :=
  have hw := C3_expired_submission_not_scored duplicateHandler 7
    [sampleUser false false 1 (some (sampleAddition 0))]
    (sampleUser false false 1 (some (sampleAddition 0))) (sampleAddition 0)
    (textEvent (twoMinutes + 1) [2, 0, 1, 2, 3] "10")
    (by decide) (by decide) (by decide) rfl ⟨rfl, rfl, rfl⟩ (by decide)
  ⟨by decide, hw.imp fun _ hu =>
    ⟨hu.1, hu.2.1, hu.2.2.1, (hu.2.2.2.2.2 rfl [0, 1, 2, 3] rfl).1,
      (hu.2.2.2.2.2 rfl [0, 1, 2, 3] rfl).2⟩⟩

/-! ## C17: two submissions at the same time -/

/-- C17 (code at the failing input): `handleMessage` is its call of `GetOrCreateUser`
followed by `messageAfterRead` on the document read. Identity 7 is Unverified with no
attempts and the active challenge `9 - 5`. Two wrong typed answers arrive together and
both handlers read the document before either goes on (`readThenRun`): the counter ends at
2, yet both handlers report 2 attempts left and neither reports 1, because
checkCaptchaAnswer computes the remaining attempts from the document it read before the
increments. The same two answers handled one after the other report 2 and then 1. -/
theorem C17_stale_read_reports_same_remaining :
    (∀ (h : BotHandler) (now : Int) (rnd : List Nat) (db : Users) (m : Message),
      handleMessage h now rnd db m =
        messageAfterRead h now rnd
          (GetOrCreateUser db now m.From.ID m.From.UserName m.From.FirstName m.From.LastName
            m.From.IsBot).2 m
          (GetOrCreateUser db now m.From.ID m.From.UserName m.From.FirstName m.From.LastName
            m.From.IsBot).1) ∧
    attemptsOf (readThenRun sampleHandler 1 drawsMath drawsChoice
        [sampleUser false false 0 (some (sampleMath 0))]
        (sampleText "0") (sampleText "1")).2.db 7 = 2 ∧
    (readThenRun sampleHandler 1 drawsMath drawsChoice
        [sampleUser false false 0 (some (sampleMath 0))]
        (sampleText "0") (sampleText "1")).1.out.any (isRetryNotice 2) = true ∧
    (readThenRun sampleHandler 1 drawsMath drawsChoice
        [sampleUser false false 0 (some (sampleMath 0))]
        (sampleText "0") (sampleText "1")).2.out.any (isRetryNotice 2) = true ∧
    (readThenRun sampleHandler 1 drawsMath drawsChoice
        [sampleUser false false 0 (some (sampleMath 0))]
        (sampleText "0") (sampleText "1")).2.out.any (isRetryNotice 1) = false ∧
    (handleMessage sampleHandler 1 drawsMath
        [sampleUser false false 0 (some (sampleMath 0))] (sampleText "0")).out.any
      (isRetryNotice 2) = true ∧
    (handleMessage sampleHandler 1 drawsChoice
        (handleMessage sampleHandler 1 drawsMath
          [sampleUser false false 0 (some (sampleMath 0))] (sampleText "0")).db
        (sampleText "1")).out.any (isRetryNotice 1) = true := by
  refine ⟨fun _ _ _ _ _ => rfl, ?_, ?_, ?_, ?_, ?_, ?_⟩ <;> decide

/-! ## C18 and C20: the expiry boundary and the option index -/

/-- C18 (code at the failing input): at now = expires-at the right answer `4`, typed, is
not scored by handleUnverifiedUser (no attempt is counted, the user stays unverified and
a new challenge replaces the old one), while at the same instant the tap on the right
option is scored by handleCaptchaCallback and verifies the user. -/
theorem C18_typed_answer_at_expiry_not_scored :
    (sampleMath 0).ExpiresAt = twoMinutes ∧
    (FindOne (handleUnverifiedUser sampleHandler twoMinutes drawsMath
        [sampleUser false false 0 (some (sampleMath 0))] 7 "4"
        (sampleUser false false 0 (some (sampleMath 0)))).db 7).map
      (fun u => (u.IsVerified, u.VerificationAttempts, u.CaptchaData)) =
      some (false, 0, some (sampleMath twoMinutes)) ∧
    (sampleChoice 0).ExpiresAt = twoMinutes ∧
    (FindOne (handleCaptchaCallback sampleHandler twoMinutes drawsMath
        [sampleUser false false 0 (some (sampleChoice 0))] (sampleTap "captcha_7_3")).db 7).map
      (fun u => (u.IsVerified, u.CaptchaData)) = some (true, some (sampleChoice 0)) := by
  decide

/-- C20 (code at the failing input): the tap `captcha_7_-1` on an unexpired choice
challenge passes the guard `optionIndex < len(Options)` and reaches the lookup
`Options[-1]`, which panics. -/
theorem C20_negative_index_reaches_lookup :
    Split "captcha_7_-1" '_' = ["captcha", "7", "-1"] ∧ Atoi "-1" = some (-1) ∧
    handleCaptchaCallback sampleHandler 1 []
        [sampleUser false false 0 (some (sampleChoice 0))] (sampleTap "captcha_7_-1") =
      { db := [sampleUser false false 0 (some (sampleChoice 0))]
        out := [Output.panic "index out of range"] } := by
  decide

/-! ## The fold table of `unicode.SimpleFold` -/

set_option maxRecDepth 100000 in
theorem foldRanges_sorted : sortedFrom 0 foldRanges = true := by decide

set_option maxRecDepth 100000 in
theorem foldRanges_valid : foldRanges.all rangeValid = true := by decide

set_option maxRecDepth 100000 in
theorem foldRanges_ok : foldRanges.all rangeOk = true := by decide!

theorem sortedFrom_lo (lb : Nat) (t : List FoldRange) (hs : sortedFrom lb t = true)
    (r : FoldRange) (hr : r ∈ t) : lb ≤ r.lo ∧ r.lo ≤ r.hi := by
  induction t generalizing lb with
  | nil => cases hr
  | cons r0 rs ih =>
    simp only [sortedFrom, Bool.and_eq_true, decide_eq_true_eq] at hs
    rcases List.mem_cons.mp hr with rfl | hr'
    · exact ⟨hs.1.1, hs.1.2⟩
    · have := ih (r0.hi + 1) hs.2 hr'
      omega

theorem findRange_some (n : Nat) (t : List FoldRange) (r : FoldRange)
    (h : findRange n t = some r) : r ∈ t ∧ r.lo ≤ n ∧ n ≤ r.hi := by
  induction t with
  | nil => cases h
  | cons r0 rs ih =>
    unfold findRange at h
    split at h
    · next h1 =>
      split at h
      · next h2 =>
        cases h
        exact ⟨List.mem_cons_self _ _, h2, h1⟩
      · cases h
    · obtain ⟨a, b, c⟩ := ih h
      exact ⟨List.mem_cons_of_mem _ a, b, c⟩

theorem findRange_mem (lb n : Nat) (t : List FoldRange) (hs : sortedFrom lb t = true)
    (r : FoldRange) (hr : r ∈ t) (h1 : r.lo ≤ n) (h2 : n ≤ r.hi) : findRange n t = some r := by
  induction t generalizing lb with
  | nil => cases hr
  | cons r0 rs ih =>
    have hs' := hs
    simp only [sortedFrom, Bool.and_eq_true, decide_eq_true_eq] at hs'
    unfold findRange
    rcases List.mem_cons.mp hr with rfl | hr'
    · rw [if_pos h2, if_pos h1]
    · have hlo := (sortedFrom_lo (r0.hi + 1) rs hs'.2 r hr').1
      rw [if_neg (by omega)]
      exact ih (r0.hi + 1) hs'.2 hr'

theorem findRange_none (n : Nat) (t : List FoldRange) (h : findRange n t = none)
    (r : FoldRange) (hr : r ∈ t) (lb : Nat) (hs : sortedFrom lb t = true) :
    ¬ (r.lo ≤ n ∧ n ≤ r.hi) := by
  intro ⟨h1, h2⟩
  rw [findRange_mem lb n t hs r hr h1 h2] at h
  cases h

theorem simpleFoldNat_of_range (n : Nat) (r : FoldRange) (hr : r ∈ foldRanges)
    (h1 : r.lo ≤ n) (h2 : n ≤ r.hi) : simpleFoldNat n = applyFold r n := by
  unfold simpleFoldNat
  rw [findRange_mem 0 n foldRanges foldRanges_sorted r hr h1 h2]

theorem goodWalk_spec (n a b c d : Nat) (h : goodWalk n a b c d = true) :
    n ∈ [a, b, c, d] ∧
    ∀ m ∈ [n, a, b, c], (n < a → ¬ (n < m ∧ m < a)) ∧ (a ≤ n → a ≤ m ∧ m ≤ n) := by
  unfold goodWalk at h
  simp only [Bool.and_eq_true, Bool.or_eq_true, beq_iff_eq, List.all_cons, List.all_nil,
    Bool.not_eq_true', decide_eq_false_iff_not, decide_eq_true_eq, Bool.and_true,
    Bool.and_eq_false_iff] at h
  simp only [List.mem_cons, List.mem_singleton, List.not_mem_nil, or_false, forall_eq_or_imp,
    forall_eq]
  obtain ⟨hc, h0, h1, h2, h3⟩ := h
  refine ⟨?_, ?_, ?_, ?_, ?_⟩
  · rcases hc with (((hc | hc) | hc) | hc)
    · exact Or.inl hc
    · exact Or.inr (Or.inl hc)
    · exact Or.inr (Or.inr (Or.inl hc))
    · exact Or.inr (Or.inr (Or.inr hc))
  all_goals constructor <;> intro hh <;> omega

theorem goodPoint_spec (n : Nat) (h : goodPoint n = true) : GoodPoint n :=
  goodWalk_spec n _ _ _ _ h

/-- A code point whose fold folds back to it. -/
theorem GoodPoint_of_swap (n : Nat) (h : simpleFoldNat (simpleFoldNat n) = n) : GoodPoint n := by
  unfold GoodPoint orbitNat
  simp only [h]
  generalize simpleFoldNat n = a
  simp only [List.mem_cons, List.mem_singleton, List.not_mem_nil, or_false,
    forall_eq_or_imp, forall_eq]
  refine ⟨Or.inr (Or.inl trivial), ?_, ?_, ?_, ?_⟩ <;> constructor <;> intro hh <;> omega

theorem foldRanges_mem_ok (r : FoldRange) (hr : r ∈ foldRanges) : rangeOk r = true :=
  List.all_eq_true.mp foldRanges_ok r hr

theorem simpleFoldNat_none (n : Nat) (h : findRange n foldRanges = none) :
    simpleFoldNat n = n := by
  unfold simpleFoldNat
  rw [h]

/-- Every code point has the properties Go documents of `SimpleFold`. -/
theorem GoodPoint_all (n : Nat) : GoodPoint n := by
  cases hf : findRange n foldRanges with
  | none =>
    have h1 := simpleFoldNat_none n hf
    exact GoodPoint_of_swap n (by rw [h1, h1])
  | some r =>
    obtain ⟨hr, h1, h2⟩ := findRange_some n foldRanges r hf
    have hok := foldRanges_mem_ok r hr
    have hFn := simpleFoldNat_of_range n r hr h1 h2
    obtain ⟨lo, hi, step⟩ := r
    simp only at h1 h2
    cases step with
    | pair =>
      simp only [rangeOk, beq_iff_eq] at hok
      simp only [applyFold] at hFn
      apply GoodPoint_of_swap
      by_cases hpar : (n - lo) % 2 = 0
      · rw [if_pos hpar] at hFn
        rw [hFn, simpleFoldNat_of_range (n + 1) _ hr (by simp only; omega) (by simp only; omega)]
        simp only [applyFold]
        rw [if_neg (by omega)]
        omega
      · rw [if_neg hpar] at hFn
        rw [hFn, simpleFoldNat_of_range (n - 1) _ hr (by simp only; omega) (by simp only; omega)]
        simp only [applyFold]
        rw [if_pos (by omega)]
        omega
    | up d =>
      simp only [rangeOk, Bool.and_eq_true, decide_eq_true_eq, Bool.or_eq_true,
        beq_iff_eq] at hok
      simp only [applyFold] at hFn
      obtain ⟨hd, hp | hs⟩ := hok
      · cases hq : findRange (lo + d) foldRanges with
        | none => rw [hq] at hp; cases hp
        | some p =>
          rw [hq] at hp
          simp only [Bool.and_eq_true, beq_iff_eq] at hp
          obtain ⟨hpm, _, _⟩ := findRange_some _ _ p hq
          obtain ⟨plo, phi, pstep⟩ := p
          simp only at hp
          obtain ⟨⟨e1, e2⟩, e3⟩ := hp
          subst e1 e2 e3
          apply GoodPoint_of_swap
          rw [hFn, simpleFoldNat_of_range (n + d) _ hpm (by simp only; omega)
            (by simp only; omega)]
          simp only [applyFold]
          omega
      · have : n = lo := by omega
        subst this
        exact goodPoint_spec n hs.2
    | down d =>
      simp only [rangeOk, Bool.and_eq_true, decide_eq_true_eq, Bool.or_eq_true,
        beq_iff_eq] at hok
      simp only [applyFold] at hFn
      obtain ⟨⟨hd, hdl⟩, hp | hs⟩ := hok
      · cases hq : findRange (lo - d) foldRanges with
        | none => rw [hq] at hp; cases hp
        | some p =>
          rw [hq] at hp
          simp only [Bool.and_eq_true, beq_iff_eq] at hp
          obtain ⟨hpm, _, _⟩ := findRange_some _ _ p hq
          obtain ⟨plo, phi, pstep⟩ := p
          simp only at hp
          obtain ⟨⟨e1, e2⟩, e3⟩ := hp
          subst e1 e2 e3
          apply GoodPoint_of_swap
          rw [hFn, simpleFoldNat_of_range (n - d) _ hpm (by simp only; omega)
            (by simp only; omega)]
          simp only [applyFold]
          omega
      · have : n = lo := by omega
        subst this
        exact goodPoint_spec n hs.2

theorem closure_period (n : Nat) :
    ∃ k, 1 ≤ k ∧ k ≤ 4 ∧ simpleFoldNat^[k] n = n := by
  have h := (GoodPoint_all n).1
  unfold orbitNat at h
  simp only [List.mem_cons, List.mem_singleton, List.not_mem_nil, or_false] at h
  rcases h with h | h | h | h
  · exact ⟨1, by omega, by omega, h.symm⟩
  · exact ⟨2, by omega, by omega, h.symm⟩
  · exact ⟨3, by omega, by omega, h.symm⟩
  · exact ⟨4, by omega, by omega, h.symm⟩

theorem mem_orbitNat_iff (n m : Nat) : m ∈ orbitNat n ↔ ∃ j, simpleFoldNat^[j] n = m := by
  constructor
  · intro h
    unfold orbitNat at h
    simp only [List.mem_cons, List.mem_singleton, List.not_mem_nil, or_false] at h
    rcases h with h | h | h | h
    · exact ⟨0, h.symm⟩
    · exact ⟨1, h.symm⟩
    · exact ⟨2, h.symm⟩
    · exact ⟨3, h.symm⟩
  · rintro ⟨j, rfl⟩
    obtain ⟨k, k1, k4, hk⟩ := closure_period n
    have hp : Function.IsPeriodicPt simpleFoldNat k n := hk
    rw [← hp.iterate_mod_apply j]
    have hlt : j % k < k := Nat.mod_lt _ (by omega)
    unfold orbitNat
    simp only [List.mem_cons, List.mem_singleton, List.not_mem_nil, or_false]
    have h4 : j % k = 0 ∨ j % k = 1 ∨ j % k = 2 ∨ j % k = 3 := by omega
    rcases h4 with e | e | e | e <;> rw [e]
    · exact Or.inl rfl
    · exact Or.inr (Or.inl rfl)
    · exact Or.inr (Or.inr (Or.inl rfl))
    · exact Or.inr (Or.inr (Or.inr rfl))

theorem orbitNat_refl (n : Nat) : n ∈ orbitNat n :=
  (mem_orbitNat_iff n n).mpr ⟨0, rfl⟩

theorem toNat_ofNat_valid (n : Nat) (h : n.isValidChar) : (Char.ofNat n).toNat = n := by
  simp only [Char.ofNat, h, dite_true, Char.ofNatAux, Char.toNat]
  rfl

theorem char_eq_of_toNat (a b : Char) (h : a.toNat = b.toNat) : a = b := by
  rw [← Char.ofNat_toNat a, ← Char.ofNat_toNat b, h]

theorem char_eq_iff_toNat (a b : Char) : a = b ↔ a.toNat = b.toNat :=
  ⟨fun h => by rw [h], char_eq_of_toNat a b⟩

theorem toNat_valid (c : Char) : c.toNat.isValidChar := by
  have h := c.valid
  unfold Char.toNat
  exact h

theorem foldRanges_mem_valid (r : FoldRange) (hr : r ∈ foldRanges) : rangeValid r = true :=
  List.all_eq_true.mp foldRanges_valid r hr

/-- `SimpleFold` stays inside the code points of characters. -/
theorem simpleFoldNat_valid (n : Nat) (hn : n.isValidChar) : (simpleFoldNat n).isValidChar := by
  cases hf : findRange n foldRanges with
  | none => rw [simpleFoldNat_none n hf]; exact hn
  | some r =>
    obtain ⟨hr, h1, h2⟩ := findRange_some n foldRanges r hf
    have hok := foldRanges_mem_ok r hr
    have hv := foldRanges_mem_valid r hr
    rw [simpleFoldNat_of_range n r hr h1 h2]
    obtain ⟨lo, hi, step⟩ := r
    simp only at h1 h2
    unfold Nat.isValidChar
    cases step with
    | pair =>
      simp only [rangeOk, beq_iff_eq] at hok
      simp only [rangeValid, Bool.and_eq_true, Bool.or_eq_true, decide_eq_true_eq,
        and_true] at hv
      simp only [applyFold]
      split_ifs <;> omega
    | up d =>
      simp only [rangeValid, Bool.and_eq_true, Bool.or_eq_true, decide_eq_true_eq] at hv
      simp only [applyFold]
      omega
    | down d =>
      simp only [rangeOk, Bool.and_eq_true, decide_eq_true_eq] at hok
      simp only [rangeValid, Bool.and_eq_true, Bool.or_eq_true, decide_eq_true_eq] at hv
      simp only [applyFold]
      omega

theorem SimpleFold_toNat (c : Char) : (SimpleFold c).toNat = simpleFoldNat c.toNat := by
  unfold SimpleFold
  exact toNat_ofNat_valid _ (simpleFoldNat_valid _ (toNat_valid c))

theorem mem_caseOrbit_iff (a b : Char) : b ∈ caseOrbit a ↔ b.toNat ∈ orbitNat a.toNat := by
  unfold caseOrbit orbitNat
  simp only [List.mem_cons, List.mem_singleton, List.not_mem_nil, or_false, char_eq_iff_toNat,
    SimpleFold_toNat]

theorem SameLetter_refl (a : Char) : SameLetter a a := by
  unfold SameLetter
  rw [mem_caseOrbit_iff]
  exact orbitNat_refl _

theorem EqualIgnoringCase_refl (s : String) : EqualIgnoringCase s s := by
  unfold EqualIgnoringCase
  exact List.forall₂_same.mpr fun a _ => SameLetter_refl a

theorem handleCaptchaCallback_parsed (h : BotHandler) (now : Int) (rnd : List Nat) (db : Users)
    (cb : CallbackQuery) (a idPart indexPart : String) (id i : Int)
    (hs : Split cb.Data '_' = [a, idPart, indexPart]) (hp : ParseInt idPart = some id)
    (hi : Atoi indexPart = some i) :
    handleCaptchaCallback h now rnd db cb = captchaTapBody h now rnd db cb id i := by
  unfold handleCaptchaCallback captchaTapBody
  simp only [hs, hp, hi]

theorem handleCallback_captcha (h : BotHandler) (now : Int) (rnd : List Nat) (db : Users)
    (cb : CallbackQuery) (id i : Int) (hid : IsInt64 id) (hi : IsInt64 i)
    (hd : cb.Data = "captcha_" ++ fmtInt id ++ "_" ++ fmtInt i) :
    handleCallback h now rnd db cb = handleCaptchaCallback h now rnd db cb ∧
    handleCaptchaCallback h now rnd db cb = captchaTapBody h now rnd db cb id i := by
  constructor
  · unfold handleCallback
    rw [hd, HasPrefix_captcha, if_pos rfl]
  · exact handleCaptchaCallback_parsed h now rnd db cb "captcha" (fmtInt id) (fmtInt i) id i
      (by rw [hd, Split_captcha]) (ParseInt_fmtInt id hid.1 hid.2)
      (by unfold Atoi; exact ParseInt_fmtInt i hi.1 hi.2)

theorem handleCallback_accept (h : BotHandler) (now : Int) (rnd : List Nat) (db : Users)
    (cb : CallbackQuery) (id : Int) (hid : IsInt64 id) (hd : cb.Data = "accept_" ++ fmtInt id) :
    handleCallback h now rnd db cb = handleAcceptUser now db cb ∧
    handleAcceptUser now db cb =
      { db := UpdateUserVerification db now id true
        out := moderationOutputs cb
          (GetUserByTelegramID (UpdateUserVerification db now id true) id)
          "\n\n✅ Accepted by administrator" "✅ User accepted"
          "✅ The administrator has accepted your request. You can now send messages." } := by
  constructor
  · unfold handleCallback
    rw [hd, HasPrefix_accept, HasPrefix_append]
    rfl
  · unfold handleAcceptUser
    simp only [hd, Split_accept, ParseInt_fmtInt id hid.1 hid.2]

theorem handleCallback_block (h : BotHandler) (now : Int) (rnd : List Nat) (db : Users)
    (cb : CallbackQuery) (id : Int) (hid : IsInt64 id) (hd : cb.Data = "block_" ++ fmtInt id) :
    handleCallback h now rnd db cb = handleBlockUser now db cb ∧
    handleBlockUser now db cb =
      { db := blockUser db now id
        out := moderationOutputs cb (GetUserByTelegramID (blockUser db now id) id)
          "\n\n⛔ Blocked by administrator" "⛔ User is blocked"
          "⛔ The administrator has blocked your access." } := by
  constructor
  · unfold handleCallback
    rw [hd, (HasPrefix_block _).1, (HasPrefix_block _).2.1, (HasPrefix_block _).2.2,
      HasPrefix_append]
    rfl
  · unfold handleBlockUser
    simp only [hd, Split_block, ParseInt_fmtInt id hid.1 hid.2]

theorem captchaTapBody_frame (h : BotHandler) (now : Int) (rnd : List Nat) (db : Users)
    (cb : CallbackQuery) (id i j : Int) (hj : j ≠ id) :
    FindOne (captchaTapBody h now rnd db cb id i).db j = FindOne db j := by
  unfold captchaTapBody
  cases hget : GetUserByTelegramID db id with
  | none => rfl
  | some user =>
    have hu : user.TelegramID = id := FindOne_TelegramID db id user hget
    simp only
    cases hc : user.CaptchaData with
    | none => rfl
    | some captcha =>
      simp only
      have hsend : ∀ (d : Users) (w : User), w.TelegramID = id →
          FindOne (sendNewCaptcha h now rnd d cb.Message.Chat.ID w).db j = FindOne d j := by
        intro d w hw
        rw [FindOne_sendNewCaptcha]
        cases generateCaptcha h.config.Captcha now rnd with
        | none => rfl
        | some c => simp only [hw, if_neg hj]
      split
      · exact hsend db user hu
      · split
        · cases hio : indexOption captcha.Options i with
          | none => rfl
          | some selectedAnswer =>
            simp only
            split
            · simp only [FindOne_UpdateUserVerification, hu, if_neg hj]
            · have hinc : FindOne (IncrementAttempts db now user.TelegramID) j = FindOne db j := by
                simp only [FindOne_IncrementAttempts, hu, if_neg hj]
              cases hget1 : GetUserByTelegramID (IncrementAttempts db now user.TelegramID) id with
              | none => exact hinc
              | some user1 =>
                have hu1 : user1.TelegramID = id := FindOne_TelegramID _ id user1 hget1
                simp only
                split
                · simp only [FindOne_blockUser, hu1, if_neg hj]
                  exact hinc
                · rw [hsend _ user1 hu1]
                  exact hinc
        · rfl

theorem captchaTapBody_correct (h : BotHandler) (now : Int) (rnd : List Nat) (db : Users)
    (cb : CallbackQuery) (id i : Int) (u : User) (c : Captcha)
    (hu : FindOne db id = some u) (hc : u.CaptchaData = some c) (hexp : ¬ c.ExpiresAt < now)
    (hlt : i < c.Options.length) (hsel : indexOption c.Options i = some c.Answer) :
    FindOne (captchaTapBody h now rnd db cb id i).db id =
      some { u with IsVerified := true, UpdatedAt := now, VerifiedAt := some now } := by
  have hid : u.TelegramID = id := FindOne_TelegramID db id u hu
  unfold captchaTapBody GetUserByTelegramID
  simp only [hu, hc, if_neg hexp, if_pos hlt, hsel, if_true, FindOne_UpdateUserVerification, hid,
    Option.map_some']

/-- C22: the store a callback leaves behind does not depend on who sent it. Replacing the
sender of a callback by any other sender (the operator or not) leaves the whole run of
handleCallback, store and outputs, unchanged. In particular, whoever the sender is: the
data `accept_<id>` sets the document of `id` verified, the data `block_<id>` sets it
blocked and not verified, and a tap `captcha_<id>_<i>` changes no document other than that
of `id` and, when option `i` is the correct one of the active challenge of `id`, sets the
document of `id` verified. -/
theorem C22_callback_effect_ignores_sender (h : BotHandler) (now : Int) (rnd : List Nat)
    (db : Users) (cb : CallbackQuery) (sender : TgUser) :
    handleCallback h now rnd db { cb with From := sender } = handleCallback h now rnd db cb ∧
    (∀ id u, IsInt64 id → FindOne db id = some u → cb.Data = "accept_" ++ fmtInt id →
      FindOne (handleCallback h now rnd db { cb with From := sender }).db id =
        some { u with IsVerified := true, UpdatedAt := now, VerifiedAt := some now }) ∧
    (∀ id u, IsInt64 id → FindOne db id = some u → cb.Data = "block_" ++ fmtInt id →
      FindOne (handleCallback h now rnd db { cb with From := sender }).db id =
        some { u with IsBlocked := true, IsVerified := false, UpdatedAt := now }) ∧
    (∀ id i, IsInt64 id → IsInt64 i →
      cb.Data = "captcha_" ++ fmtInt id ++ "_" ++ fmtInt i →
      (∀ j, j ≠ id →
        FindOne (handleCallback h now rnd db { cb with From := sender }).db j = FindOne db j) ∧
      (∀ u c, FindOne db id = some u → u.CaptchaData = some c → ¬ c.ExpiresAt < now →
        i < c.Options.length → indexOption c.Options i = some c.Answer →
        FindOne (handleCallback h now rnd db { cb with From := sender }).db id =
          some { u with IsVerified := true, UpdatedAt := now, VerifiedAt := some now })) := by
  have hsame : handleCallback h now rnd db { cb with From := sender } =
      handleCallback h now rnd db cb := rfl
  refine ⟨hsame, ?_, ?_, ?_⟩
  · intro id u hid hu hd
    rw [hsame, (handleCallback_accept h now rnd db cb id hid hd).1,
      (handleCallback_accept h now rnd db cb id hid hd).2]
    simp only [FindOne_UpdateUserVerification, if_true, hu, Option.map_some']
  · intro id u hid hu hd
    rw [hsame, (handleCallback_block h now rnd db cb id hid hd).1,
      (handleCallback_block h now rnd db cb id hid hd).2]
    simp only [FindOne_blockUser, if_true, hu, Option.map_some']
  · intro id i hid hi hd
    rw [hsame, (handleCallback_captcha h now rnd db cb id i hid hi hd).1,
      (handleCallback_captcha h now rnd db cb id i hid hi hd).2]
    exact ⟨fun j hj => captchaTapBody_frame h now rnd db cb id i j hj,
      fun u c hu hc hexp hlt hsel => captchaTapBody_correct h now rnd db cb id i u c hu hc hexp
        hlt hsel⟩

/-- C22, instance: the sender 8 is not the operator 1. Their `accept_7` sets the document
of 7 verified, and their tap `captcha_7_3` on the correct option of the active challenge of
7 sets the document of 7 verified and leaves the sender's own document as it was. -/
theorem C22_callback_effect_ignores_sender_witness :
    otherSender.ID ≠ sampleHandler.adminID ∧
    FindOne (handleCallback sampleHandler 1 drawsMath
        [sampleUser false false 0 (some (sampleChoice 0)),
         { sampleUser false false 0 (some (sampleChoice 0)) with TelegramID := 8 }]
        { sampleTap "accept_7" with From := otherSender }).db 7 =
      some { sampleUser false false 0 (some (sampleChoice 0)) with
        IsVerified := true, UpdatedAt := 1, VerifiedAt := some 1 } ∧
    FindOne (handleCallback sampleHandler 1 drawsMath
        [sampleUser false false 0 (some (sampleChoice 0)),
         { sampleUser false false 0 (some (sampleChoice 0)) with TelegramID := 8 }]
        { sampleTap "captcha_7_3" with From := otherSender }).db 7 =
      some { sampleUser false false 0 (some (sampleChoice 0)) with
        IsVerified := true, UpdatedAt := 1, VerifiedAt := some 1 } ∧
    FindOne (handleCallback sampleHandler 1 drawsMath
        [sampleUser false false 0 (some (sampleChoice 0)),
         { sampleUser false false 0 (some (sampleChoice 0)) with TelegramID := 8 }]
        { sampleTap "captcha_7_3" with From := otherSender }).db 8 =
      some { sampleUser false false 0 (some (sampleChoice 0)) with TelegramID := 8 } :=
  ⟨by decide,
   (C22_callback_effect_ignores_sender sampleHandler 1 drawsMath
      [sampleUser false false 0 (some (sampleChoice 0)),
       { sampleUser false false 0 (some (sampleChoice 0)) with TelegramID := 8 }]
      (sampleTap "accept_7") otherSender).2.1 7 _ (by decide) rfl (by decide),
   ((C22_callback_effect_ignores_sender sampleHandler 1 drawsMath
      [sampleUser false false 0 (some (sampleChoice 0)),
       { sampleUser false false 0 (some (sampleChoice 0)) with TelegramID := 8 }]
      (sampleTap "captcha_7_3") otherSender).2.2.2 7 3 (by decide) (by decide) (by decide)).2
      _ (sampleChoice 0) rfl rfl (by decide) (by decide) (by decide),
   ((C22_callback_effect_ignores_sender sampleHandler 1 drawsMath
      [sampleUser false false 0 (some (sampleChoice 0)),
       { sampleUser false false 0 (some (sampleChoice 0)) with TelegramID := 8 }]
      (sampleTap "captcha_7_3") otherSender).2.2.2 7 3 (by decide) (by decide) (by decide)).1
      8 (by decide)⟩

end Gatekeeper
